import Mathlib

/-!
# INT 13h disk services (`src/disk.c`): shallow embedding

The C functions of `disk.c` are embedded as pure state-passing functions.

* Registers (`struct bregs`) are a record of natural numbers; 8-bit and
  16-bit stores are written with an explicit `% 256` / `% 65536`.
* `u32` arithmetic is natural-number arithmetic reduced `% 2^32`; the
  conversion of a `u32` to the `int` a function returns is `toInt32`.
* Memory is one flat byte map (`Nat → Nat`), addressed by flat pointers.
* The execution engines `process_ata_op` / `process_atapi_op`, the drive table
  and the constants of the headers are parameters (`Env`, `Config`).
* Two ghost logs instrument the state: `calls` has one entry per invocation of
  `send_disk_op`, `rets` one entry per invocation of `__disk_ret`.
-/

namespace Disk

/-! ## Data model -/

/-- Build-time constants that `disk.c` takes from its headers (`disk.h`,
`config.h`, `biosvar.h`). They are kept as parameters: no result below depends
on their numeric values unless a hypothesis says so. -/
structure Config where
  /-- Status code `DISK_RET_SUCCESS`. -/
  DISK_RET_SUCCESS : Nat
  /-- Status code `DISK_RET_EPARAM`. -/
  DISK_RET_EPARAM : Nat
  /-- Status code `DISK_RET_EBADTRACK`. -/
  DISK_RET_EBADTRACK : Nat
  /-- Build option `CONFIG_DRIVES`. -/
  CONFIG_DRIVES : Bool
  /-- Device class tag `DTYPE_ATA`. -/
  DTYPE_ATA : Nat
  /-- Device class tag `DTYPE_ATAPI`. -/
  DTYPE_ATAPI : Nat
  /-- The offset `offsetof(struct extended_bios_data_area_s, cdemu_buf)`. -/
  cdemu_buf : Nat
  /-- Status code `DISK_RET_ENOTREADY`. -/
  DISK_RET_ENOTREADY : Nat
  /-- Status code `DISK_RET_ENOTREMOVABLE`. -/
  DISK_RET_ENOTREMOVABLE : Nat
  /-- Build option `CONFIG_CDROM_EMU`. -/
  CONFIG_CDROM_EMU : Bool
  /-- Build option `CONFIG_ATA_PIO32`. -/
  CONFIG_ATA_PIO32 : Bool
  /-- Command codes `CMD_*` of a disk operation. -/
  CMD_RESET : Nat
  CMD_READ : Nat
  CMD_WRITE : Nat
  CMD_VERIFY : Nat
  CMD_SEEK : Nat
  CMD_ISREADY : Nat
  /-- CHS-translation modes `TRANSLATION_*`. -/
  TRANSLATION_NONE : Nat
  TRANSLATION_LBA : Nat
  TRANSLATION_RECHS : Nat
  /-- ATA register constants `ATA_CB_DC`, `ATA_CB_DH_DEV0`, `ATA_CB_DH_DEV1`,
  `ATA_CB_DH_LBA`. -/
  ATA_CB_DC : Nat
  ATA_CB_DH_DEV0 : Nat
  ATA_CB_DH_DEV1 : Nat
  ATA_CB_DH_LBA : Nat
  /-- Rows `EXTTYPE_*` of the drive selector map. -/
  EXTTYPE_FLOPPY : Nat
  EXTTYPE_HD : Nat
  EXTTYPE_CD : Nat
  /-- Width `ARRAY_SIZE(Drives.idmap[0])` of a row of the selector map. -/
  idmap_width : Nat
  /-- Width `ARRAY_SIZE(Drives.drives)` of the drive table. -/
  drives_width : Nat
  /-- The offset `offsetof(struct extended_bios_data_area_s, dpte)`. -/
  dpte : Nat

/-- Modelled from the spec: `struct bregs` of the absent `bregs.h`, the
register-like field set of the inbound request convention, restricted to the
fields the disk handlers use. `cf` is the carry/error indicator. Byte
registers hold values below 256 and word registers values below 65536. -/
structure Bregs where
  al : Nat
  ah : Nat
  bx : Nat
  cl : Nat
  ch : Nat
  dl : Nat
  dh : Nat
  si : Nat
  ds : Nat
  es : Nat
  cf : Bool
  deriving DecidableEq

/-- Modelled from the spec: a geometry `struct chs_s` of the absent `disk.h`
(cylinders, heads, sectors-per-track); the code reads each field as `u16`. -/
structure Chs where
  heads : Nat
  cylinders : Nat
  spt : Nat
  deriving DecidableEq

/-- Modelled from the spec: a disk operation `struct disk_op_s` of the absent
`disk.h`: {drive id, command, starting block address, block count, buffer
flat pointer}. -/
structure DiskOp where
  lba : Nat
  buf_fl : Nat
  count : Nat
  driveid : Nat
  command : Nat
  deriving DecidableEq

/-- Modelled from the spec: the fields of a drive record `Drives.drives[i]`
(absent `disk.h`) that the functions below read: device class, logical and
physical geometry, total block count, block size, controller identity and
CHS-translation mode. -/
structure Drive where
  type : Nat
  lchs : Chs
  sectors : Nat
  pchs : Chs
  blksize : Nat
  cntl_id : Nat
  translation : Nat
  deriving DecidableEq

/-- Modelled from the spec: the channel I/O parameters `ATA_channels[i]` of the
absent `ata.h`: I/O base addresses, interrupt line, bus path. -/
structure Channel where
  iobase1 : Nat
  iobase2 : Nat
  irq : Nat
  pci_bdf : Nat
  deriving DecidableEq

/-- Modelled from the spec: the parameter block `struct int13dpt_s` of the
absent `disk.h`, addressed by `DS:SI` and accessed through `GET_INT13DPT` /
`SET_INT13DPT`. Its 66 bytes are, in order: tier 0 (26 bytes) `size` (2),
`infos` (2), `cylinders` (4), `heads` (4), `spt` (4), `sector_count` (8),
`blksize` (2); tier 1 (4 bytes) `dpte_offset` (2), `dpte_segment` (2); tier 2
(36 bytes) `key` (2), `dpi_length` (1), `reserved1` (1), `reserved2` (2),
`host_bus` (4), `iface_type` (8), `iface_path` (8), `device_path` (8),
`reserved3` (1), `checksum` (1). -/
structure Int13Dpt where
  size : Nat
  infos : Nat
  cylinders : Nat
  heads : Nat
  spt : Nat
  sector_count : Nat
  blksize : Nat
  dpte_offset : Nat
  dpte_segment : Nat
  key : Nat
  dpi_length : Nat
  reserved1 : Nat
  reserved2 : Nat
  host_bus : List Nat
  iface_type : List Nat
  iface_path : Nat
  device_path : Nat
  reserved3 : Nat
  checksum : Nat
  deriving DecidableEq

/-- Modelled from the spec: the device-path-table sub-block `struct dpte_s` of
the absent `disk.h`, kept in the EBDA. Its 16 bytes are, in order: `iobase1`
(2), `iobase2` (2), `prefix`, `unused`, `irq`, `blkcount`, `dma`, `pio` (1
each), `options` (2), `reserved` (2), `revision` (1), `checksum` (1). -/
structure Dpte where
  iobase1 : Nat
  iobase2 : Nat
  pfx : Nat
  unused : Nat
  irq : Nat
  blkcount : Nat
  dma : Nat
  pio : Nat
  options : Nat
  reserved : Nat
  revision : Nat
  checksum : Nat
  deriving DecidableEq

/-- Modelled from the spec: the extended request block `struct int13ext_s` of
the absent `disk.h`, addressed by `DS:SI` and accessed through `GET_INT13EXT` /
`SET_INT13EXT`: {declared-size, block-count, buffer segment:offset, 64-bit
starting block}. -/
structure Int13Ext where
  size : Nat
  count : Nat
  offset : Nat
  segment : Nat
  lba : Nat
  deriving DecidableEq

/-- Modelled from the spec: the emulation descriptor `cdemu` of the extended
BIOS data area (absent `biosvar.h`): {enabled flag, emulated selector,
starting block of the image, logical geometry of the emulated medium}. -/
structure Cdemu where
  active : Nat
  emulated_extdrive : Nat
  ilba : Nat
  lchs : Chs
  deriving DecidableEq

/-- Flat byte-addressed memory. -/
abbrev Mem := Nat → Nat

/-- One logged invocation of `send_disk_op`: the operation it was given, the
status it returned and the count it wrote back. -/
structure Call where
  op : DiskOp
  status : Int
  count : Nat
  deriving DecidableEq

/-- What an execution engine (`process_ata_op`, `process_atapi_op`) leaves
behind: its status, the updated `count` of the operation, memory and the state
of the device. -/
structure ExecResult where
  status : Int
  count : Nat
  mem : Mem
  dev : Mem

/-- An execution engine: from the device state, memory and an operation. -/
abbrev Engine := Mem → Mem → DiskOp → ExecResult

/-- The mutable state a request runs on. -/
structure State where
  regs : Bregs
  /-- BDA field `disk_last_status`. -/
  disk_last_status : Nat
  /-- Segment of the extended BIOS data area (`get_ebda_seg()`). -/
  ebda_seg : Nat
  /-- EBDA field `cdemu`. -/
  cdemu : Cdemu
  /-- The extended request block at `DS:SI`. -/
  ext : Int13Ext
  mem : Mem
  /-- State of the external device. -/
  dev : Mem
  /-- Ghost log of `send_disk_op` invocations, oldest first. -/
  calls : List Call
  /-- Ghost log of the codes given to `__disk_ret`, oldest first. -/
  rets : List Nat
  /-- The parameter block at `DS:SI`. -/
  dpt : Int13Dpt
  /-- EBDA field `dpte`. -/
  dpte : Dpte
  /-- BDA field `disk_interrupt_flag`. -/
  disk_interrupt_flag : Nat
  /-- BDA field `hdcount`. -/
  hdcount : Nat

/-- The read-only surroundings of a request: constants, the global tables and
the collaborators that live outside `disk.c`. -/
structure Env where
  K : Config
  /-- The drive table `Drives.drives[]`. -/
  drives : Nat → Drive
  process_ata_op : Engine
  process_atapi_op : Engine
  /-- The drive selector map `Drives.idmap[exttype][ordinal]`. -/
  idmap : Nat → Nat → Nat
  /-- The channel table `ATA_channels[]`. -/
  ATA_channels : Nat → Channel
  /-- The helpers `pci_bdf_to_bus`, `pci_bdf_to_dev`, `pci_bdf_to_fn` of `pci.h`. -/
  pci_bdf_to_bus : Nat → Nat
  pci_bdf_to_dev : Nat → Nat
  pci_bdf_to_fn : Nat → Nat
  /-- The floppy and CD-ROM handlers `floppy_13`, `cdrom_13` (other files). -/
  floppy_13 : State → Nat → State
  cdrom_13 : State → Nat → State
  /-- The emulation handlers `cdemu_13`, `cdemu_134b` (other files). -/
  cdemu_13 : State → State
  cdemu_134b : State → State
  /-- The indeterminate contents of a `struct disk_op_s` on the stack before
  any field is assigned. -/
  uninit : DiskOp

/-! ## Machine arithmetic -/

/-- Reduction to an unsigned 32-bit value. -/
def u32 (n : Nat) : Nat := n % 2 ^ 32

/-- Conversion of a `u32` value to `int` (two's complement). -/
def toInt32 (n : Nat) : Int :=
  if n % 2 ^ 32 < 2 ^ 31 then ((n % 2 ^ 32 : Nat) : Int) else ((n % 2 ^ 32 : Nat) : Int) - 2 ^ 32

/-! ## Helper functions -/

/-- Modelled from the spec: `set_code_success` of the absent `bregs.h`; the
outbound convention is a status byte (0 = success) and a carry/error
indicator, which success clears. -/
def set_code_success (regs : Bregs) : Bregs :=
  { regs with ah := 0, cf := false }

/-- Modelled from the spec: `__set_code_fail` of the absent `util.h`; it stores
the low byte of `linecode` as the status byte and sets the carry/error
indicator. -/
def __set_code_fail (regs : Bregs) (linecode : Nat) : Bregs :=
  { regs with ah := linecode % 256, cf := true }

/-- The function `__disk_ret` (disk.c:22). -/
def __disk_ret (s : State) (linecode : Nat) : State :=
  let code := linecode % 256
  let s := { s with disk_last_status := code, rets := s.rets ++ [code] }
  if code ≠ 0 then
    { s with regs := __set_code_fail s.regs linecode }
  else
    { s with regs := set_code_success s.regs }

/-- Modelled from the spec: the macro `disk_ret(regs, code)` of the absent
`disk.h`, the single status-reporting path; the source line it adds above bit
8 only reaches the debug output and is left out. -/
def disk_ret (s : State) (code : Nat) : State :=
  __disk_ret s code

/-- The function `__send_disk_op` (disk.c:44): runs the engine selected by the
drive's class and writes the transferred count back into the operation. -/
def __send_disk_op (E : Env) (s : State) (op : DiskOp) : Int × DiskOp × State :=
  let type := (E.drives op.driveid).type
  let r : ExecResult :=
    if type = E.K.DTYPE_ATA then E.process_ata_op s.dev s.mem op
    else if type = E.K.DTYPE_ATAPI then E.process_atapi_op s.dev s.mem op
    else ⟨0, op.count, s.mem, s.dev⟩
  (r.status, { op with count := r.count }, { s with mem := r.mem, dev := r.dev })

/-- The function `send_disk_op` (disk.c:77); `stack_hop` is a nested
synchronous call. Each invocation is appended to the ghost log `calls`. -/
def send_disk_op (E : Env) (s : State) (op : DiskOp) : Int × DiskOp × State :=
  let r : Int × DiskOp × State :=
    if E.K.CONFIG_DRIVES = false then (-1, op, s) else __send_disk_op E s op
  (r.1, r.2.1, { r.2.2 with calls := r.2.2.calls ++ [⟨op, r.1, r.2.1.count⟩] })

/-- The function `legacy_lba` (disk.c:87): the block address of an old-style
CHS request, or `-1` after reporting `DISK_RET_EPARAM`. -/
def legacy_lba (K : Config) (s : State) (lchs : Chs) : Int × State :=
  let count := s.regs.al
  let cylinder := s.regs.ch ||| ((s.regs.cl <<< 2) &&& 0x300)
  let sector := s.regs.cl &&& 0x3f
  let head := s.regs.dh
  if count > 128 ∨ count = 0 ∨ sector = 0 then
    (-1, disk_ret s K.DISK_RET_EPARAM)
  else
    let nlc := lchs.cylinders
    let nlh := lchs.heads
    let nlspt := lchs.spt
    if cylinder ≥ nlc ∨ head ≥ nlh ∨ sector > nlspt then
      (-1, disk_ret s K.DISK_RET_EPARAM)
    else
      -- `sector` is nonzero here, so the subtraction below is exact
      (toInt32 (u32 (u32 (u32 (cylinder * nlh) + head) * nlspt) + sector - 1), s)

/-- The store `regs->al = v`. -/
def setAl (s : State) (v : Nat) : State :=
  { s with regs := { s.regs with al := v } }

/-- Replacement of the memory of a state. -/
def setMem (s : State) (m : Mem) : State :=
  { s with mem := m }

/-- Modelled from the spec: the macro `MAKE_FLATPTR(seg, off)` of the absent
headers, the flat address of the real-mode far pointer `seg:off`. -/
def MAKE_FLATPTR (seg off : Nat) : Nat := seg * 16 + off

/-- The function `basic_access` (disk.c:121): read/write/verify through an
old-style CHS request. -/
def basic_access (E : Env) (s : State) (driveid command : Nat) : State :=
  let r := legacy_lba E.K s (E.drives driveid).lchs
  let lba := r.1
  let s := r.2
  if lba < 0 then
    s
  else
    let dop : DiskOp :=
      { driveid := driveid, command := command, lba := lba.toNat, count := s.regs.al,
        buf_fl := MAKE_FLATPTR s.regs.es s.regs.bx }
    let x := send_disk_op E s dop
    let status := x.1
    let dop := x.2.1
    let s := x.2.2
    let s := setAl s (dop.count % 256)
    if status ≠ 0 then
      disk_ret s E.K.DISK_RET_EBADTRACK
    else
      disk_ret s E.K.DISK_RET_SUCCESS

/-- The function `extended_access` (disk.c:213): read/write/verify/seek
through an extended ("int13ext") request block. -/
def extended_access (E : Env) (s : State) (driveid command : Nat) : State :=
  let lba := s.ext.lba
  if lba ≥ (E.drives driveid).sectors then
    disk_ret s E.K.DISK_RET_EPARAM
  else
    let segment := s.ext.segment
    let offset := s.ext.offset
    let dop : DiskOp :=
      { lba := lba, command := command, driveid := driveid,
        buf_fl := MAKE_FLATPTR segment offset, count := s.ext.count }
    let x := send_disk_op E s dop
    let status := x.1
    let dop := x.2.1
    let s := x.2.2
    let s := { s with ext := { s.ext with count := dop.count } }
    if status ≠ 0 then
      disk_ret s E.K.DISK_RET_EBADTRACK
    else
      disk_ret s E.K.DISK_RET_SUCCESS

/-- Modelled from the spec: `memcpy_far(d_seg, d_far, s_seg, s_far, len)` of
the absent `util.h`, the copy of `len` bytes from the far pointer
`s_seg:s_far` to the far pointer `d_seg:d_far` ("copy ... out of the scratch
buffer ... into the caller buffer"). -/
def memcpy_far (mem : Mem) (d_seg d_far s_seg s_far len : Nat) : Mem :=
  fun a =>
    if MAKE_FLATPTR d_seg d_far ≤ a ∧ a < MAKE_FLATPTR d_seg d_far + len then
      mem (MAKE_FLATPTR s_seg s_far + (a - MAKE_FLATPTR d_seg d_far))
    else mem a

/-- The end of `cdemu_access` (disk.c:195-209): the trailing partial sector
`if (count) { ... }`, then `disk_ret(regs, DISK_RET_SUCCESS)`; a failing read
goes to `fail`. The arguments after the state are the locals `dop.lba`,
`count` and `dest_far`. -/
def cdemu_access_trail (E : Env) (driveid command ebda_seg : Nat) (s : State)
    (lba count dest_far : Nat) : State :=
  let cdbuf_far := E.K.cdemu_buf
  if count ≠ 0 then
    let dop : DiskOp :=
      { driveid := driveid, command := command, lba := lba, count := 1,
        buf_fl := MAKE_FLATPTR ebda_seg cdbuf_far }
    let x := send_disk_op E s dop
    let status := x.1
    let s := x.2.2
    if status ≠ 0 then
      disk_ret s E.K.DISK_RET_EBADTRACK
    else
      let thiscount := count
      let s := setMem s (memcpy_far s.mem s.regs.es dest_far ebda_seg cdbuf_far (thiscount * 512))
      let s := setAl s ((s.regs.al + thiscount) % 256)
      disk_ret s E.K.DISK_RET_SUCCESS
  else
    disk_ret s E.K.DISK_RET_SUCCESS

/-- The middle of `cdemu_access` (disk.c:182-193): the bulk transfer
`if (count > 3) { ... }` straight into the caller's buffer, followed by the
trailing part. -/
def cdemu_access_bulk (E : Env) (driveid command ebda_seg : Nat) (s : State)
    (lba count dest_far : Nat) : State :=
  if count > 3 then
    let dop : DiskOp :=
      { driveid := driveid, command := command, lba := lba, count := count / 4,
        buf_fl := MAKE_FLATPTR s.regs.es dest_far }
    let x := send_disk_op E s dop
    let status := x.1
    let dop := x.2.1
    let s := x.2.2
    let s := setAl s ((s.regs.al + dop.count * 4) % 256)
    if status ≠ 0 then
      disk_ret s E.K.DISK_RET_EBADTRACK
    else
      let thiscount := (count &&& 0xfffffffc) % 256
      let count := count &&& 3
      let dest_far := dest_far + thiscount * 512
      let lba := lba + thiscount / 4
      cdemu_access_trail E driveid command ebda_seg s lba count dest_far
  else
    cdemu_access_trail E driveid command ebda_seg s lba count dest_far

/-- The function `cdemu_access` (disk.c:146): read/verify on the emulated
volume, in up to three operations on the 2048-byte sectors of the medium. The
first medium sector `cdemu.ilba + vlba / 4` (disk.c:158) is the sum of a `u32`
field and an `int`, taken in 32 bits before it is widened to the 64-bit
`dop.lba`; the later increments of `dop.lba` are 64-bit. -/
def cdemu_access (E : Env) (s : State) (driveid command : Nat) : State :=
  let ebda_seg := s.ebda_seg
  let r := legacy_lba E.K s s.cdemu.lchs
  let vlba := r.1
  let s := r.2
  if vlba < 0 then
    s
  else
    let vlba := vlba.toNat
    let lba := u32 (s.cdemu.ilba + vlba / 4)
    let count := s.regs.al
    let cdbuf_far := E.K.cdemu_buf
    let dest_far := s.regs.bx + 0
    let s := setAl s 0
    if vlba &&& 3 ≠ 0 then
      let dop : DiskOp :=
        { driveid := driveid, command := command, lba := lba, count := 1,
          buf_fl := MAKE_FLATPTR ebda_seg cdbuf_far }
      let x := send_disk_op E s dop
      let status := x.1
      let s := x.2.2
      if status ≠ 0 then
        disk_ret s E.K.DISK_RET_EBADTRACK
      else
        let thiscount := 4 - (vlba &&& 3)
        let thiscount := if thiscount > count then count else thiscount
        let count := count - thiscount
        let s := setMem s (memcpy_far s.mem s.regs.es dest_far ebda_seg
                            (cdbuf_far + (vlba &&& 3) * 512) (thiscount * 512))
        let dest_far := dest_far + thiscount * 512
        let s := setAl s ((s.regs.al + thiscount) % 256)
        let lba := lba + 1
        cdemu_access_bulk E driveid command ebda_seg s lba count dest_far
    else
      cdemu_access_bulk E driveid command ebda_seg s lba count dest_far

/-! ## Byte images of the parameter blocks -/

/-- The `w` little-endian bytes of the value `v`. -/
def le (w v : Nat) : List Nat :=
  (List.range w).map (fun i => v / 256 ^ i % 256)

/-- The `n` bytes of a byte array. -/
def arr (n : Nat) (l : List Nat) : List Nat :=
  (List.range n).map (fun i => l.getD i 0 % 256)

/-- Bytes 0..25 of the parameter block. -/
def tier0Bytes (d : Int13Dpt) : List Nat :=
  le 2 d.size ++ le 2 d.infos ++ le 4 d.cylinders ++ le 4 d.heads ++ le 4 d.spt
    ++ le 8 d.sector_count ++ le 2 d.blksize

/-- Bytes 26..29 of the parameter block. -/
def tier1Bytes (d : Int13Dpt) : List Nat :=
  le 2 d.dpte_offset ++ le 2 d.dpte_segment

/-- Bytes 30..64 of the parameter block: the tier-2 block without its checksum. -/
def tier2Body (d : Int13Dpt) : List Nat :=
  le 2 d.key ++ le 1 d.dpi_length ++ le 1 d.reserved1 ++ le 2 d.reserved2
    ++ arr 4 d.host_bus ++ arr 8 d.iface_type ++ le 8 d.iface_path ++ le 8 d.device_path
    ++ le 1 d.reserved3

/-- Bytes 30..65 of the parameter block: the 36-byte tier-2 block. -/
def tier2Bytes (d : Int13Dpt) : List Nat :=
  tier2Body d ++ le 1 d.checksum

/-- The 66 bytes of the parameter block. -/
def int13dpt_bytes (d : Int13Dpt) : List Nat :=
  tier0Bytes d ++ tier1Bytes d ++ tier2Bytes d

/-- The first 15 bytes of the device path table. -/
def dpteBody (t : Dpte) : List Nat :=
  le 2 t.iobase1 ++ le 2 t.iobase2 ++ le 1 t.pfx ++ le 1 t.unused ++ le 1 t.irq
    ++ le 1 t.blkcount ++ le 1 t.dma ++ le 1 t.pio ++ le 2 t.options ++ le 2 t.reserved
    ++ le 1 t.revision

/-- The 16 bytes of the device path table. -/
def dpte_bytes (t : Dpte) : List Nat :=
  dpteBody t ++ le 1 t.checksum

/-- Modelled from the spec: `checksum_far(seg, ptr, len)` of the absent
`util.h`, the plain byte sum (mod 256) of the `len` bytes it is pointed at
("a simple additive (mod-256) checksum"). -/
def checksum_far (bytes : List Nat) : Nat :=
  bytes.sum % 256

/-! ## Hard drive functions -/

/-- The function `__disk_stub` (disk.c:33); the debug output is left out. -/
def __disk_stub (K : Config) (s : State) (lineno : Nat) : State :=
  __disk_ret s (K.DISK_RET_SUCCESS ||| (lineno <<< 8))

/-- Modelled from the spec: `set_cf(regs, cond)` of the absent `bregs.h`, which
sets or clears the carry/error indicator. -/
def set_cf (regs : Bregs) (cond : Bool) : Bregs :=
  { regs with cf := cond }

/-- The store `regs->cx = v` into the register pair CH:CL. -/
def setCx (s : State) (v : Nat) : State :=
  { s with regs := { s.regs with ch := v / 256 % 256, cl := v % 256 } }

/-- The store `regs->dx = v` into the register pair DH:DL. -/
def setDx (s : State) (v : Nat) : State :=
  { s with regs := { s.regs with dh := v / 256 % 256, dl := v % 256 } }

/-- The store `regs->ah = v`. -/
def setAh (s : State) (v : Nat) : State :=
  { s with regs := { s.regs with ah := v } }

/-- The function `disk_1300` (disk.c:250): disk controller reset. Only
`driveid` and `command` of the operation are assigned. -/
def disk_1300 (E : Env) (s : State) (driveid : Nat) : State :=
  let dop : DiskOp := { E.uninit with driveid := driveid, command := E.K.CMD_RESET }
  (send_disk_op E s dop).2.2

/-- The function `disk_1301` (disk.c:260): read disk status. -/
def disk_1301 (s : State) : State :=
  let v := s.disk_last_status
  let s := setAh s v
  { s with regs := set_cf s.regs (decide (v ≠ 0)) }

/-- The function `disk_1302` (disk.c:270): read disk sectors. -/
def disk_1302 (E : Env) (s : State) (driveid : Nat) : State :=
  basic_access E s driveid E.K.CMD_READ

/-- The function `disk_1303` (disk.c:277): write disk sectors. -/
def disk_1303 (E : Env) (s : State) (driveid : Nat) : State :=
  basic_access E s driveid E.K.CMD_WRITE

/-- The function `disk_1304` (disk.c:284): verify disk sectors. -/
def disk_1304 (E : Env) (s : State) (driveid : Nat) : State :=
  basic_access E s driveid E.K.CMD_VERIFY

/-- The function `disk_1305` (disk.c:292): format disk track, `DISK_STUB` at
line 295. -/
def disk_1305 (K : Config) (s : State) : State := __disk_stub K s 295

/-- The function `disk_1308` (disk.c:299): read disk drive parameters. -/
def disk_1308 (E : Env) (s : State) (driveid : Nat) : State :=
  let nlc := (E.drives driveid).lchs.cylinders
  let nlh := (E.drives driveid).lchs.heads
  let nlspt := (E.drives driveid).lchs.spt
  let count := s.hdcount
  let nlc := (nlc + 65536 - 2) % 65536
  let s := setAl s 0
  let s := { s with regs := { s.regs with
              ch := nlc &&& 0xff,
              cl := (((nlc >>> 2) &&& 0xc0) ||| (nlspt &&& 0x3f)) % 256,
              dh := (nlh + 256 - 1) % 256,
              dl := count % 256 } }
  disk_ret s E.K.DISK_RET_SUCCESS

/-- The function `disk_1309` (disk.c:320): initialize drive parameters,
`DISK_STUB` at line 323. -/
def disk_1309 (K : Config) (s : State) : State := __disk_stub K s 323

/-- The function `disk_130c` (disk.c:327): seek, `DISK_STUB` at line 330. -/
def disk_130c (K : Config) (s : State) : State := __disk_stub K s 330

/-- The function `disk_130d` (disk.c:334): alternate disk reset, `DISK_STUB` at
line 337. -/
def disk_130d (K : Config) (s : State) : State := __disk_stub K s 337

/-- The function `disk_1310` (disk.c:341): check drive ready. -/
def disk_1310 (E : Env) (s : State) (driveid : Nat) : State :=
  let dop : DiskOp := { E.uninit with driveid := driveid, command := E.K.CMD_ISREADY }
  let x := send_disk_op E s dop
  let status := x.1
  let s := x.2.2
  if status ≠ 0 then
    disk_ret s E.K.DISK_RET_ENOTREADY
  else
    disk_ret s E.K.DISK_RET_SUCCESS

/-- The function `disk_1311` (disk.c:357): recalibrate, `DISK_STUB` at line
360. -/
def disk_1311 (K : Config) (s : State) : State := __disk_stub K s 360

/-- The function `disk_1314` (disk.c:364): controller internal diagnostic,
`DISK_STUB` at line 367. -/
def disk_1314 (K : Config) (s : State) : State := __disk_stub K s 367

/-- The function `disk_1315` (disk.c:371): read disk drive size. -/
def disk_1315 (E : Env) (s : State) (driveid : Nat) : State :=
  let nlc := (E.drives driveid).lchs.cylinders
  let nlh := (E.drives driveid).lchs.heads
  let nlspt := (E.drives driveid).lchs.spt
  let lba := u32 (u32 (u32 (nlc + 2 ^ 32 - 1) * nlh) * nlspt)
  let s := setCx s ((lba >>> 16) % 65536)
  let s := setDx s (lba &&& 0xffff)
  let s := disk_ret s E.K.DISK_RET_SUCCESS
  setAh s 3

/-- The function `disk_1341` (disk.c:389): IBM/MS installation check. -/
def disk_1341 (K : Config) (s : State) : State :=
  let s := { s with regs := { s.regs with bx := 0xaa55 } }
  let s := setCx s 0x0007
  let s := disk_ret s K.DISK_RET_SUCCESS
  setAh s 0x30

/-- The function `disk_1342` (disk.c:399): IBM/MS extended read. -/
def disk_1342 (E : Env) (s : State) (driveid : Nat) : State :=
  extended_access E s driveid E.K.CMD_READ

/-- The function `disk_1343` (disk.c:406): IBM/MS extended write. -/
def disk_1343 (E : Env) (s : State) (driveid : Nat) : State :=
  extended_access E s driveid E.K.CMD_WRITE

/-- The function `disk_1344` (disk.c:413): IBM/MS verify. -/
def disk_1344 (E : Env) (s : State) (driveid : Nat) : State :=
  extended_access E s driveid E.K.CMD_VERIFY

/-- The function `disk_1345` (disk.c:420): IBM/MS lock/unlock drive. -/
def disk_1345 (K : Config) (s : State) : State :=
  disk_ret s K.DISK_RET_SUCCESS

/-- The function `disk_1346` (disk.c:428): IBM/MS eject media. -/
def disk_1346 (K : Config) (s : State) : State :=
  disk_ret s K.DISK_RET_ENOTREMOVABLE

/-- The function `disk_1347` (disk.c:436): IBM/MS extended seek. -/
def disk_1347 (E : Env) (s : State) (driveid : Nat) : State :=
  extended_access E s driveid E.K.CMD_SEEK

/-- The "EDD 1.x" stores of `disk_1348` (disk.c:466-486) into the parameter
block `d`. -/
def disk_1348_edd1 (E : Env) (d : Int13Dpt) (driveid : Nat) : Int13Dpt :=
  let type := (E.drives driveid).type
  let npc := (E.drives driveid).pchs.cylinders
  let nph := (E.drives driveid).pchs.heads
  let npspt := (E.drives driveid).pchs.spt
  let lba := (E.drives driveid).sectors
  let blksize := (E.drives driveid).blksize
  let d := { d with size := 26 }
  let d :=
    if type = E.K.DTYPE_ATAPI then
      { d with infos := 0x74, cylinders := 0xffffffff, heads := 0xffffffff,
               spt := 0xffffffff, sector_count := 2 ^ 64 - 1 }
    else
      let d :=
        if lba > npspt * nph * 0x3fff then
          { d with infos := 0x00, cylinders := 0x3fff }
        else
          { d with infos := 0x02, cylinders := npc }
      { d with heads := nph, spt := npspt, sector_count := lba }
  { d with blksize := blksize }

/-- The translation-mode bitfield `options` of `disk_1348` (disk.c:510-527). -/
def disk_1348_options (E : Env) (driveid : Nat) : Nat :=
  let type := (E.drives driveid).type
  let options := 0
  let options :=
    if type = E.K.DTYPE_ATA then
      let translation := (E.drives driveid).translation
      if translation ≠ E.K.TRANSLATION_NONE then
        let options := options ||| (1 <<< 3)
        let options := if translation = E.K.TRANSLATION_LBA then options ||| (1 <<< 9)
                       else options
        let options := if translation = E.K.TRANSLATION_RECHS then options ||| (3 <<< 9)
                       else options
        options
      else options
    else
      let options := options ||| (1 <<< 5)
      let options := options ||| (1 <<< 6)
      options
  let options := options ||| (1 <<< 4)
  let options := if E.K.CONFIG_ATA_PIO32 = true then options ||| (1 <<< 7) else options
  options

/-- The "Fill in dpte" stores of `disk_1348` (disk.c:503-540) into the device
path table `t` of the EBDA, before its checksum. -/
def disk_1348_dpte_fields (E : Env) (t : Dpte) (driveid : Nat) : Dpte :=
  let ataid := (E.drives driveid).cntl_id
  let channel := ataid / 2
  let slave := ataid % 2
  let iobase1 := (E.ATA_channels channel).iobase1
  let iobase2 := (E.ATA_channels channel).iobase2
  let irq := (E.ATA_channels channel).irq
  let options := disk_1348_options E driveid
  let t : Dpte :=
    { t with iobase1 := iobase1,
             iobase2 := (iobase2 + E.K.ATA_CB_DC) % 65536,
             pfx := ((if slave ≠ 0 then E.K.ATA_CB_DH_DEV1 else E.K.ATA_CB_DH_DEV0)
                      ||| E.K.ATA_CB_DH_LBA) % 256,
             unused := 0xcb,
             irq := irq,
             blkcount := 1,
             dma := 0,
             pio := 0,
             options := options,
             reserved := 0,
             revision := 0x11 }
  t

/-- The device path table as `disk_1348` leaves it (disk.c:503-544): the field
stores, then the checksum over its first 15 bytes. -/
def disk_1348_dpte (E : Env) (t : Dpte) (driveid : Nat) : Dpte :=
  let t := disk_1348_dpte_fields E t driveid
  let sum := checksum_far ((dpte_bytes t).take 15)
  { t with checksum := (256 - sum) % 256 }

/-- The "EDD 3.x" stores of `disk_1348` (disk.c:552-576) into the parameter
block `d`, before its checksum. -/
def disk_1348_edd3_fields (E : Env) (d : Int13Dpt) (driveid : Nat) : Int13Dpt :=
  let ataid := (E.drives driveid).cntl_id
  let channel := ataid / 2
  let slave := ataid % 2
  let d := { d with key := 0xbedd, dpi_length := 36, reserved1 := 0, reserved2 := 0 }
  let d := { d with host_bus := [0x50, 0x43, 0x49, 0] }
  let bdf := (E.ATA_channels channel).pci_bdf
  let path := u32 (E.pci_bdf_to_bus bdf ||| (E.pci_bdf_to_dev bdf <<< 8)
                    ||| (E.pci_bdf_to_fn bdf <<< 16))
  let d := { d with iface_path := path }
  let d := { d with iface_type := [0x41, 0x54, 0x41, 0, 0, 0, 0, 0] }
  let d := { d with device_path := slave }
  d

/-- The "EDD 3.x" part of `disk_1348` (disk.c:552-579): the field stores, then
the checksum over the 35 bytes from offset 30 of the parameter block. -/
def disk_1348_edd3 (E : Env) (d : Int13Dpt) (driveid : Nat) : Int13Dpt :=
  let d := disk_1348_edd3_fields E d driveid
  { d with checksum := (256 - checksum_far (((int13dpt_bytes d).drop 30).take 35)) % 256 }

/-- The function `disk_1348` (disk.c:443): IBM/MS get drive parameters. -/
def disk_1348 (E : Env) (s : State) (driveid : Nat) : State :=
  let size := s.dpt.size
  if size < 26 then
    disk_ret s E.K.DISK_RET_EPARAM
  else
    let type := (E.drives driveid).type
    let s := { s with dpt := disk_1348_edd1 E s.dpt driveid }
    if size < 30 ∨ (type ≠ E.K.DTYPE_ATA ∧ type ≠ E.K.DTYPE_ATAPI) then
      disk_ret s E.K.DISK_RET_SUCCESS
    else
      let ebda_seg := s.ebda_seg
      let s := { s with dpt := { s.dpt with size := 30, dpte_segment := ebda_seg,
                                            dpte_offset := E.K.dpte } }
      let s := { s with dpte := disk_1348_dpte E s.dpte driveid }
      if size < 66 then
        disk_ret s E.K.DISK_RET_SUCCESS
      else
        let s := { s with dpt := disk_1348_edd3 E s.dpt driveid }
        disk_ret s E.K.DISK_RET_SUCCESS

/-- The function `disk_1349` (disk.c:585): IBM/MS extended media change. -/
def disk_1349 (K : Config) (s : State) : State :=
  disk_ret s K.DISK_RET_SUCCESS

/-- The function `disk_134e01` (disk.c:592). -/
def disk_134e01 (K : Config) (s : State) : State :=
  disk_ret s K.DISK_RET_SUCCESS

/-- The function `disk_134e03` (disk.c:598). -/
def disk_134e03 (K : Config) (s : State) : State :=
  disk_ret s K.DISK_RET_SUCCESS

/-- The function `disk_134e04` (disk.c:604). -/
def disk_134e04 (K : Config) (s : State) : State :=
  disk_ret s K.DISK_RET_SUCCESS

/-- The function `disk_134e06` (disk.c:610). -/
def disk_134e06 (K : Config) (s : State) : State :=
  disk_ret s K.DISK_RET_SUCCESS

/-- The function `disk_134eXX` (disk.c:616). -/
def disk_134eXX (K : Config) (s : State) : State :=
  disk_ret s K.DISK_RET_EPARAM

/-- The function `disk_134e` (disk.c:623): IBM/MS set hardware configuration,
a switch on AL. -/
def disk_134e (K : Config) (s : State) : State :=
  if s.regs.al = 0x01 then disk_134e01 K s
  else if s.regs.al = 0x03 then disk_134e03 K s
  else if s.regs.al = 0x04 then disk_134e04 K s
  else if s.regs.al = 0x06 then disk_134e06 K s
  else disk_134eXX K s

/-- The function `disk_13XX` (disk.c:635). -/
def disk_13XX (K : Config) (s : State) : State :=
  disk_ret s K.DISK_RET_EPARAM

/-- The function `disk_13` (disk.c:641): it clears the completion flag, then
switches on AH. -/
def disk_13 (E : Env) (s : State) (driveid : Nat) : State :=
  let s := { s with disk_interrupt_flag := 0 }
  if s.regs.ah = 0x00 then disk_1300 E s driveid
  else if s.regs.ah = 0x01 then disk_1301 s
  else if s.regs.ah = 0x02 then disk_1302 E s driveid
  else if s.regs.ah = 0x03 then disk_1303 E s driveid
  else if s.regs.ah = 0x04 then disk_1304 E s driveid
  else if s.regs.ah = 0x05 then disk_1305 E.K s
  else if s.regs.ah = 0x08 then disk_1308 E s driveid
  else if s.regs.ah = 0x09 then disk_1309 E.K s
  else if s.regs.ah = 0x0c then disk_130c E.K s
  else if s.regs.ah = 0x0d then disk_130d E.K s
  else if s.regs.ah = 0x10 then disk_1310 E s driveid
  else if s.regs.ah = 0x11 then disk_1311 E.K s
  else if s.regs.ah = 0x14 then disk_1314 E.K s
  else if s.regs.ah = 0x15 then disk_1315 E s driveid
  else if s.regs.ah = 0x41 then disk_1341 E.K s
  else if s.regs.ah = 0x42 then disk_1342 E s driveid
  else if s.regs.ah = 0x43 then disk_1343 E s driveid
  else if s.regs.ah = 0x44 then disk_1344 E s driveid
  else if s.regs.ah = 0x45 then disk_1345 E.K s
  else if s.regs.ah = 0x46 then disk_1346 E.K s
  else if s.regs.ah = 0x47 then disk_1347 E s driveid
  else if s.regs.ah = 0x48 then disk_1348 E s driveid
  else if s.regs.ah = 0x49 then disk_1349 E.K s
  else if s.regs.ah = 0x4e then disk_134e E.K s
  else disk_13XX E.K s

/-! ## Entry points -/

/-- The function `get_driveid` (disk.c:683): the drive id mapped to an ordinal
of a row of the selector map, or `-1`. -/
def get_driveid (E : Env) (exttype extdriveoffset : Nat) : Int :=
  if extdriveoffset ≥ E.K.idmap_width then
    -1
  else
    let driveid := E.idmap exttype extdriveoffset
    if driveid ≥ E.K.drives_width then
      -1
    else
      (driveid : Int)

/-- The function `handle_legacy_disk` (disk.c:700). -/
def handle_legacy_disk (E : Env) (s : State) (extdrive : Nat) : State :=
  if E.K.CONFIG_DRIVES = false then
    disk_ret s E.K.DISK_RET_EPARAM
  else if extdrive < 0x80 then
    let driveid := get_driveid E E.K.EXTTYPE_FLOPPY extdrive
    if driveid < 0 then
      disk_ret s E.K.DISK_RET_EPARAM
    else
      E.floppy_13 s driveid.toNat
  else if extdrive ≥ 0xe0 then
    let driveid := get_driveid E E.K.EXTTYPE_CD ((extdrive - 0xe0) % 256)
    if driveid < 0 then
      disk_ret s E.K.DISK_RET_EPARAM
    else
      E.cdrom_13 s driveid.toNat
  else
    let driveid := get_driveid E E.K.EXTTYPE_HD ((extdrive - 0x80) % 256)
    if driveid < 0 then
      disk_ret s E.K.DISK_RET_EPARAM
    else
      disk_13 E s driveid.toNat

/-- The function `handle_13` (disk.c:744): INT 13h entry point. -/
def handle_13 (E : Env) (s : State) : State :=
  let extdrive := s.regs.dl
  if E.K.CONFIG_CDROM_EMU = true then
    if s.regs.ah = 0x4b then
      E.cdemu_134b s
    else if s.cdemu.active ≠ 0 then
      let emudrive := s.cdemu.emulated_extdrive
      if extdrive = emudrive then
        E.cdemu_13 s
      else
        let extdrive :=
          if extdrive < 0xe0 ∧ ((emudrive ^^^ extdrive) &&& 0x80) = 0 then
            (extdrive + 256 - 1) % 256
          else extdrive
        handle_legacy_disk E s extdrive
    else
      handle_legacy_disk E s extdrive
  else
    handle_legacy_disk E s extdrive

/-! ## Sample configuration and state -/

/-- A configuration with the codes of the INT 13h convention. -/
def sampleConfig : Config :=
  { DISK_RET_SUCCESS := 0x00, DISK_RET_EPARAM := 0x01, DISK_RET_EBADTRACK := 0x0c,
    CONFIG_DRIVES := true, DTYPE_ATA := 0x01, DTYPE_ATAPI := 0x02, cdemu_buf := 0x200,
    DISK_RET_ENOTREADY := 0xaa, DISK_RET_ENOTREMOVABLE := 0xb2,
    CONFIG_CDROM_EMU := true, CONFIG_ATA_PIO32 := false,
    CMD_RESET := 0, CMD_READ := 2, CMD_WRITE := 3, CMD_VERIFY := 4, CMD_SEEK := 7,
    CMD_ISREADY := 0x10,
    TRANSLATION_NONE := 0, TRANSLATION_LBA := 1, TRANSLATION_RECHS := 3,
    ATA_CB_DC := 6, ATA_CB_DH_DEV0 := 0xa0, ATA_CB_DH_DEV1 := 0xb0, ATA_CB_DH_LBA := 0x40,
    EXTTYPE_FLOPPY := 0, EXTTYPE_HD := 1, EXTTYPE_CD := 2,
    idmap_width := 8, drives_width := 8, dpte := 0x1f0 }

/-- Registers with count `al`, packed cylinder/sector `ch`/`cl`, head `dh` and
buffer `es:bx`; everything else zero. -/
def sampleRegs (al ch cl dh es bx : Nat) : Bregs :=
  { al := al, ah := 0, bx := bx, cl := cl, ch := ch, dl := 0x80, dh := dh, si := 0, ds := 0,
    es := es, cf := false }

/-- A state around the given registers: zeroed memory and device, empty logs. -/
def sampleState (regs : Bregs) : State :=
  { regs := regs, disk_last_status := 0, ebda_seg := 0x9fc0,
    cdemu := { active := 0, emulated_extdrive := 0, ilba := 0,
               lchs := { heads := 2, cylinders := 80, spt := 18 } },
    ext := { size := 16, count := 0, offset := 0, segment := 0, lba := 0 },
    mem := fun _ => 0, dev := fun _ => 0, calls := [], rets := [],
    dpt := { size := 0, infos := 0, cylinders := 0, heads := 0, spt := 0, sector_count := 0,
             blksize := 0, dpte_offset := 0, dpte_segment := 0, key := 0, dpi_length := 0,
             reserved1 := 0, reserved2 := 0, host_bus := [], iface_type := [],
             iface_path := 0, device_path := 0, reserved3 := 0, checksum := 0 },
    dpte := { iobase1 := 0, iobase2 := 0, pfx := 0, unused := 0, irq := 0, blkcount := 0,
              dma := 0, pio := 0, options := 0, reserved := 0, revision := 0, checksum := 0 },
    disk_interrupt_flag := 0xff, hdcount := 1 }

/-- An engine that succeeds at once: status 0, the full count, nothing moved. -/
def idleEngine : Engine := fun dev mem op => ⟨0, op.count, mem, dev⟩

/-- An engine that always fails having transferred nothing. -/
def failEngine : Engine := fun dev mem _ => ⟨-1, 0, mem, dev⟩

/-- An environment whose drives are all ATA disks of geometry `g` with
`sectors` blocks, served by `engine`. -/
def sampleEnv (g : Chs) (sectors : Nat) (engine : Engine) : Env :=
  { K := sampleConfig,
    drives := fun _ => { type := sampleConfig.DTYPE_ATA, lchs := g, sectors := sectors,
                         pchs := g, blksize := 512, cntl_id := 0,
                         translation := sampleConfig.TRANSLATION_NONE },
    process_ata_op := engine, process_atapi_op := engine,
    idmap := fun _ i => i,
    ATA_channels := fun _ => { iobase1 := 0x1f0, iobase2 := 0x3f0, irq := 14, pci_bdf := 0x09 },
    pci_bdf_to_bus := fun bdf => bdf / 256, pci_bdf_to_dev := fun bdf => bdf / 8 % 32,
    pci_bdf_to_fn := fun bdf => bdf % 8,
    floppy_13 := fun s _ => s, cdrom_13 := fun s _ => s,
    cdemu_13 := fun s => s, cdemu_134b := fun s => s,
    uninit := { lba := 0, buf_fl := 0, count := 0, driveid := 0, command := 0 } }

/-- The sample state with the extended request block {count, segment:offset,
lba}. -/
def sampleExtState (count segment offset lba : Nat) : State :=
  { sampleState (sampleRegs 0 0 0 0 0 0) with
    ext := { size := 16, count := count, offset := offset, segment := segment, lba := lba } }

/-- The engine of claim C9: it reads `op.count` sectors of 2048 bytes, from
sector `op.lba` of the medium (the byte array `dev`) on, into memory at
`op.buf_fl`, and succeeds with the full count. -/
def imageEngine : Engine := fun dev mem op =>
  ⟨0, op.count,
    fun a =>
      if op.buf_fl ≤ a ∧ a < op.buf_fl + op.count * 2048 then
        dev (op.lba * 2048 + (a - op.buf_fl))
      else mem a,
    dev⟩

/-- A medium whose every byte is the number of its 2048-byte sector (mod 256). -/
def sampleMedium : Mem := fun a => a / 2048 % 256

/-- The sample state for an emulated 80/2/18 floppy whose image starts at
sector `ilba` of `sampleMedium`. -/
def sampleEmuState (regs : Bregs) (ilba : Nat) : State :=
  { sampleState regs with
    cdemu := { active := 1, emulated_extdrive := 0, ilba := ilba,
               lchs := { heads := 2, cylinders := 80, spt := 18 } },
    dev := sampleMedium }

/-- The sample emulation state with the emulated geometry `g`. -/
def sampleEmuGeomState (regs : Bregs) (ilba : Nat) (g : Chs) : State :=
  { sampleState regs with
    cdemu := { active := 1, emulated_extdrive := 0, ilba := ilba, lchs := g },
    dev := sampleMedium }

/-- The sample state with a parameter block of declared size `size`. -/
def sampleDptState (size : Nat) : State :=
  { sampleState (sampleRegs 0 0 0 0 0 0) with
    dpt := { (sampleState (sampleRegs 0 0 0 0 0 0)).dpt with size := size } }

/-- The sample environment with drives of class `type`, logical geometry `l`,
physical geometry `p` and `sectors` blocks. -/
def sampleEnvPhys (type : Nat) (l p : Chs) (sectors : Nat) : Env :=
  { sampleEnv l sectors idleEngine with
    drives := fun _ => { type := type, lchs := l, sectors := sectors, pchs := p,
                         blksize := 512, cntl_id := 1,
                         translation := sampleConfig.TRANSLATION_LBA } }

/-- The sample state of a request for function `ah` with sub-code `al` on
selector `dl`. -/
def sampleFnState (ah al dl : Nat) : State :=
  sampleState { sampleRegs al 0 1 0 0 0 with ah := ah, dl := dl }

/-! ## Vocabulary of the claims -/

/-- The cylinder a legacy request addresses: `CH | ((CL << 2) & 0x300)`. -/
def reqCylinder (r : Bregs) : Nat := r.ch ||| ((r.cl <<< 2) &&& 0x300)

/-- The head a legacy request addresses: `DH`. -/
def reqHead (r : Bregs) : Nat := r.dh

/-- The sector a legacy request addresses: `CL & 0x3f`. -/
def reqSector (r : Bregs) : Nat := r.cl &&& 0x3f

/-- The count of a legacy request is in [1,128]. -/
def validCount (r : Bregs) : Prop := 1 ≤ r.al ∧ r.al ≤ 128

/-- The decoded triple of a request is a valid CHS address of the geometry. -/
def validChs (g : Chs) (r : Bregs) : Prop :=
  reqCylinder r < g.cylinders ∧ reqHead r < g.heads ∧ 1 ≤ reqSector r ∧ reqSector r ≤ g.spt

/-- Lexicographic order on decoded triples: cylinder, then head, then sector. -/
def chsLt (a b : Bregs) : Prop :=
  reqCylinder a < reqCylinder b ∨
    (reqCylinder a = reqCylinder b ∧
      (reqHead a < reqHead b ∨ (reqHead a = reqHead b ∧ reqSector a < reqSector b)))

/-- The block number of a CHS triple: `((c * heads + h) * spt) + sector - 1`. -/
def chsBlock (g : Chs) (c h sector : Nat) : Nat := (c * g.heads + h) * g.spt + sector - 1

instance (r : Bregs) : Decidable (validCount r) := by unfold validCount; infer_instance
instance (g : Chs) (r : Bregs) : Decidable (validChs g r) := by unfold validChs; infer_instance
instance (a b : Bregs) : Decidable (chsLt a b) := by unfold chsLt; infer_instance

/-- The run from `s` to `f` logged exactly the bridge invocations `new`,
reported `code` once through `disk_ret` and left `al` in AL. -/
def Reported (f s : State) (new : List Call) (code al : Nat) : Prop :=
  f.calls = s.calls ++ new ∧ f.rets = s.rets ++ [code % 256]
    ∧ f.disk_last_status = code % 256 ∧ f.regs.al = al

/-- A one-sector read of medium sector `lba` into the scratch buffer
`cdemu_buf` of the EBDA. -/
def scratchOp (E : Env) (driveid command ebda_seg lba : Nat) : DiskOp :=
  { driveid := driveid, command := command, lba := lba, count := 1,
    buf_fl := MAKE_FLATPTR ebda_seg E.K.cdemu_buf }

/-- A read of `n` medium sectors from sector `lba` on, straight to `es:dest`. -/
def directOp (driveid command es dest lba n : Nat) : DiskOp :=
  { driveid := driveid, command := command, lba := lba, count := n,
    buf_fl := MAKE_FLATPTR es dest }

/-- The number of 512-byte sectors of the leading partial phase: none at offset
0, else `min (4 - offset) count`. -/
def emuLead (vlba count : Nat) : Nat :=
  if vlba % 4 = 0 then 0 else min (4 - vlba % 4) count

/-- The 512-byte sectors left after the leading partial phase. -/
def emuRest (vlba count : Nat) : Nat := count - emuLead vlba count

/-- The medium sector at which the bulk phase starts. -/
def emuBulkLba (ilba vlba : Nat) : Nat :=
  u32 (ilba + vlba / 4) + (if vlba % 4 = 0 then 0 else 1)

/-- The bridge invocation of the leading partial phase, if that phase runs
(offset not 0), with status `st` and reported count `n`. -/
def leadCalls (E : Env) (s : State) (driveid command vlba : Nat) (st : Int) (n : Nat) :
    List Call :=
  if vlba % 4 ≠ 0 then
    [⟨scratchOp E driveid command s.ebda_seg (u32 (s.cdemu.ilba + vlba / 4)), st, n⟩]
  else []

/-- The bridge invocation of the bulk phase, if that phase runs (at least 4
sectors left), with status `st` and reported count `n`. -/
def bulkCalls (s : State) (driveid command vlba : Nat) (st : Int) (n : Nat) : List Call :=
  if emuRest vlba s.regs.al > 3 then
    [⟨directOp driveid command s.regs.es (s.regs.bx + emuLead vlba s.regs.al * 512)
        (emuBulkLba s.cdemu.ilba vlba) (emuRest vlba s.regs.al / 4), st, n⟩]
  else []

/-- The bridge invocation of the trailing partial phase, if that phase runs
(a remainder below 4 is left), with status `st` and reported count `n`. -/
def trailCalls (E : Env) (s : State) (driveid command vlba : Nat) (st : Int) (n : Nat) :
    List Call :=
  if emuRest vlba s.regs.al % 4 ≠ 0 then
    [⟨scratchOp E driveid command s.ebda_seg
        (emuBulkLba s.cdemu.ilba vlba + emuRest vlba s.regs.al / 4), st, n⟩]
  else []

/-- The four ways a run of `cdemu_access` from `s` to `f` at virtual block
`vlba` can end, given the status and reported count of the leading (`stL`,
`nL`), bulk (`stB`, `nB`) and trailing (`stT`, `nT`) invocation: the leading
read fails; the bulk read fails; the trailing read fails; all succeed. -/
def CdemuOutcome (E : Env) (s f : State) (driveid command vlba : Nat)
    (stL : Int) (nL : Nat) (stB : Int) (nB : Nat) (stT : Int) (nT : Nat) : Prop :=
  (vlba % 4 ≠ 0 ∧ stL ≠ 0
      ∧ Reported f s (leadCalls E s driveid command vlba stL nL) E.K.DISK_RET_EBADTRACK 0)
    ∨ (emuRest vlba s.regs.al > 3 ∧ stB ≠ 0 ∧ (vlba % 4 ≠ 0 → stL = 0)
      ∧ Reported f s
          (leadCalls E s driveid command vlba stL nL ++ bulkCalls s driveid command vlba stB nB)
          E.K.DISK_RET_EBADTRACK ((emuLead vlba s.regs.al + 4 * nB) % 256))
    ∨ (emuRest vlba s.regs.al % 4 ≠ 0 ∧ stT ≠ 0 ∧ (vlba % 4 ≠ 0 → stL = 0)
      ∧ (emuRest vlba s.regs.al > 3 → stB = 0)
      ∧ Reported f s
          (leadCalls E s driveid command vlba stL nL ++ bulkCalls s driveid command vlba stB nB
            ++ trailCalls E s driveid command vlba stT nT)
          E.K.DISK_RET_EBADTRACK
          ((emuLead vlba s.regs.al + (if emuRest vlba s.regs.al > 3 then 4 * nB else 0)) % 256))
    ∨ ((vlba % 4 ≠ 0 → stL = 0) ∧ (emuRest vlba s.regs.al > 3 → stB = 0)
      ∧ (emuRest vlba s.regs.al % 4 ≠ 0 → stT = 0)
      ∧ Reported f s
          (leadCalls E s driveid command vlba stL nL ++ bulkCalls s driveid command vlba stB nB
            ++ trailCalls E s driveid command vlba stT nT)
          E.K.DISK_RET_SUCCESS
          ((emuLead vlba s.regs.al + (if emuRest vlba s.regs.al > 3 then 4 * nB else 0)
            + emuRest vlba s.regs.al % 4) % 256))

/-- Memory after `n` sectors of 2048 bytes, from sector `lba` of the medium
`dev` on, have been read to the flat address `buf`. -/
def readInto (dev mem : Mem) (buf lba n : Nat) : Mem :=
  fun a => if buf ≤ a ∧ a < buf + n * 2048 then dev (lba * 2048 + (a - buf)) else mem a

/-- The bridge hands the operations on drive `driveid` to the engine `eng`. -/
def servedBy (E : Env) (driveid : Nat) (eng : Engine) : Prop :=
  E.K.CONFIG_DRIVES = true
    ∧ (((E.drives driveid).type = E.K.DTYPE_ATA ∧ E.process_ata_op = eng)
      ∨ ((E.drives driveid).type ≠ E.K.DTYPE_ATA ∧ (E.drives driveid).type = E.K.DTYPE_ATAPI
          ∧ E.process_atapi_op = eng))

/-- So far the first `p` sectors of 512 bytes of the caller's buffer at `dst`
hold the bytes of the medium from byte `base` on, and memory outside the
buffer (of `cnt` sectors) and the 2048-byte scratch buffer is as in `s0`. -/
def EmuInv (s0 s1 : State) (dst scratch base p cnt : Nat) : Prop :=
  (∀ i, i < p * 512 → s1.mem (dst + i) = s0.dev (base + i))
    ∧ (∀ a, ¬ (dst ≤ a ∧ a < dst + cnt * 512) → ¬ (scratch ≤ a ∧ a < scratch + 2048) →
        s1.mem a = s0.mem a)
    ∧ s1.dev = s0.dev

/-- The ordinal `ord` of row `row` of the selector map resolves: it lies within
the row and the id mapped to it lies within the drive table. -/
def validOrdinal (E : Env) (row ord : Nat) : Prop :=
  ord < E.K.idmap_width ∧ E.idmap row ord < E.K.drives_width

instance (E : Env) (row ord : Nat) : Decidable (validOrdinal E row ord) := by
  unfold validOrdinal; infer_instance

/-- The function codes of the handler table of `disk_13`. -/
def diskFunctionCodes : List Nat :=
  [0x00, 0x01, 0x02, 0x03, 0x04, 0x05, 0x08, 0x09, 0x0c, 0x0d, 0x10, 0x11, 0x14, 0x15,
   0x41, 0x42, 0x43, 0x44, 0x45, 0x46, 0x47, 0x48, 0x49, 0x4e]

/-- A CD-emulation session is active: emulation is built in and the session is
flagged active. -/
def cdemuActive (E : Env) (s : State) : Prop :=
  E.K.CONFIG_CDROM_EMU = true ∧ s.cdemu.active ≠ 0

instance (E : Env) (s : State) : Decidable (cdemuActive E s) := by
  unfold cdemuActive; infer_instance

/-- The run from `s` to `f` gave exactly one code to `disk_ret`, which is the
persisted last status. -/
def RecordsOne (f s : State) : Prop :=
  ∃ code : Nat, f.rets = s.rets ++ [code % 256] ∧ f.disk_last_status = code % 256

/-- The translation-mode bitfield that `disk_1348` leaves in the device path
table of the EBDA. -/
def storedOptions (E : Env) (s : State) (driveid : Nat) : Nat :=
  (disk_1348 E s driveid).dpte.options

/-- The 32-bit value of the register pair CX:DX. -/
def regCxDx (r : Bregs) : Nat := (r.ch * 256 + r.cl) * 65536 + (r.dh * 256 + r.dl)

/-! ## Arithmetic lemmas -/

theorem toInt32_of_lt {n : Nat} (h : n < 2 ^ 31) : toInt32 n = (n : Int) := by
  unfold toInt32
  have h1 : n % 2 ^ 32 = n := Nat.mod_eq_of_lt (by omega)
  rw [h1, if_pos h]

theorem u32_of_lt {n : Nat} (h : n < 2 ^ 32) : u32 n = n := by
  unfold u32
  exact Nat.mod_eq_of_lt h

/-- When the exact block number fits in 31 bits, no intermediate `u32` result
of `legacy_lba` wraps. -/
theorem lba_no_wrap {c h nh nspt sec : Nat} (hs : 1 ≤ sec) (hspt : sec ≤ nspt)
    (hfit : (c * nh + h) * nspt + sec - 1 < 2 ^ 31) :
    toInt32 (u32 (u32 (u32 (c * nh) + h) * nspt) + sec - 1)
      = (((c * nh + h) * nspt + sec - 1 : Nat) : Int) := by
  have hpos : 1 ≤ nspt := le_trans hs hspt
  have h1 : c * nh + h ≤ (c * nh + h) * nspt := Nat.le_mul_of_pos_right _ hpos
  have h2 : (c * nh + h) * nspt < 2 ^ 31 := by omega
  have h3 : c * nh < 2 ^ 32 := by omega
  have h4 : c * nh + h < 2 ^ 32 := by omega
  have h5 : (c * nh + h) * nspt < 2 ^ 32 := by omega
  rw [u32_of_lt h3, u32_of_lt h4, u32_of_lt h5]
  exact toInt32_of_lt hfit

/-- The success path of `legacy_lba`: a request that passes both checks and
whose block number fits in 31 bits yields that number and an unchanged state. -/
theorem legacy_lba_valid (K : Config) (s : State) (g : Chs)
    (hlo : 1 ≤ s.regs.al) (hhi : s.regs.al ≤ 128)
    (hsec : s.regs.cl &&& 0x3f ≠ 0)
    (hcyl : s.regs.ch ||| ((s.regs.cl <<< 2) &&& 0x300) < g.cylinders)
    (hhead : s.regs.dh < g.heads)
    (hspt : s.regs.cl &&& 0x3f ≤ g.spt)
    (hfit : ((s.regs.ch ||| ((s.regs.cl <<< 2) &&& 0x300)) * g.heads + s.regs.dh) * g.spt
              + (s.regs.cl &&& 0x3f) - 1 < 2 ^ 31) :
    legacy_lba K s g
      = (((((s.regs.ch ||| ((s.regs.cl <<< 2) &&& 0x300)) * g.heads + s.regs.dh) * g.spt
              + (s.regs.cl &&& 0x3f) - 1 : Nat) : Int), s) := by
  unfold legacy_lba
  have h1 : ¬ (s.regs.al > 128 ∨ s.regs.al = 0 ∨ s.regs.cl &&& 0x3f = 0) := by
    rintro (h | h | h)
    · omega
    · omega
    · exact hsec h
  have h2 : ¬ (s.regs.ch ||| ((s.regs.cl <<< 2) &&& 0x300) ≥ g.cylinders ∨ s.regs.dh ≥ g.heads
      ∨ s.regs.cl &&& 0x3f > g.spt) := by
    rintro (h | h | h) <;> omega
  simp only [if_neg h1, if_neg h2]
  rw [lba_no_wrap (Nat.one_le_iff_ne_zero.mpr hsec) hspt hfit]

/-- The success path of `legacy_lba` in the vocabulary of the claims. -/
theorem legacy_lba_block (K : Config) (s : State) (g : Chs)
    (hcount : validCount s.regs) (hv : validChs g s.regs)
    (hfit : chsBlock g (reqCylinder s.regs) (reqHead s.regs) (reqSector s.regs) < 2 ^ 31) :
    legacy_lba K s g
      = (((chsBlock g (reqCylinder s.regs) (reqHead s.regs) (reqSector s.regs) : Nat) : Int), s) := by
  obtain ⟨h1, h2, h3, h4⟩ := hv
  exact legacy_lba_valid K s g hcount.1 hcount.2 (by unfold reqSector at h3; omega) h1 h2 h4 hfit

/-- A valid triple of a geometry has a block number below the geometry's size. -/
theorem chsBlock_lt (g : Chs) {c h sec : Nat} (hc : c < g.cylinders) (hh : h < g.heads)
    (hs : sec ≤ g.spt) (hs1 : 1 ≤ sec) :
    chsBlock g c h sec < g.cylinders * g.heads * g.spt := by
  unfold chsBlock
  have h1 : (c * g.heads + h) * g.spt + g.spt = (c * g.heads + h + 1) * g.spt := by ring
  have h2 : c * g.heads + h + 1 ≤ (c + 1) * g.heads := by
    have : (c + 1) * g.heads = c * g.heads + g.heads := by ring
    omega
  have h3 : (c + 1) * g.heads ≤ g.cylinders * g.heads := Nat.mul_le_mul_right _ hc
  have h4 : (c * g.heads + h + 1) * g.spt ≤ g.cylinders * g.heads * g.spt :=
    Nat.mul_le_mul_right _ (le_trans h2 h3)
  omega

/-- A geometry whose triples all fit the register encoding has fewer than 2^31
blocks. -/
theorem geometry_fits (g : Chs) (hc : g.cylinders ≤ 1024) (hh : g.heads ≤ 256)
    (hs : g.spt ≤ 63) : g.cylinders * g.heads * g.spt ≤ 1024 * 256 * 63 :=
  Nat.mul_le_mul (Nat.mul_le_mul hc hh) hs

/-- On an encodable geometry `legacy_lba` returns the block number of the
decoded triple of every valid request. -/
theorem legacy_lba_chsBlock (K : Config) (s : State) (g : Chs)
    (hc : g.cylinders ≤ 1024) (hh : g.heads ≤ 256) (hs : g.spt ≤ 63)
    (hcount : validCount s.regs) (hv : validChs g s.regs) :
    legacy_lba K s g
      = (((chsBlock g (reqCylinder s.regs) (reqHead s.regs) (reqSector s.regs) : Nat) : Int), s) := by
  obtain ⟨h1, h2, h3, h4⟩ := hv
  have hlt := chsBlock_lt g h1 h2 h4 h3
  have hfit := geometry_fits g hc hh hs
  exact legacy_lba_valid K s g hcount.1 hcount.2 (by unfold reqSector at h3; omega) h1 h2 h4
    (by unfold chsBlock reqCylinder reqHead reqSector at hlt; omega)

/-- The block number is strictly increasing in the lexicographic order of
valid triples. -/
theorem chsBlock_strict (g : Chs) {c h sec c2 h2 sec2 : Nat}
    (hh : h < g.heads) (hs1 : 1 ≤ sec) (hs : sec ≤ g.spt) (hs2 : 1 ≤ sec2)
    (hlt : c < c2 ∨ (c = c2 ∧ (h < h2 ∨ (h = h2 ∧ sec < sec2)))) :
    chsBlock g c h sec < chsBlock g c2 h2 sec2 := by
  unfold chsBlock
  have e1 : (c * g.heads + h) * g.spt + g.spt = (c * g.heads + h + 1) * g.spt := by ring
  rcases hlt with hc | ⟨rfl, hh2 | ⟨rfl, hs3⟩⟩
  · have a1 : c * g.heads + h + 1 ≤ (c + 1) * g.heads := by
      have : (c + 1) * g.heads = c * g.heads + g.heads := by ring
      omega
    have a2 : (c + 1) * g.heads ≤ c2 * g.heads := Nat.mul_le_mul_right _ hc
    have a3 : (c * g.heads + h + 1) * g.spt ≤ (c2 * g.heads + h2) * g.spt :=
      Nat.mul_le_mul_right _ (by omega)
    omega
  · have a3 : (c * g.heads + h + 1) * g.spt ≤ (c * g.heads + h2) * g.spt :=
      Nat.mul_le_mul_right _ (by omega)
    omega
  · omega

set_option maxRecDepth 100000 in
theorem enc_sector : ∀ hi < 4, ∀ sec < 64, (hi * 64 + sec) &&& 0x3f = sec := by decide

set_option maxRecDepth 100000 in
theorem enc_cyl_hi : ∀ hi < 4, ∀ sec < 64, ((hi * 64 + sec) <<< 2) &&& 0x300 = hi * 256 := by
  decide

set_option maxRecDepth 1000000 in
theorem enc_cyl_lo : ∀ hi < 4, ∀ lo < 256, lo ||| (hi * 256) = hi * 256 + lo := by decide

/-- Every triple with cylinder < 1024 and sector < 64 is the decoded triple of
the registers `CH = c % 256`, `CL = (c / 256) * 64 + sector`, `DH = h`. -/
theorem decode_encode (al c h sec es bx : Nat) (hc : c < 1024) (hs : sec < 64) :
    reqCylinder (sampleRegs al (c % 256) (c / 256 * 64 + sec) h es bx) = c
      ∧ reqHead (sampleRegs al (c % 256) (c / 256 * 64 + sec) h es bx) = h
      ∧ reqSector (sampleRegs al (c % 256) (c / 256 * 64 + sec) h es bx) = sec := by
  have hhi : c / 256 < 4 := by omega
  have hlo : c % 256 < 256 := Nat.mod_lt _ (by norm_num)
  refine ⟨?_, rfl, ?_⟩
  · show (c % 256) ||| (((c / 256 * 64 + sec) <<< 2) &&& 0x300) = c
    rw [enc_cyl_hi _ hhi _ hs, enc_cyl_lo _ hhi _ hlo]
    omega
  · show (c / 256 * 64 + sec) &&& 0x3f = sec
    exact enc_sector _ hhi _ hs

/-- The sector field of a request is at most 63. -/
theorem reqSector_le (r : Bregs) : reqSector r ≤ 63 := by
  unfold reqSector
  exact Nat.and_le_right

/-! ## Frame lemmas for the status path and the bridge -/

@[simp]
theorem disk_ret_rets (s : State) (c : Nat) : (disk_ret s c).rets = s.rets ++ [c % 256] := by
  unfold disk_ret __disk_ret
  by_cases h : c % 256 = 0 <;> simp [h]

@[simp]
theorem disk_ret_last (s : State) (c : Nat) : (disk_ret s c).disk_last_status = c % 256 := by
  unfold disk_ret __disk_ret
  by_cases h : c % 256 = 0 <;> simp [h]

@[simp]
theorem disk_ret_calls (s : State) (c : Nat) : (disk_ret s c).calls = s.calls := by
  unfold disk_ret __disk_ret
  by_cases h : c % 256 = 0 <;> simp [h]

@[simp]
theorem disk_ret_al (s : State) (c : Nat) : (disk_ret s c).regs.al = s.regs.al := by
  unfold disk_ret __disk_ret
  by_cases h : c % 256 = 0 <;> simp [h, set_code_success, __set_code_fail]

@[simp]
theorem disk_ret_mem (s : State) (c : Nat) : (disk_ret s c).mem = s.mem := by
  unfold disk_ret __disk_ret
  by_cases h : c % 256 = 0 <;> simp [h]

@[simp]
theorem disk_ret_ext (s : State) (c : Nat) : (disk_ret s c).ext = s.ext := by
  unfold disk_ret __disk_ret
  by_cases h : c % 256 = 0 <;> simp [h]

@[simp]
theorem disk_ret_ah (s : State) (c : Nat) : (disk_ret s c).regs.ah = c % 256 := by
  unfold disk_ret __disk_ret
  by_cases h : c % 256 = 0 <;> simp [h, set_code_success, __set_code_fail]

@[simp]
theorem disk_ret_cf (s : State) (c : Nat) :
    (disk_ret s c).regs.cf = decide (c % 256 ≠ 0) := by
  unfold disk_ret __disk_ret
  by_cases h : c % 256 = 0 <;> simp [h, set_code_success, __set_code_fail]

@[simp]
theorem send_disk_op_calls (E : Env) (s : State) (op : DiskOp) :
    (send_disk_op E s op).2.2.calls
      = s.calls ++ [⟨op, (send_disk_op E s op).1, (send_disk_op E s op).2.1.count⟩] := by
  unfold send_disk_op __send_disk_op
  by_cases h : E.K.CONFIG_DRIVES = false <;> simp [h]

@[simp]
theorem send_disk_op_rets (E : Env) (s : State) (op : DiskOp) :
    (send_disk_op E s op).2.2.rets = s.rets := by
  unfold send_disk_op __send_disk_op
  by_cases h : E.K.CONFIG_DRIVES = false <;> simp [h]

@[simp]
theorem send_disk_op_regs (E : Env) (s : State) (op : DiskOp) :
    (send_disk_op E s op).2.2.regs = s.regs := by
  unfold send_disk_op __send_disk_op
  by_cases h : E.K.CONFIG_DRIVES = false <;> simp [h]

@[simp]
theorem send_disk_op_ext (E : Env) (s : State) (op : DiskOp) :
    (send_disk_op E s op).2.2.ext = s.ext := by
  unfold send_disk_op __send_disk_op
  by_cases h : E.K.CONFIG_DRIVES = false <;> simp [h]

@[simp]
theorem send_disk_op_last (E : Env) (s : State) (op : DiskOp) :
    (send_disk_op E s op).2.2.disk_last_status = s.disk_last_status := by
  unfold send_disk_op __send_disk_op
  by_cases h : E.K.CONFIG_DRIVES = false <;> simp [h]

@[simp]
theorem disk_ret_dev (s : State) (c : Nat) : (disk_ret s c).dev = s.dev := by
  unfold disk_ret __disk_ret
  by_cases h : c % 256 = 0 <;> simp [h]

@[simp]
theorem setAl_al (s : State) (v : Nat) : (setAl s v).regs.al = v := rfl

@[simp]
theorem setAl_es (s : State) (v : Nat) : (setAl s v).regs.es = s.regs.es := rfl

@[simp]
theorem setAl_bx (s : State) (v : Nat) : (setAl s v).regs.bx = s.regs.bx := rfl

@[simp]
theorem setAl_calls (s : State) (v : Nat) : (setAl s v).calls = s.calls := rfl

@[simp]
theorem setAl_rets (s : State) (v : Nat) : (setAl s v).rets = s.rets := rfl

@[simp]
theorem setAl_mem (s : State) (v : Nat) : (setAl s v).mem = s.mem := rfl

@[simp]
theorem setAl_dev (s : State) (v : Nat) : (setAl s v).dev = s.dev := rfl

@[simp]
theorem setAl_ext (s : State) (v : Nat) : (setAl s v).ext = s.ext := rfl

@[simp]
theorem setMem_regs (s : State) (m : Mem) : (setMem s m).regs = s.regs := rfl

@[simp]
theorem setMem_calls (s : State) (m : Mem) : (setMem s m).calls = s.calls := rfl

@[simp]
theorem setMem_rets (s : State) (m : Mem) : (setMem s m).rets = s.rets := rfl

@[simp]
theorem setMem_mem (s : State) (m : Mem) : (setMem s m).mem = m := rfl

@[simp]
theorem setMem_dev (s : State) (m : Mem) : (setMem s m).dev = s.dev := rfl

/-- The failure paths of `legacy_lba`: a bad count, a zero sector or a triple
outside the geometry yields `-1` after reporting `DISK_RET_EPARAM`. -/
theorem legacy_lba_invalid (K : Config) (s : State) (g : Chs)
    (h : (s.regs.al > 128 ∨ s.regs.al = 0 ∨ reqSector s.regs = 0)
      ∨ (reqCylinder s.regs ≥ g.cylinders ∨ reqHead s.regs ≥ g.heads
          ∨ reqSector s.regs > g.spt)) :
    legacy_lba K s g = (-1, disk_ret s K.DISK_RET_EPARAM) := by
  unfold reqCylinder reqHead reqSector at h
  unfold legacy_lba
  by_cases h1 : s.regs.al > 128 ∨ s.regs.al = 0 ∨ s.regs.cl &&& 0x3f = 0
  · simp only [if_pos h1]
  · simp only [if_neg h1]
    rcases h with h | h
    · exact absurd h h1
    · simp only [if_pos h]

/-- The path of `extended_access` past the bounds check. -/
theorem extended_access_in_range (E : Env) (s : State) (driveid command : Nat)
    (hlt : s.ext.lba < (E.drives driveid).sectors) :
    extended_access E s driveid command
      = disk_ret
          { (send_disk_op E s
                { lba := s.ext.lba, command := command, driveid := driveid,
                  buf_fl := MAKE_FLATPTR s.ext.segment s.ext.offset,
                  count := s.ext.count }).2.2 with
            ext :=
              { (send_disk_op E s
                  { lba := s.ext.lba, command := command, driveid := driveid,
                    buf_fl := MAKE_FLATPTR s.ext.segment s.ext.offset,
                    count := s.ext.count }).2.2.ext with
                count := (send_disk_op E s
                  { lba := s.ext.lba, command := command, driveid := driveid,
                    buf_fl := MAKE_FLATPTR s.ext.segment s.ext.offset,
                    count := s.ext.count }).2.1.count } }
          (if (send_disk_op E s
                { lba := s.ext.lba, command := command, driveid := driveid,
                  buf_fl := MAKE_FLATPTR s.ext.segment s.ext.offset,
                  count := s.ext.count }).1 = 0
            then E.K.DISK_RET_SUCCESS else E.K.DISK_RET_EBADTRACK) := by
  unfold extended_access
  rw [if_neg (by omega)]
  by_cases hst : (send_disk_op E s
      { lba := s.ext.lba, command := command, driveid := driveid,
        buf_fl := MAKE_FLATPTR s.ext.segment s.ext.offset, count := s.ext.count }).1 = 0
  · simp only [hst, if_true, ne_eq, not_true_eq_false, if_false]
  · simp only [hst, if_false, ne_eq, not_false_eq_true, if_true]

/-! ## The phases of `cdemu_access` -/

theorem and_three (n : Nat) : n &&& 3 = n % 4 := Nat.and_pow_two_sub_one_eq_mod n 2

set_option maxRecDepth 100000 in
theorem and_not_three : ∀ n < 256, (n &&& 0xfffffffc) % 256 = n / 4 * 4 := by decide

theorem reported_ret (s0 s : State) (new : List Call) (code : Nat)
    (hc : s.calls = s0.calls ++ new) (hr : s.rets = s0.rets) :
    Reported (disk_ret s code) s0 new code s.regs.al := by
  refine ⟨?_, ?_, ?_, ?_⟩
  · rw [disk_ret_calls, hc]
  · rw [disk_ret_rets, hr]
  · rw [disk_ret_last]
  · rw [disk_ret_al]

/-- Outcome of the trailing phase entered in state `s` with locals `lba`,
`count`, `dest`: either its scratch read fails (`EBADTRACK`, AL as it was),
or the phase ends with `SUCCESS` and AL advanced by `count`. -/
theorem trail_outcome (E : Env) (driveid command ebda_seg : Nat) (s : State)
    (lba count dest : Nat) (hal : s.regs.al < 256) :
    ∃ (st : Int) (n : Nat),
      (count ≠ 0 ∧ st ≠ 0
          ∧ Reported (cdemu_access_trail E driveid command ebda_seg s lba count dest) s
              [⟨scratchOp E driveid command ebda_seg lba, st, n⟩]
              E.K.DISK_RET_EBADTRACK s.regs.al)
        ∨ ((count ≠ 0 → st = 0)
          ∧ Reported (cdemu_access_trail E driveid command ebda_seg s lba count dest) s
              (if count ≠ 0 then [⟨scratchOp E driveid command ebda_seg lba, st, n⟩] else [])
              E.K.DISK_RET_SUCCESS ((s.regs.al + count) % 256)) := by
  by_cases hc : count = 0
  · refine ⟨0, 0, Or.inr ⟨fun _ => rfl, ?_⟩⟩
    simp [cdemu_access_trail, hc, Reported, Nat.mod_eq_of_lt hal]
  · refine ⟨(send_disk_op E s (scratchOp E driveid command ebda_seg lba)).1,
      (send_disk_op E s (scratchOp E driveid command ebda_seg lba)).2.1.count, ?_⟩
    by_cases hst : (send_disk_op E s (scratchOp E driveid command ebda_seg lba)).1 = 0
    · right
      unfold scratchOp at hst ⊢
      simp [cdemu_access_trail, hc, hst, Reported]
    · left
      unfold scratchOp at hst ⊢
      simp [cdemu_access_trail, hc, hst, Reported]

theorem reported_extend {f s1 s0 : State} {new pre : List Call} {code al : Nat}
    (h : Reported f s1 new code al) (hc : s1.calls = s0.calls ++ pre) (hr : s1.rets = s0.rets) :
    Reported f s0 (pre ++ new) code al := by
  obtain ⟨h1, h2, h3, h4⟩ := h
  exact ⟨by rw [h1, hc, List.append_assoc], by rw [h2, hr], h3, h4⟩

/-- Outcome of the bulk phase and what follows it, entered in state `s` with
locals `lba`, `count`, `dest`: the bulk read fails, or the trailing read
fails, or the run ends with `SUCCESS`. AL advances by 4 times the count the
bulk read reports, and by `count % 4` once the trailing read has succeeded. -/
theorem bulk_outcome (E : Env) (driveid command ebda_seg : Nat) (s : State)
    (lba count dest : Nat) (hal : s.regs.al < 256) (hcount : count < 256) :
    ∃ (stB : Int) (nB : Nat) (stT : Int) (nT : Nat),
      (count > 3 ∧ stB ≠ 0
          ∧ Reported (cdemu_access_bulk E driveid command ebda_seg s lba count dest) s
              [⟨directOp driveid command s.regs.es dest lba (count / 4), stB, nB⟩]
              E.K.DISK_RET_EBADTRACK ((s.regs.al + 4 * nB) % 256))
        ∨ (count % 4 ≠ 0 ∧ stT ≠ 0 ∧ (count > 3 → stB = 0)
          ∧ Reported (cdemu_access_bulk E driveid command ebda_seg s lba count dest) s
              ((if count > 3 then
                  [⟨directOp driveid command s.regs.es dest lba (count / 4), stB, nB⟩]
                else [])
                ++ [⟨scratchOp E driveid command ebda_seg (lba + count / 4), stT, nT⟩])
              E.K.DISK_RET_EBADTRACK
              ((s.regs.al + (if count > 3 then 4 * nB else 0)) % 256))
        ∨ ((count > 3 → stB = 0) ∧ (count % 4 ≠ 0 → stT = 0)
          ∧ Reported (cdemu_access_bulk E driveid command ebda_seg s lba count dest) s
              ((if count > 3 then
                  [⟨directOp driveid command s.regs.es dest lba (count / 4), stB, nB⟩]
                else [])
                ++ (if count % 4 ≠ 0 then
                  [⟨scratchOp E driveid command ebda_seg (lba + count / 4), stT, nT⟩]
                else []))
              E.K.DISK_RET_SUCCESS
              ((s.regs.al + (if count > 3 then 4 * nB else 0) + count % 4) % 256)) := by
  by_cases hb : count > 3
  · -- the bulk read is issued
    obtain ⟨x, hx⟩ : ∃ x, x = send_disk_op E s
        (directOp driveid command s.regs.es dest lba (count / 4)) := ⟨_, rfl⟩
    have xcalls : x.2.2.calls = s.calls
        ++ [⟨directOp driveid command s.regs.es dest lba (count / 4), x.1, x.2.1.count⟩] := by
      rw [hx]; exact send_disk_op_calls E s _
    have xrets : x.2.2.rets = s.rets := by rw [hx]; exact send_disk_op_rets E s _
    have xregs : x.2.2.regs = s.regs := by rw [hx]; exact send_disk_op_regs E s _
    by_cases hst : x.1 = 0
    · have h4 : (count &&& 0xfffffffc) % 256 = count / 4 * 4 := and_not_three count hcount
      have h5 : count / 4 * 4 / 4 = count / 4 := by omega
      have hbulk : cdemu_access_bulk E driveid command ebda_seg s lba count dest
          = cdemu_access_trail E driveid command ebda_seg
              (setAl x.2.2 ((s.regs.al + x.2.1.count * 4) % 256))
              (lba + count / 4) (count % 4) (dest + count / 4 * 4 * 512) := by
        rw [hx] at hst ⊢
        unfold directOp at hst ⊢
        simp [cdemu_access_bulk, hb, hst, h4, h5, and_three]
      obtain ⟨stT, nT, hT⟩ := trail_outcome E driveid command ebda_seg
        (setAl x.2.2 ((s.regs.al + x.2.1.count * 4) % 256))
        (lba + count / 4) (count % 4) (dest + count / 4 * 4 * 512)
        (by rw [setAl_al]; exact Nat.mod_lt _ (by norm_num))
      refine ⟨x.1, x.2.1.count, stT, nT, ?_⟩
      rw [hbulk]
      simp only [setAl_al] at hT
      rcases hT with ⟨h1, h2, h3⟩ | ⟨h1, h3⟩
      · right; left
        refine ⟨h1, h2, fun _ => hst, ?_⟩
        have := @reported_extend _ _ s _ _ _ _ h3 (by rw [setAl_calls]; exact xcalls)
          (by rw [setAl_rets]; exact xrets)
        simp only [if_pos hb]
        rw [Nat.mul_comm 4]
        exact this
      · right; right
        refine ⟨fun _ => hst, h1, ?_⟩
        have := @reported_extend _ _ s _ _ _ _ h3 (by rw [setAl_calls]; exact xcalls)
          (by rw [setAl_rets]; exact xrets)
        simp only [if_pos hb]
        rw [Nat.mul_comm 4]
        have e : ((s.regs.al + x.2.1.count * 4) % 256 + count % 4) % 256
            = (s.regs.al + x.2.1.count * 4 + count % 4) % 256 := by omega
        rw [← e]
        exact this
    · refine ⟨x.1, x.2.1.count, 0, 0, Or.inl ⟨hb, hst, ?_⟩⟩
      have hbulk : cdemu_access_bulk E driveid command ebda_seg s lba count dest
          = disk_ret (setAl x.2.2 ((s.regs.al + x.2.1.count * 4) % 256))
              E.K.DISK_RET_EBADTRACK := by
        rw [hx] at hst ⊢
        unfold directOp at hst ⊢
        simp [cdemu_access_bulk, hb, hst]
      rw [hbulk]
      refine ⟨?_, ?_, ?_, ?_⟩
      · rw [disk_ret_calls, setAl_calls, xcalls]
      · rw [disk_ret_rets, setAl_rets, xrets]
      · rw [disk_ret_last]
      · rw [disk_ret_al, setAl_al, Nat.mul_comm]
  · -- no bulk read: the trailing phase follows at once
    have hq : count / 4 = 0 := by omega
    have hm : count % 4 = count := by omega
    have hbulk : cdemu_access_bulk E driveid command ebda_seg s lba count dest
        = cdemu_access_trail E driveid command ebda_seg s lba count dest := by
      simp [cdemu_access_bulk, hb]
    obtain ⟨stT, nT, hT⟩ := trail_outcome E driveid command ebda_seg s lba count dest hal
    refine ⟨0, 0, stT, nT, ?_⟩
    rw [hbulk, hq, hm]
    simp only [if_neg hb, List.nil_append, Nat.add_zero]
    rcases hT with ⟨h1, h2, h3⟩ | ⟨h1, h3⟩
    · right; left
      refine ⟨h1, h2, fun h => absurd h hb, ?_⟩
      rw [Nat.mod_eq_of_lt hal]
      exact h3
    · right; right
      exact ⟨fun h => absurd h hb, h1, h3⟩

/-- A non-negative result of `legacy_lba` comes from its success path: the
count is valid and the state is unchanged. -/
theorem legacy_lba_nonneg (K : Config) (s : State) (g : Chs)
    (hv : 0 ≤ (legacy_lba K s g).1) :
    (legacy_lba K s g).2 = s ∧ validCount s.regs := by
  unfold legacy_lba at hv ⊢
  by_cases h1 : s.regs.al > 128 ∨ s.regs.al = 0 ∨ s.regs.cl &&& 0x3f = 0
  · simp [h1] at hv
  · by_cases h2 : s.regs.ch ||| ((s.regs.cl <<< 2) &&& 0x300) ≥ g.cylinders
        ∨ s.regs.dh ≥ g.heads ∨ s.regs.cl &&& 0x3f > g.spt
    · simp [h1, h2] at hv
    · simp only [if_neg h1, if_neg h2]
      refine ⟨trivial, ?_⟩
      unfold validCount
      omega

theorem reported_cast {f s1 s0 : State} {new new2 pre : List Call} {code al al2 : Nat}
    (h : Reported f s1 new code al) (hc : s1.calls = s0.calls ++ pre) (hr : s1.rets = s0.rets)
    (hn : new2 = pre ++ new) (ha : al2 = al) : Reported f s0 new2 code al2 := by
  rw [hn, ha]
  exact reported_extend h hc hr

/-- Outcome of `cdemu_access` on a request that `legacy_lba` accepts. -/
theorem cdemu_outcome (E : Env) (s : State) (driveid command : Nat)
    (hv : 0 ≤ (legacy_lba E.K s s.cdemu.lchs).1) :
    ∃ (stL : Int) (nL : Nat) (stB : Int) (nB : Nat) (stT : Int) (nT : Nat),
      CdemuOutcome E s (cdemu_access E s driveid command) driveid command
        (legacy_lba E.K s s.cdemu.lchs).1.toNat stL nL stB nB stT nT := by
  obtain ⟨hs, hc1, hc2⟩ := legacy_lba_nonneg E.K s s.cdemu.lchs hv
  obtain ⟨vl, hvl⟩ : ∃ vl, vl = (legacy_lba E.K s s.cdemu.lchs).1.toNat := ⟨_, rfl⟩
  rw [← hvl]
  have hnot : ¬ (legacy_lba E.K s s.cdemu.lchs).1 < 0 := by omega
  by_cases hoff : vl % 4 = 0
  · -- offset 0: no leading phase
    have hlead : emuLead vl s.regs.al = 0 := by simp [emuLead, hoff]
    have hrest : emuRest vl s.regs.al = s.regs.al := by simp [emuRest, hlead]
    have hblba : emuBulkLba s.cdemu.ilba vl = u32 (s.cdemu.ilba + vl / 4) := by
      simp [emuBulkLba, hoff]
    have heq : cdemu_access E s driveid command
        = cdemu_access_bulk E driveid command s.ebda_seg (setAl s 0)
            (u32 (s.cdemu.ilba + vl / 4)) s.regs.al s.regs.bx := by
      simp [cdemu_access, hnot, hs, ← hvl, and_three, hoff]
    obtain ⟨stB, nB, stT, nT, hB⟩ := bulk_outcome E driveid command s.ebda_seg (setAl s 0)
      (u32 (s.cdemu.ilba + vl / 4)) s.regs.al s.regs.bx (by simp) (by omega)
    refine ⟨0, 0, stB, nB, stT, nT, ?_⟩
    rw [heq]
    unfold CdemuOutcome
    rw [hlead, hrest]
    simp only [setAl_al, setAl_es, Nat.zero_add] at hB
    have hnl : leadCalls E s driveid command vl 0 0 = [] := by simp [leadCalls, hoff]
    rcases hB with ⟨h1, h2, h3⟩ | ⟨h1, h2, h3, h4⟩ | ⟨h1, h2, h3⟩
    · right; left
      refine ⟨h1, h2, fun h => absurd hoff h, ?_⟩
      refine reported_cast h3 (Eq.symm (List.append_nil _)) rfl ?_ (by simp)
      simp [hnl, bulkCalls, hrest, hlead, hblba, h1]
    · right; right; left
      refine ⟨h1, h2, fun h => absurd hoff h, h3, ?_⟩
      refine reported_cast h4 (Eq.symm (List.append_nil _)) rfl ?_ (by simp)
      simp [hnl, bulkCalls, trailCalls, hrest, hlead, hblba, h1]
    · right; right; right
      refine ⟨fun h => absurd hoff h, h1, h2, ?_⟩
      refine reported_cast h3 (Eq.symm (List.append_nil _)) rfl ?_ (by simp)
      simp [hnl, bulkCalls, trailCalls, hrest, hlead, hblba]
  · -- offset not 0: the leading scratch read is issued
    have hlead : emuLead vl s.regs.al = min (4 - vl % 4) s.regs.al := by simp [emuLead, hoff]
    have hblba : emuBulkLba s.cdemu.ilba vl = u32 (s.cdemu.ilba + vl / 4) + 1 := by
      simp [emuBulkLba, hoff]
    obtain ⟨x, hx⟩ : ∃ x, x = send_disk_op E (setAl s 0)
        (scratchOp E driveid command s.ebda_seg (u32 (s.cdemu.ilba + vl / 4))) := ⟨_, rfl⟩
    have xcalls : x.2.2.calls = s.calls
        ++ [⟨scratchOp E driveid command s.ebda_seg (u32 (s.cdemu.ilba + vl / 4)), x.1,
              x.2.1.count⟩] := by
      rw [hx]; exact send_disk_op_calls E _ _
    have xrets : x.2.2.rets = s.rets := by rw [hx]; exact send_disk_op_rets E _ _
    have xregs : x.2.2.regs = (setAl s 0).regs := by rw [hx]; exact send_disk_op_regs E _ _
    have hll : leadCalls E s driveid command vl x.1 x.2.1.count
        = [⟨scratchOp E driveid command s.ebda_seg (u32 (s.cdemu.ilba + vl / 4)), x.1,
              x.2.1.count⟩] := by
      simp [leadCalls, hoff]
    by_cases hst : x.1 = 0
    · have hthis : (if 4 - vl % 4 > s.regs.al then s.regs.al else 4 - vl % 4)
          = emuLead vl s.regs.al := by
        rw [hlead]
        by_cases h : 4 - vl % 4 > s.regs.al
        · rw [if_pos h, Nat.min_eq_right (by omega)]
        · rw [if_neg h, Nat.min_eq_left (by omega)]
      have hes : x.2.2.regs.es = s.regs.es := by rw [xregs, setAl_es]
      have hal0 : x.2.2.regs.al = 0 := by rw [xregs, setAl_al]
      obtain ⟨sL, hsL⟩ : ∃ sL, sL = setAl (setMem x.2.2 (memcpy_far x.2.2.mem s.regs.es s.regs.bx
          s.ebda_seg (E.K.cdemu_buf + vl % 4 * 512) (emuLead vl s.regs.al * 512)))
          (emuLead vl s.regs.al % 256) := ⟨_, rfl⟩
      have heq : cdemu_access E s driveid command
          = cdemu_access_bulk E driveid command s.ebda_seg sL
              (u32 (s.cdemu.ilba + vl / 4) + 1) (emuRest vl s.regs.al)
              (s.regs.bx + emuLead vl s.regs.al * 512) := by
        rw [hsL]
        rw [hx] at hst hes hal0 ⊢
        unfold scratchOp at hst hes hal0 ⊢
        simp [cdemu_access, hnot, hs, ← hvl, and_three, hoff, hst, hthis, emuRest, hes, hal0]
      have sLcalls : sL.calls = s.calls ++ leadCalls E s driveid command vl x.1 x.2.1.count := by
        rw [hsL, hll]; simp [xcalls]
      have sLrets : sL.rets = s.rets := by rw [hsL]; simp [xrets]
      have sLes : sL.regs.es = s.regs.es := by rw [hsL]; simp [hes]
      have sLal : sL.regs.al = emuLead vl s.regs.al % 256 := by rw [hsL]; simp
      obtain ⟨stB, nB, stT, nT, hB⟩ := bulk_outcome E driveid command s.ebda_seg sL
        (u32 (s.cdemu.ilba + vl / 4) + 1) (emuRest vl s.regs.al)
        (s.regs.bx + emuLead vl s.regs.al * 512)
        (by rw [sLal]; exact Nat.mod_lt _ (by norm_num))
        (by unfold emuRest; omega)
      refine ⟨x.1, x.2.1.count, stB, nB, stT, nT, ?_⟩
      rw [heq]
      unfold CdemuOutcome
      rw [sLes, sLal] at hB
      rcases hB with ⟨h1, h2, h3⟩ | ⟨h1, h2, h3, h4⟩ | ⟨h1, h2, h3⟩
      · right; left
        refine ⟨h1, h2, fun _ => hst, ?_⟩
        refine reported_cast h3 sLcalls sLrets ?_ (by omega)
        simp [bulkCalls, hblba, h1]
      · right; right; left
        refine ⟨h1, h2, fun _ => hst, h3, ?_⟩
        refine reported_cast h4 sLcalls sLrets ?_ (by split_ifs <;> omega)
        simp [bulkCalls, trailCalls, hblba, h1]
      · right; right; right
        refine ⟨fun _ => hst, h1, h2, ?_⟩
        refine reported_cast h3 sLcalls sLrets ?_ (by split_ifs <;> omega)
        simp [bulkCalls, trailCalls, hblba]
    · refine ⟨x.1, x.2.1.count, 0, 0, 0, 0, Or.inl ⟨hoff, hst, ?_⟩⟩
      have heq : cdemu_access E s driveid command
          = disk_ret x.2.2 E.K.DISK_RET_EBADTRACK := by
        rw [hx] at hst ⊢
        unfold scratchOp at hst ⊢
        simp [cdemu_access, hnot, hs, ← hvl, and_three, hoff, hst]
      rw [heq, hll]
      refine ⟨?_, ?_, ?_, ?_⟩
      · rw [disk_ret_calls, xcalls]
      · rw [disk_ret_rets, xrets]
      · rw [disk_ret_last]
      · rw [disk_ret_al, xregs, setAl_al]

theorem leadCalls_status {E : Env} {s : State} {driveid command vlba : Nat} {st : Int}
    {n : Nat} (h : vlba % 4 ≠ 0 → st = 0) :
    ∀ c ∈ leadCalls E s driveid command vlba st n, c.status = 0 := by
  intro c hc
  unfold leadCalls at hc
  by_cases h0 : vlba % 4 ≠ 0
  · rw [if_pos h0, List.mem_singleton] at hc
    rw [hc]; exact h h0
  · rw [if_neg h0] at hc; exact absurd hc (List.not_mem_nil _)

theorem bulkCalls_status {s : State} {driveid command vlba : Nat} {st : Int} {n : Nat}
    (h : emuRest vlba s.regs.al > 3 → st = 0) :
    ∀ c ∈ bulkCalls s driveid command vlba st n, c.status = 0 := by
  intro c hc
  unfold bulkCalls at hc
  by_cases h0 : emuRest vlba s.regs.al > 3
  · rw [if_pos h0, List.mem_singleton] at hc
    rw [hc]; exact h h0
  · rw [if_neg h0] at hc; exact absurd hc (List.not_mem_nil _)

theorem trailCalls_status {E : Env} {s : State} {driveid command vlba : Nat} {st : Int}
    {n : Nat} (h : emuRest vlba s.regs.al % 4 ≠ 0 → st = 0) :
    ∀ c ∈ trailCalls E s driveid command vlba st n, c.status = 0 := by
  intro c hc
  unfold trailCalls at hc
  by_cases h0 : emuRest vlba s.regs.al % 4 ≠ 0
  · rw [if_pos h0, List.mem_singleton] at hc
    rw [hc]; exact h h0
  · rw [if_neg h0] at hc; exact absurd hc (List.not_mem_nil _)

theorem emuLead_le (vlba count : Nat) : emuLead vlba count ≤ count := by
  unfold emuLead
  by_cases h : vlba % 4 = 0
  · rw [if_pos h]; exact Nat.zero_le _
  · rw [if_neg h]; exact Nat.min_le_right _ _

/-- The sectors of the three phases add up to the count. -/
theorem emu_sum (vlba count : Nat) :
    emuLead vlba count + 4 * (emuRest vlba count / 4) + emuRest vlba count % 4 = count := by
  have := emuLead_le vlba count
  unfold emuRest
  omega

/-- What the outcomes of `cdemu_access` imply when some logged call failed:
`EBADTRACK` is reported and the failing call is the last one logged. -/
theorem cdemu_outcome_failed {E : Env} {s f : State} {driveid command vlba : Nat}
    {stL : Int} {nL : Nat} {stB : Int} {nB : Nat} {stT : Int} {nT : Nat}
    (h : CdemuOutcome E s f driveid command vlba stL nL stB nB stT nT)
    (new : List Call) (hnew : f.calls = s.calls ++ new) (hf : ∃ c ∈ new, c.status ≠ 0) :
    f.rets = s.rets ++ [E.K.DISK_RET_EBADTRACK % 256]
      ∧ f.disk_last_status = E.K.DISK_RET_EBADTRACK % 256
      ∧ ∃ (pre : List Call) (c : Call), new = pre ++ [c] ∧ c.status ≠ 0
          ∧ ∀ d ∈ pre, d.status = 0 := by
  rcases h with ⟨h1, h2, r1, r2, r3, _⟩ | ⟨h1, h2, h3, r1, r2, r3, _⟩
    | ⟨h1, h2, h3, h4, r1, r2, r3, _⟩ | ⟨h1, h2, h3, r1, r2, r3, _⟩
  · have hn := List.append_cancel_left (hnew.symm.trans r1)
    refine ⟨r2, r3, [], ⟨scratchOp E driveid command s.ebda_seg (u32 (s.cdemu.ilba + vlba / 4)),
      stL, nL⟩, ?_, h2, fun d hd => absurd hd (List.not_mem_nil _)⟩
    rw [hn]
    simp [leadCalls, h1]
  · have hn := List.append_cancel_left (hnew.symm.trans r1)
    refine ⟨r2, r3, leadCalls E s driveid command vlba stL nL,
      ⟨directOp driveid command s.regs.es (s.regs.bx + emuLead vlba s.regs.al * 512)
        (emuBulkLba s.cdemu.ilba vlba) (emuRest vlba s.regs.al / 4), stB, nB⟩, ?_, h2,
      leadCalls_status h3⟩
    rw [hn]
    simp [bulkCalls, h1]
  · have hn := List.append_cancel_left (hnew.symm.trans r1)
    refine ⟨r2, r3,
      leadCalls E s driveid command vlba stL nL ++ bulkCalls s driveid command vlba stB nB,
      ⟨scratchOp E driveid command s.ebda_seg
        (emuBulkLba s.cdemu.ilba vlba + emuRest vlba s.regs.al / 4), stT, nT⟩, ?_, h2, ?_⟩
    · rw [hn]
      simp [trailCalls, h1]
    · intro d hd
      rcases List.mem_append.mp hd with hd | hd
      · exact leadCalls_status h3 d hd
      · exact bulkCalls_status h4 d hd
  · have hn := List.append_cancel_left (hnew.symm.trans r1)
    obtain ⟨c, hc, hcs⟩ := hf
    rw [hn] at hc
    exfalso
    apply hcs
    rcases List.mem_append.mp hc with hd | hd
    · rcases List.mem_append.mp hd with hd | hd
      · exact leadCalls_status h1 c hd
      · exact bulkCalls_status h2 c hd
    · exact trailCalls_status h3 c hd

/-- What the outcomes of `cdemu_access` imply when every logged call
succeeded: the success outcome holds. -/
theorem cdemu_outcome_succeeded {E : Env} {s f : State} {driveid command vlba : Nat}
    {stL : Int} {nL : Nat} {stB : Int} {nB : Nat} {stT : Int} {nT : Nat}
    (h : CdemuOutcome E s f driveid command vlba stL nL stB nB stT nT)
    (new : List Call) (hnew : f.calls = s.calls ++ new) (hok : ∀ c ∈ new, c.status = 0) :
    new = leadCalls E s driveid command vlba stL nL ++ bulkCalls s driveid command vlba stB nB
        ++ trailCalls E s driveid command vlba stT nT
      ∧ Reported f s new E.K.DISK_RET_SUCCESS
          ((emuLead vlba s.regs.al + (if emuRest vlba s.regs.al > 3 then 4 * nB else 0)
            + emuRest vlba s.regs.al % 4) % 256) := by
  rcases h with ⟨h1, h2, r1, _⟩ | ⟨h1, h2, h3, r1, _⟩
    | ⟨h1, h2, h3, h4, r1, _⟩ | ⟨h1, h2, h3, r⟩
  · have hn := List.append_cancel_left (hnew.symm.trans r1)
    exfalso
    apply h2
    have := hok ⟨scratchOp E driveid command s.ebda_seg (u32 (s.cdemu.ilba + vlba / 4)), stL, nL⟩
      (by rw [hn]; simp [leadCalls, h1])
    exact this
  · have hn := List.append_cancel_left (hnew.symm.trans r1)
    exfalso
    apply h2
    have := hok ⟨directOp driveid command s.regs.es (s.regs.bx + emuLead vlba s.regs.al * 512)
        (emuBulkLba s.cdemu.ilba vlba) (emuRest vlba s.regs.al / 4), stB, nB⟩
      (by rw [hn]; simp [bulkCalls, h1])
    exact this
  · have hn := List.append_cancel_left (hnew.symm.trans r1)
    exfalso
    apply h2
    have := hok ⟨scratchOp E driveid command s.ebda_seg
        (emuBulkLba s.cdemu.ilba vlba + emuRest vlba s.regs.al / 4), stT, nT⟩
      (by rw [hn]; simp [trailCalls, h1])
    exact this
  · have hn := List.append_cancel_left (hnew.symm.trans r.1)
    rw [hn]
    exact ⟨rfl, r⟩

/-! ## `cdemu_access` over the image engine -/

/-- The bridge over the image engine: status 0, the sectors read into memory,
the medium unchanged. -/
theorem send_image (E : Env) (s : State) (op : DiskOp)
    (hsel : servedBy E op.driveid imageEngine) :
    (send_disk_op E s op).1 = 0
      ∧ (send_disk_op E s op).2.2.mem = readInto s.dev s.mem op.buf_fl op.lba op.count
      ∧ (send_disk_op E s op).2.2.dev = s.dev := by
  obtain ⟨hcfg, hsel⟩ := hsel
  unfold send_disk_op __send_disk_op
  rcases hsel with ⟨h1, h2⟩ | ⟨h1, h2, h3⟩
  · simp only [hcfg, h1, h2, Bool.true_eq_false, if_false, if_true]
    exact ⟨rfl, rfl, rfl⟩
  · simp only [hcfg, h3, Bool.true_eq_false, if_false, if_neg h1, if_pos h2]
    exact ⟨rfl, rfl, rfl⟩

/-- The trailing phase over the image engine completes the buffer. -/
theorem trail_image (E : Env) (driveid command ebda_seg : Nat) (s0 s1 : State)
    (lba count dest es bx base p cnt : Nat)
    (hsel : servedBy E driveid imageEngine)
    (hinv : EmuInv s0 s1 (MAKE_FLATPTR es bx) (MAKE_FLATPTR ebda_seg E.K.cdemu_buf) base p cnt)
    (hes : s1.regs.es = es) (hdest : dest = bx + p * 512)
    (hc : count < 4) (hp : p + count = cnt)
    (hlba : count ≠ 0 → lba * 2048 = base + p * 512)
    (hdisj : MAKE_FLATPTR es bx + cnt * 512 ≤ MAKE_FLATPTR ebda_seg E.K.cdemu_buf
      ∨ MAKE_FLATPTR ebda_seg E.K.cdemu_buf + 2048 ≤ MAKE_FLATPTR es bx) :
    EmuInv s0 (cdemu_access_trail E driveid command ebda_seg s1 lba count dest)
        (MAKE_FLATPTR es bx) (MAKE_FLATPTR ebda_seg E.K.cdemu_buf) base cnt cnt
      ∧ (cdemu_access_trail E driveid command ebda_seg s1 lba count dest).rets
          = s1.rets ++ [E.K.DISK_RET_SUCCESS % 256] := by
  obtain ⟨i1, i2, i3⟩ := hinv
  by_cases h0 : count = 0
  · have hpc : p = cnt := by omega
    have heq : cdemu_access_trail E driveid command ebda_seg s1 lba count dest
        = disk_ret s1 E.K.DISK_RET_SUCCESS := by
      simp [cdemu_access_trail, h0]
    rw [heq]
    refine ⟨⟨?_, ?_, ?_⟩, disk_ret_rets _ _⟩
    · intro i hi
      rw [disk_ret_mem]
      exact i1 i (by rw [hpc]; exact hi)
    · intro a ha hb
      rw [disk_ret_mem]
      exact i2 a ha hb
    · rw [disk_ret_dev]; exact i3
  · obtain ⟨x, hx⟩ : ∃ x, x = send_disk_op E s1
        (scratchOp E driveid command ebda_seg lba) := ⟨_, rfl⟩
    obtain ⟨x1, x2, x3⟩ := send_image E s1 (scratchOp E driveid command ebda_seg lba) hsel
    rw [← hx] at x1 x2 x3
    have xregs : x.2.2.regs = s1.regs := by rw [hx]; exact send_disk_op_regs E _ _
    have xrets : x.2.2.rets = s1.rets := by rw [hx]; exact send_disk_op_rets E _ _
    have heq : cdemu_access_trail E driveid command ebda_seg s1 lba count dest
        = disk_ret (setAl (setMem x.2.2 (memcpy_far x.2.2.mem es dest ebda_seg
            E.K.cdemu_buf (count * 512))) ((s1.regs.al + count) % 256))
            E.K.DISK_RET_SUCCESS := by
      rw [hx] at x1 xregs ⊢
      unfold scratchOp at x1 xregs ⊢
      simp [cdemu_access_trail, h0, x1, xregs, hes]
    have hl := hlba h0
    rw [heq]
    refine ⟨⟨?_, ?_, ?_⟩, ?_⟩
    · intro i hi
      simp only [disk_ret_mem, setAl_mem, setMem_mem, x2, memcpy_far, readInto, scratchOp,
        MAKE_FLATPTR]
      simp only [MAKE_FLATPTR] at i1 hdisj
      by_cases hlow : i < p * 512
      · have := i1 i hlow
        rw [if_neg (by omega), if_neg (by omega)]
        exact this
      · rw [if_pos (by omega), if_pos (by omega), i3]
        refine congrArg s0.dev ?_
        omega
    · intro a ha hb
      simp only [disk_ret_mem, setAl_mem, setMem_mem, x2, memcpy_far, readInto, scratchOp,
        MAKE_FLATPTR]
      have := i2 a ha hb
      simp only [MAKE_FLATPTR] at ha hb hdisj
      rw [if_neg (by omega), if_neg (by omega)]
      exact this
    · simp only [disk_ret_dev, setAl_dev, setMem_dev, x3]
      exact i3
    · simp [xrets]

/-- The bulk phase over the image engine, and the trailing phase after it,
complete the buffer. -/
theorem bulk_image (E : Env) (driveid command ebda_seg : Nat) (s0 s1 : State)
    (lba count dest es bx base p cnt : Nat)
    (hsel : servedBy E driveid imageEngine)
    (hinv : EmuInv s0 s1 (MAKE_FLATPTR es bx) (MAKE_FLATPTR ebda_seg E.K.cdemu_buf) base p cnt)
    (hes : s1.regs.es = es) (hdest : dest = bx + p * 512)
    (hc : count < 256) (hp : p + count = cnt)
    (hlba : count ≠ 0 → lba * 2048 = base + p * 512)
    (hdisj : MAKE_FLATPTR es bx + cnt * 512 ≤ MAKE_FLATPTR ebda_seg E.K.cdemu_buf
      ∨ MAKE_FLATPTR ebda_seg E.K.cdemu_buf + 2048 ≤ MAKE_FLATPTR es bx) :
    EmuInv s0 (cdemu_access_bulk E driveid command ebda_seg s1 lba count dest)
        (MAKE_FLATPTR es bx) (MAKE_FLATPTR ebda_seg E.K.cdemu_buf) base cnt cnt
      ∧ (cdemu_access_bulk E driveid command ebda_seg s1 lba count dest).rets
          = s1.rets ++ [E.K.DISK_RET_SUCCESS % 256] := by
  by_cases hb : count > 3
  · obtain ⟨x, hx⟩ : ∃ x, x = send_disk_op E s1
        (directOp driveid command s1.regs.es dest lba (count / 4)) := ⟨_, rfl⟩
    obtain ⟨x1, x2, x3⟩ := send_image E s1
      (directOp driveid command s1.regs.es dest lba (count / 4)) hsel
    rw [← hx] at x1 x2 x3
    have xregs : x.2.2.regs = s1.regs := by rw [hx]; exact send_disk_op_regs E _ _
    have xrets : x.2.2.rets = s1.rets := by rw [hx]; exact send_disk_op_rets E _ _
    have h4 : (count &&& 0xfffffffc) % 256 = count / 4 * 4 := and_not_three count hc
    have h5 : count / 4 * 4 / 4 = count / 4 := by omega
    have heq : cdemu_access_bulk E driveid command ebda_seg s1 lba count dest
        = cdemu_access_trail E driveid command ebda_seg
            (setAl x.2.2 ((s1.regs.al + x.2.1.count * 4) % 256))
            (lba + count / 4) (count % 4) (dest + count / 4 * 4 * 512) := by
      rw [hx] at x1 ⊢
      unfold directOp at x1 ⊢
      simp [cdemu_access_bulk, hb, x1, h4, h5, and_three]
    rw [heq]
    obtain ⟨i1, i2, i3⟩ := hinv
    have hl := hlba (by omega)
    have hinv2 : EmuInv s0 (setAl x.2.2 ((s1.regs.al + x.2.1.count * 4) % 256))
        (MAKE_FLATPTR es bx) (MAKE_FLATPTR ebda_seg E.K.cdemu_buf) base (p + count / 4 * 4)
        cnt := by
      refine ⟨?_, ?_, ?_⟩
      · intro i hi
        simp only [setAl_mem, x2, readInto, directOp, MAKE_FLATPTR, hes, hdest]
        simp only [MAKE_FLATPTR] at i1 hdisj
        by_cases hlow : i < p * 512
        · rw [if_neg (by omega)]
          exact i1 i hlow
        · rw [if_pos (by omega), i3]
          refine congrArg s0.dev ?_
          omega
      · intro a ha hb2
        simp only [setAl_mem, x2, readInto, directOp, MAKE_FLATPTR, hes, hdest]
        have := i2 a ha hb2
        simp only [MAKE_FLATPTR] at ha hb2 hdisj
        rw [if_neg (by omega)]
        exact this
      · simp only [setAl_dev, x3]
        exact i3
    have := trail_image E driveid command ebda_seg s0
      (setAl x.2.2 ((s1.regs.al + x.2.1.count * 4) % 256))
      (lba + count / 4) (count % 4) (dest + count / 4 * 4 * 512) es bx base
      (p + count / 4 * 4) cnt hsel hinv2
      (by rw [setAl_es, xregs]; exact hes) (by omega) (by omega) (by omega)
      (fun _ => by omega) hdisj
    refine ⟨this.1, ?_⟩
    rw [this.2, setAl_rets, xrets]
  · have heq : cdemu_access_bulk E driveid command ebda_seg s1 lba count dest
        = cdemu_access_trail E driveid command ebda_seg s1 lba count dest := by
      simp [cdemu_access_bulk, hb]
    rw [heq]
    exact trail_image E driveid command ebda_seg s0 s1 lba count dest es bx base p cnt hsel
      hinv hes hdest (by omega) hp hlba hdisj

/-- Over the image engine, when the caller's buffer and the scratch buffer do
not overlap, `cdemu_access` fills the buffer with the bytes of the image and
reports success. -/
theorem cdemu_image (E : Env) (s : State) (driveid command : Nat)
    (hv : 0 ≤ (legacy_lba E.K s s.cdemu.lchs).1)
    (hsel : servedBy E driveid imageEngine)
    (hdisj : MAKE_FLATPTR s.regs.es s.regs.bx + s.regs.al * 512
        ≤ MAKE_FLATPTR s.ebda_seg E.K.cdemu_buf
      ∨ MAKE_FLATPTR s.ebda_seg E.K.cdemu_buf + 2048 ≤ MAKE_FLATPTR s.regs.es s.regs.bx) :
    EmuInv s (cdemu_access E s driveid command) (MAKE_FLATPTR s.regs.es s.regs.bx)
        (MAKE_FLATPTR s.ebda_seg E.K.cdemu_buf)
        (u32 (s.cdemu.ilba + (legacy_lba E.K s s.cdemu.lchs).1.toNat / 4) * 2048
          + (legacy_lba E.K s s.cdemu.lchs).1.toNat % 4 * 512)
        s.regs.al s.regs.al
      ∧ (cdemu_access E s driveid command).rets = s.rets ++ [E.K.DISK_RET_SUCCESS % 256] := by
  obtain ⟨hs, hc1, hc2⟩ := legacy_lba_nonneg E.K s s.cdemu.lchs hv
  obtain ⟨vl, hvl⟩ : ∃ vl, vl = (legacy_lba E.K s s.cdemu.lchs).1.toNat := ⟨_, rfl⟩
  rw [← hvl]
  have hnot : ¬ (legacy_lba E.K s s.cdemu.lchs).1 < 0 := by omega
  by_cases hoff : vl % 4 = 0
  · have heq : cdemu_access E s driveid command
        = cdemu_access_bulk E driveid command s.ebda_seg (setAl s 0)
            (u32 (s.cdemu.ilba + vl / 4)) s.regs.al s.regs.bx := by
      simp [cdemu_access, hnot, hs, ← hvl, and_three, hoff]
    rw [heq]
    have hinv : EmuInv s (setAl s 0) (MAKE_FLATPTR s.regs.es s.regs.bx)
        (MAKE_FLATPTR s.ebda_seg E.K.cdemu_buf) (u32 (s.cdemu.ilba + vl / 4) * 2048 + vl % 4 * 512) 0
        s.regs.al :=
      ⟨fun i hi => absurd hi (by omega), fun _ _ _ => rfl, rfl⟩
    have := bulk_image E driveid command s.ebda_seg s (setAl s 0) (u32 (s.cdemu.ilba + vl / 4))
      s.regs.al s.regs.bx s.regs.es s.regs.bx (u32 (s.cdemu.ilba + vl / 4) * 2048 + vl % 4 * 512) 0 s.regs.al
      hsel hinv rfl (by omega) (by omega) (by omega) (fun _ => by omega) hdisj
    exact ⟨this.1, by rw [this.2, setAl_rets]⟩
  · have hlead : emuLead vl s.regs.al = min (4 - vl % 4) s.regs.al := by simp [emuLead, hoff]
    have hle := emuLead_le vl s.regs.al
    have hle4 : emuLead vl s.regs.al ≤ 4 - vl % 4 := by rw [hlead]; exact Nat.min_le_left _ _
    have hfull : emuRest vl s.regs.al ≠ 0 → emuLead vl s.regs.al = 4 - vl % 4 := by
      intro h
      unfold emuRest at h
      rw [hlead] at h ⊢
      exact Nat.min_eq_left (by omega)
    obtain ⟨x, hx⟩ : ∃ x, x = send_disk_op E (setAl s 0)
        (scratchOp E driveid command s.ebda_seg (u32 (s.cdemu.ilba + vl / 4))) := ⟨_, rfl⟩
    obtain ⟨x1, x2, x3⟩ := send_image E (setAl s 0)
      (scratchOp E driveid command s.ebda_seg (u32 (s.cdemu.ilba + vl / 4))) hsel
    rw [← hx] at x1 x2 x3
    have xrets : x.2.2.rets = s.rets := by rw [hx]; exact send_disk_op_rets E _ _
    have xregs : x.2.2.regs = (setAl s 0).regs := by rw [hx]; exact send_disk_op_regs E _ _
    have hthis : (if 4 - vl % 4 > s.regs.al then s.regs.al else 4 - vl % 4)
        = emuLead vl s.regs.al := by
      rw [hlead]
      by_cases h : 4 - vl % 4 > s.regs.al
      · rw [if_pos h, Nat.min_eq_right (by omega)]
      · rw [if_neg h, Nat.min_eq_left (by omega)]
    have hes : x.2.2.regs.es = s.regs.es := by rw [xregs, setAl_es]
    have hal0 : x.2.2.regs.al = 0 := by rw [xregs, setAl_al]
    obtain ⟨sL, hsL⟩ : ∃ sL, sL = setAl (setMem x.2.2 (memcpy_far x.2.2.mem s.regs.es s.regs.bx
        s.ebda_seg (E.K.cdemu_buf + vl % 4 * 512) (emuLead vl s.regs.al * 512)))
        (emuLead vl s.regs.al % 256) := ⟨_, rfl⟩
    have heq : cdemu_access E s driveid command
        = cdemu_access_bulk E driveid command s.ebda_seg sL
            (u32 (s.cdemu.ilba + vl / 4) + 1) (emuRest vl s.regs.al)
            (s.regs.bx + emuLead vl s.regs.al * 512) := by
      rw [hsL]
      rw [hx] at x1 hes hal0 ⊢
      unfold scratchOp at x1 hes hal0 ⊢
      simp [cdemu_access, hnot, hs, ← hvl, and_three, hoff, x1, hthis, emuRest, hes, hal0]
    rw [heq]
    have hinv : EmuInv s sL (MAKE_FLATPTR s.regs.es s.regs.bx)
        (MAKE_FLATPTR s.ebda_seg E.K.cdemu_buf) (u32 (s.cdemu.ilba + vl / 4) * 2048 + vl % 4 * 512)
        (emuLead vl s.regs.al) s.regs.al := by
      rw [hsL]
      refine ⟨?_, ?_, ?_⟩
      · intro i hi
        simp only [setAl_mem, setMem_mem, x2, memcpy_far, readInto, scratchOp, MAKE_FLATPTR,
          setAl_dev]
        rw [if_pos (by omega), if_pos (by omega)]
        refine congrArg s.dev ?_
        omega
      · intro a ha hb
        simp only [setAl_mem, setMem_mem, x2, memcpy_far, readInto, scratchOp, MAKE_FLATPTR]
        simp only [MAKE_FLATPTR] at ha hb hdisj
        rw [if_neg (by omega), if_neg (by omega)]
      · simp only [setAl_dev, setMem_dev, x3]
    have := bulk_image E driveid command s.ebda_seg s sL (u32 (s.cdemu.ilba + vl / 4) + 1)
      (emuRest vl s.regs.al) (s.regs.bx + emuLead vl s.regs.al * 512) s.regs.es s.regs.bx
      (u32 (s.cdemu.ilba + vl / 4) * 2048 + vl % 4 * 512) (emuLead vl s.regs.al) s.regs.al
      hsel hinv (by rw [hsL]; simp [hes]) rfl (by unfold emuRest; omega)
      (by unfold emuRest; omega)
      (fun h => by have := hfull h; omega) hdisj
    refine ⟨this.1, ?_⟩
    rw [this.2, hsL]
    simp [xrets]

/-! ## The bulk-only run of `cdemu_access` -/

/-- At offset 0 with a count that is a positive multiple of 4, `cdemu_access`
is one bridge invocation straight to ES:BX, the update of AL and the status
report: no scratch read and no copy. -/
theorem cdemu_bulk_only (E : Env) (s : State) (driveid command : Nat)
    (hv : 0 ≤ (legacy_lba E.K s s.cdemu.lchs).1)
    (hoff : (legacy_lba E.K s s.cdemu.lchs).1.toNat % 4 = 0)
    (hmul : s.regs.al % 4 = 0) :
    cdemu_access E s driveid command
      = disk_ret
          (setAl
            (send_disk_op E (setAl s 0)
              (directOp driveid command s.regs.es s.regs.bx
                (u32 (s.cdemu.ilba + (legacy_lba E.K s s.cdemu.lchs).1.toNat / 4))
                (s.regs.al / 4))).2.2
            ((0 + (send_disk_op E (setAl s 0)
              (directOp driveid command s.regs.es s.regs.bx
                (u32 (s.cdemu.ilba + (legacy_lba E.K s s.cdemu.lchs).1.toNat / 4))
                (s.regs.al / 4))).2.1.count * 4) % 256))
          (if (send_disk_op E (setAl s 0)
              (directOp driveid command s.regs.es s.regs.bx
                (u32 (s.cdemu.ilba + (legacy_lba E.K s s.cdemu.lchs).1.toNat / 4))
                (s.regs.al / 4))).1 = 0
            then E.K.DISK_RET_SUCCESS else E.K.DISK_RET_EBADTRACK) := by
  obtain ⟨hs, hc1, hc2⟩ := legacy_lba_nonneg E.K s s.cdemu.lchs hv
  obtain ⟨vl, hvl⟩ : ∃ vl, vl = (legacy_lba E.K s s.cdemu.lchs).1.toNat := ⟨_, rfl⟩
  rw [← hvl] at hoff ⊢
  have hnot : ¬ (legacy_lba E.K s s.cdemu.lchs).1 < 0 := by omega
  have hb : s.regs.al > 3 := by omega
  have h4 : (s.regs.al &&& 0xfffffffc) % 256 = s.regs.al / 4 * 4 :=
    and_not_three s.regs.al (by omega)
  obtain ⟨x, hx⟩ : ∃ x, x = send_disk_op E (setAl s 0)
      (directOp driveid command s.regs.es s.regs.bx (u32 (s.cdemu.ilba + vl / 4))
        (s.regs.al / 4)) := ⟨_, rfl⟩
  rw [← hx]
  by_cases hst : x.1 = 0
  · rw [hx] at hst ⊢
    unfold directOp at hst ⊢
    simp [cdemu_access, cdemu_access_bulk, cdemu_access_trail, hnot, hs, ← hvl, and_three,
      hoff, hb, hst, h4, hmul]
  · rw [hx] at hst ⊢
    unfold directOp at hst ⊢
    simp [cdemu_access, cdemu_access_bulk, hnot, hs, ← hvl, and_three, hoff, hb, hst]

/-! ## The parameter block builder -/

@[simp]
theorem disk_ret_dpt (s : State) (c : Nat) : (disk_ret s c).dpt = s.dpt := by
  unfold disk_ret __disk_ret
  by_cases h : c % 256 = 0 <;> simp [h]

@[simp]
theorem disk_ret_dpte (s : State) (c : Nat) : (disk_ret s c).dpte = s.dpte := by
  unfold disk_ret __disk_ret
  by_cases h : c % 256 = 0 <;> simp [h]

@[simp]
theorem disk_ret_flag (s : State) (c : Nat) :
    (disk_ret s c).disk_interrupt_flag = s.disk_interrupt_flag := by
  unfold disk_ret __disk_ret
  by_cases h : c % 256 = 0 <;> simp [h]

@[simp]
theorem le_length (w v : Nat) : (le w v).length = w := by simp [le]

@[simp]
theorem arr_length (n : Nat) (l : List Nat) : (arr n l).length = n := by simp [arr]

theorem le_one (v : Nat) : le 1 v = [v % 256] := by
  unfold le
  rw [show List.range 1 = [0] from rfl]
  simp

theorem tier0Bytes_length (d : Int13Dpt) : (tier0Bytes d).length = 26 := by
  simp [tier0Bytes]

theorem tier1Bytes_length (d : Int13Dpt) : (tier1Bytes d).length = 4 := by
  simp [tier1Bytes]

theorem tier2Body_length (d : Int13Dpt) : (tier2Body d).length = 35 := by
  simp [tier2Body]

theorem dpteBody_length (t : Dpte) : (dpteBody t).length = 15 := by
  simp [dpteBody]

/-- From offset 26 on the parameter block is its tier-1 and tier-2 bytes. -/
theorem bytes_drop_26 (d : Int13Dpt) :
    (int13dpt_bytes d).drop 26 = tier1Bytes d ++ tier2Bytes d := by
  unfold int13dpt_bytes
  rw [List.append_assoc]
  exact List.drop_left' (tier0Bytes_length d)

/-- From offset 30 on the parameter block is its tier-2 block. -/
theorem bytes_drop_30 (d : Int13Dpt) : (int13dpt_bytes d).drop 30 = tier2Bytes d := by
  unfold int13dpt_bytes
  exact List.drop_left' (by rw [List.length_append, tier0Bytes_length, tier1Bytes_length])

/-- The 35 bytes from offset 30 are the tier-2 block without its checksum. -/
theorem bytes_read_30_35 (d : Int13Dpt) :
    ((int13dpt_bytes d).drop 30).take 35 = tier2Body d := by
  rw [bytes_drop_30]
  exact List.take_left' (tier2Body_length d)

theorem dpte_take_15 (t : Dpte) : (dpte_bytes t).take 15 = dpteBody t :=
  List.take_left' (dpteBody_length t)

/-- A block closed by the two's complement of its byte sum sums to 0 mod 256. -/
theorem sum_closed (body : List Nat) :
    (body ++ le 1 ((256 - checksum_far body) % 256)).sum % 256 = 0 := by
  rw [List.sum_append, le_one]
  unfold checksum_far
  simp only [List.sum_cons, List.sum_nil, Nat.add_zero]
  omega

/-- The tier-0 stores leave the tier-1 and tier-2 bytes alone. -/
theorem edd1_frame (E : Env) (d : Int13Dpt) (driveid : Nat) :
    tier1Bytes (disk_1348_edd1 E d driveid) = tier1Bytes d
      ∧ tier2Bytes (disk_1348_edd1 E d driveid) = tier2Bytes d := by
  unfold disk_1348_edd1
  simp only
  split_ifs <;> exact ⟨rfl, rfl⟩

theorem edd1_size (E : Env) (d : Int13Dpt) (driveid : Nat) :
    (disk_1348_edd1 E d driveid).size = 26 := by
  unfold disk_1348_edd1
  simp only
  split_ifs <;> rfl

/-- The path of `disk_1348` that stops after tier 0. -/
theorem disk_1348_tier0 (E : Env) (s : State) (driveid : Nat)
    (h26 : 26 ≤ s.dpt.size)
    (hstop : s.dpt.size < 30 ∨ ((E.drives driveid).type ≠ E.K.DTYPE_ATA
      ∧ (E.drives driveid).type ≠ E.K.DTYPE_ATAPI)) :
    disk_1348 E s driveid
      = disk_ret { s with dpt := disk_1348_edd1 E s.dpt driveid } E.K.DISK_RET_SUCCESS := by
  unfold disk_1348
  simp only [if_neg (Nat.not_lt.mpr h26), if_pos hstop]

/-- The path of `disk_1348` that stops after tier 1. -/
theorem disk_1348_tier1 (E : Env) (s : State) (driveid : Nat)
    (h30 : 30 ≤ s.dpt.size) (h66 : s.dpt.size < 66)
    (hata : (E.drives driveid).type = E.K.DTYPE_ATA
      ∨ (E.drives driveid).type = E.K.DTYPE_ATAPI) :
    disk_1348 E s driveid
      = disk_ret
          { s with
            dpt := { disk_1348_edd1 E s.dpt driveid with
                     size := 30, dpte_segment := s.ebda_seg, dpte_offset := E.K.dpte },
            dpte := disk_1348_dpte E s.dpte driveid }
          E.K.DISK_RET_SUCCESS := by
  have hgo : ¬ (s.dpt.size < 30 ∨ ((E.drives driveid).type ≠ E.K.DTYPE_ATA
      ∧ (E.drives driveid).type ≠ E.K.DTYPE_ATAPI)) := by
    rintro (h | ⟨h1, h2⟩)
    · omega
    · rcases hata with h | h
      · exact h1 h
      · exact h2 h
  unfold disk_1348
  simp only [if_neg (show ¬ s.dpt.size < 26 by omega), if_neg hgo, if_pos h66]

/-- The path of `disk_1348` through all three tiers. -/
theorem disk_1348_tier2 (E : Env) (s : State) (driveid : Nat)
    (h66 : 66 ≤ s.dpt.size)
    (hata : (E.drives driveid).type = E.K.DTYPE_ATA
      ∨ (E.drives driveid).type = E.K.DTYPE_ATAPI) :
    disk_1348 E s driveid
      = disk_ret
          { s with
            dpt := disk_1348_edd3 E
              { disk_1348_edd1 E s.dpt driveid with
                size := 30, dpte_segment := s.ebda_seg, dpte_offset := E.K.dpte } driveid,
            dpte := disk_1348_dpte E s.dpte driveid }
          E.K.DISK_RET_SUCCESS := by
  have hgo : ¬ (s.dpt.size < 30 ∨ ((E.drives driveid).type ≠ E.K.DTYPE_ATA
      ∧ (E.drives driveid).type ≠ E.K.DTYPE_ATAPI)) := by
    rintro (h | ⟨h1, h2⟩)
    · omega
    · rcases hata with h | h
      · exact h1 h
      · exact h2 h
  unfold disk_1348
  simp only [if_neg (show ¬ s.dpt.size < 26 by omega), if_neg hgo,
    if_neg (show ¬ s.dpt.size < 66 by omega)]

theorem dpte_bytes_checksum (u : Dpte) (c : Nat) :
    dpte_bytes { u with checksum := c } = dpteBody u ++ le 1 c := rfl

theorem dpteBody_checksum (u : Dpte) (c : Nat) :
    dpteBody { u with checksum := c } = dpteBody u := rfl

theorem tier2Bytes_checksum (u : Int13Dpt) (c : Nat) :
    tier2Bytes { u with checksum := c } = tier2Body u ++ le 1 c := rfl

/-- The device path table that `disk_1348` builds sums to 0 mod 256. -/
theorem dpte_closed (E : Env) (t : Dpte) (driveid : Nat) :
    (dpte_bytes (disk_1348_dpte E t driveid)).sum % 256 = 0
      ∧ (disk_1348_dpte E t driveid).checksum
          = (256 - (dpteBody (disk_1348_dpte E t driveid)).sum % 256) % 256 := by
  obtain ⟨u, hu⟩ : ∃ u, u = disk_1348_dpte_fields E t driveid := ⟨_, rfl⟩
  have h : disk_1348_dpte E t driveid
      = { u with checksum := (256 - checksum_far (dpteBody u)) % 256 } := by
    unfold disk_1348_dpte
    rw [← hu]
    simp only [dpte_take_15]
  rw [h, dpte_bytes_checksum]
  refine ⟨sum_closed _, ?_⟩
  simp only [checksum_far, dpteBody_checksum]

/-- The tier-2 block that `disk_1348` builds sums to 0 mod 256. -/
theorem edd3_closed (E : Env) (d : Int13Dpt) (driveid : Nat) :
    (tier2Bytes (disk_1348_edd3 E d driveid)).sum % 256 = 0 := by
  obtain ⟨u, hu⟩ : ∃ u, u = disk_1348_edd3_fields E d driveid := ⟨_, rfl⟩
  have h : disk_1348_edd3 E d driveid
      = { u with checksum := (256 - checksum_far (tier2Body u)) % 256 } := by
    unfold disk_1348_edd3
    rw [← hu]
    simp only [bytes_read_30_35]
  rw [h, tier2Bytes_checksum]
  exact sum_closed _

/-- The tier-0 fields that `disk_1348_edd1` stores for a drive that is not an
ATAPI device. -/
theorem edd1_fields (E : Env) (d : Int13Dpt) (driveid : Nat)
    (hna : (E.drives driveid).type ≠ E.K.DTYPE_ATAPI) :
    (disk_1348_edd1 E d driveid).infos
        = (if (E.drives driveid).sectors
              > (E.drives driveid).pchs.spt * (E.drives driveid).pchs.heads * 0x3fff
            then 0x00 else 0x02)
      ∧ (disk_1348_edd1 E d driveid).cylinders
        = (if (E.drives driveid).sectors
              > (E.drives driveid).pchs.spt * (E.drives driveid).pchs.heads * 0x3fff
            then 0x3fff else (E.drives driveid).pchs.cylinders)
      ∧ (disk_1348_edd1 E d driveid).heads = (E.drives driveid).pchs.heads
      ∧ (disk_1348_edd1 E d driveid).spt = (E.drives driveid).pchs.spt
      ∧ (disk_1348_edd1 E d driveid).sector_count = (E.drives driveid).sectors
      ∧ (disk_1348_edd1 E d driveid).blksize = (E.drives driveid).blksize := by
  unfold disk_1348_edd1
  simp only [if_neg hna]
  split_ifs <;> simp

/-- The tier-2 stores leave the tier-0 fields other than `size` alone. -/
theorem edd3_tier0 (E : Env) (d : Int13Dpt) (driveid : Nat) :
    (disk_1348_edd3 E d driveid).infos = d.infos
      ∧ (disk_1348_edd3 E d driveid).cylinders = d.cylinders
      ∧ (disk_1348_edd3 E d driveid).heads = d.heads
      ∧ (disk_1348_edd3 E d driveid).spt = d.spt
      ∧ (disk_1348_edd3 E d driveid).sector_count = d.sector_count
      ∧ (disk_1348_edd3 E d driveid).blksize = d.blksize
      ∧ (disk_1348_edd3 E d driveid).key = 0xbedd :=
  ⟨rfl, rfl, rfl, rfl, rfl, rfl, rfl⟩

/-! ## Drive resolution and dispatch -/

/-- The result of `get_driveid`: the mapped id when the ordinal resolves, -1
otherwise. -/
theorem get_driveid_eq (E : Env) (row ord : Nat) :
    get_driveid E row ord = if validOrdinal E row ord then (E.idmap row ord : Int) else -1 := by
  unfold get_driveid validOrdinal
  by_cases h1 : ord ≥ E.K.idmap_width
  · rw [if_pos h1, if_neg (by omega)]
  · by_cases h2 : E.idmap row ord ≥ E.K.drives_width
    · simp only [if_neg h1, if_pos h2]
      rw [if_neg (by omega)]
    · simp only [if_neg h1, if_neg h2]
      rw [if_pos (by omega)]

theorem get_driveid_valid (E : Env) (row ord : Nat) (h : validOrdinal E row ord) :
    ¬ get_driveid E row ord < 0 ∧ (get_driveid E row ord).toNat = E.idmap row ord := by
  rw [get_driveid_eq, if_pos h]
  exact ⟨by omega, Int.toNat_ofNat _⟩

theorem get_driveid_invalid (E : Env) (row ord : Nat) (h : ¬ validOrdinal E row ord) :
    get_driveid E row ord < 0 := by
  rw [get_driveid_eq, if_neg h]
  decide

theorem same_bit7 (a b : Nat) : (a ^^^ b) &&& 0x80 = 0 ↔ a &&& 0x80 = b &&& 0x80 := by
  rw [Nat.and_xor_distrib_right, Nat.xor_eq_zero]

/-! ## Every handler but reset and status reports through `disk_ret` -/

theorem records_ret (s0 s : State) (code : Nat) (hr : s.rets = s0.rets) :
    RecordsOne (disk_ret s code) s0 :=
  ⟨code, by rw [disk_ret_rets, hr], disk_ret_last _ _⟩

/-- `basic_access` reports exactly once, unless the block number of a valid
request overflows 31 bits. -/
theorem basic_access_records (E : Env) (s : State) (driveid command : Nat)
    (hfit : validCount s.regs → validChs (E.drives driveid).lchs s.regs →
      chsBlock (E.drives driveid).lchs (reqCylinder s.regs) (reqHead s.regs)
        (reqSector s.regs) < 2 ^ 31) :
    RecordsOne (basic_access E s driveid command) s := by
  by_cases hok : validCount s.regs ∧ validChs (E.drives driveid).lchs s.regs
  · have hl := legacy_lba_block E.K s (E.drives driveid).lchs hok.1 hok.2 (hfit hok.1 hok.2)
    unfold basic_access
    simp only [hl, Int.toNat_ofNat]
    rw [if_neg (by simp)]
    split_ifs
    · exact records_ret s _ _ (by simp)
    · exact records_ret s _ _ (by simp)
  · have hl := legacy_lba_invalid E.K s (E.drives driveid).lchs (by
      unfold validCount validChs at hok
      by_contra hc
      apply hok
      simp only [not_or, not_lt, ge_iff_le, gt_iff_lt, not_le] at hc
      omega)
    unfold basic_access
    simp only [hl]
    rw [if_pos (by decide)]
    exact records_ret s _ _ rfl

/-- `extended_access` reports exactly once. -/
theorem extended_access_records (E : Env) (s : State) (driveid command : Nat) :
    RecordsOne (extended_access E s driveid command) s := by
  by_cases hlt : s.ext.lba < (E.drives driveid).sectors
  · rw [extended_access_in_range E s driveid command hlt]
    exact records_ret s _ _ (by simp)
  · unfold extended_access
    rw [if_pos (by omega)]
    exact records_ret s _ _ rfl

/-- `disk_1348` reports exactly once. -/
theorem disk_1348_records (E : Env) (s : State) (driveid : Nat) :
    RecordsOne (disk_1348 E s driveid) s := by
  unfold disk_1348
  simp only
  split_ifs <;> exact records_ret s _ _ rfl

/-- A `DISK_STUB` reports exactly once. -/
theorem disk_stub_records (K : Config) (s : State) (lineno : Nat) :
    RecordsOne (__disk_stub K s lineno) s := by
  unfold __disk_stub
  exact ⟨K.DISK_RET_SUCCESS ||| (lineno <<< 8),
    disk_ret_rets s _, disk_ret_last s _⟩

theorem disk_1308_records (E : Env) (s : State) (driveid : Nat) :
    RecordsOne (disk_1308 E s driveid) s := by
  unfold disk_1308
  exact records_ret s _ _ rfl

theorem disk_1310_records (E : Env) (s : State) (driveid : Nat) :
    RecordsOne (disk_1310 E s driveid) s := by
  unfold disk_1310
  simp only
  split_ifs <;> exact records_ret s _ _ (by simp)

theorem disk_1315_records (E : Env) (s : State) (driveid : Nat) :
    RecordsOne (disk_1315 E s driveid) s := by
  unfold disk_1315
  exact ⟨E.K.DISK_RET_SUCCESS, disk_ret_rets _ _, disk_ret_last _ _⟩

theorem disk_1341_records (K : Config) (s : State) :
    RecordsOne (disk_1341 K s) s := by
  unfold disk_1341
  exact ⟨K.DISK_RET_SUCCESS, disk_ret_rets _ _, disk_ret_last _ _⟩

theorem disk_134e_records (K : Config) (s : State) :
    RecordsOne (disk_134e K s) s := by
  unfold disk_134e disk_134e01 disk_134e03 disk_134e04 disk_134e06 disk_134eXX
  split_ifs <;> exact records_ret s _ _ rfl

/-- Every function code of `disk_13` other than 0x00 and 0x01 reports exactly
once, provided no valid CHS request of functions 0x02-0x04 overflows. -/
theorem disk_13_records (E : Env) (s : State) (driveid : Nat)
    (h0 : s.regs.ah ≠ 0x00) (h1 : s.regs.ah ≠ 0x01)
    (hfit : (s.regs.ah = 0x02 ∨ s.regs.ah = 0x03 ∨ s.regs.ah = 0x04) →
      validCount s.regs → validChs (E.drives driveid).lchs s.regs →
      chsBlock (E.drives driveid).lchs (reqCylinder s.regs) (reqHead s.regs)
        (reqSector s.regs) < 2 ^ 31) :
    RecordsOne (disk_13 E s driveid) s := by
  unfold disk_13
  simp only [if_neg h0, if_neg h1]
  by_cases hc : s.regs.ah = 0x02
  · rw [if_pos hc]
    exact basic_access_records E { s with disk_interrupt_flag := 0 } driveid _ (hfit (Or.inl hc))
  rw [if_neg hc]
  clear hc
  by_cases hc : s.regs.ah = 0x03
  · rw [if_pos hc]
    exact basic_access_records E { s with disk_interrupt_flag := 0 } driveid _ (hfit (Or.inr (Or.inl hc)))
  rw [if_neg hc]
  clear hc
  by_cases hc : s.regs.ah = 0x04
  · rw [if_pos hc]
    exact basic_access_records E { s with disk_interrupt_flag := 0 } driveid _ (hfit (Or.inr (Or.inr hc)))
  rw [if_neg hc]
  clear hc
  by_cases hc : s.regs.ah = 0x05
  · rw [if_pos hc]
    exact disk_stub_records E.K { s with disk_interrupt_flag := 0 } _
  rw [if_neg hc]
  clear hc
  by_cases hc : s.regs.ah = 0x08
  · rw [if_pos hc]
    exact disk_1308_records E { s with disk_interrupt_flag := 0 } driveid
  rw [if_neg hc]
  clear hc
  by_cases hc : s.regs.ah = 0x09
  · rw [if_pos hc]
    exact disk_stub_records E.K { s with disk_interrupt_flag := 0 } _
  rw [if_neg hc]
  clear hc
  by_cases hc : s.regs.ah = 0x0c
  · rw [if_pos hc]
    exact disk_stub_records E.K { s with disk_interrupt_flag := 0 } _
  rw [if_neg hc]
  clear hc
  by_cases hc : s.regs.ah = 0x0d
  · rw [if_pos hc]
    exact disk_stub_records E.K { s with disk_interrupt_flag := 0 } _
  rw [if_neg hc]
  clear hc
  by_cases hc : s.regs.ah = 0x10
  · rw [if_pos hc]
    exact disk_1310_records E { s with disk_interrupt_flag := 0 } driveid
  rw [if_neg hc]
  clear hc
  by_cases hc : s.regs.ah = 0x11
  · rw [if_pos hc]
    exact disk_stub_records E.K { s with disk_interrupt_flag := 0 } _
  rw [if_neg hc]
  clear hc
  by_cases hc : s.regs.ah = 0x14
  · rw [if_pos hc]
    exact disk_stub_records E.K { s with disk_interrupt_flag := 0 } _
  rw [if_neg hc]
  clear hc
  by_cases hc : s.regs.ah = 0x15
  · rw [if_pos hc]
    exact disk_1315_records E { s with disk_interrupt_flag := 0 } driveid
  rw [if_neg hc]
  clear hc
  by_cases hc : s.regs.ah = 0x41
  · rw [if_pos hc]
    exact disk_1341_records E.K { s with disk_interrupt_flag := 0 }
  rw [if_neg hc]
  clear hc
  by_cases hc : s.regs.ah = 0x42
  · rw [if_pos hc]
    exact extended_access_records E { s with disk_interrupt_flag := 0 } driveid _
  rw [if_neg hc]
  clear hc
  by_cases hc : s.regs.ah = 0x43
  · rw [if_pos hc]
    exact extended_access_records E { s with disk_interrupt_flag := 0 } driveid _
  rw [if_neg hc]
  clear hc
  by_cases hc : s.regs.ah = 0x44
  · rw [if_pos hc]
    exact extended_access_records E { s with disk_interrupt_flag := 0 } driveid _
  rw [if_neg hc]
  clear hc
  by_cases hc : s.regs.ah = 0x45
  · rw [if_pos hc]
    exact records_ret s _ _ rfl
  rw [if_neg hc]
  clear hc
  by_cases hc : s.regs.ah = 0x46
  · rw [if_pos hc]
    exact records_ret s _ _ rfl
  rw [if_neg hc]
  clear hc
  by_cases hc : s.regs.ah = 0x47
  · rw [if_pos hc]
    exact extended_access_records E { s with disk_interrupt_flag := 0 } driveid _
  rw [if_neg hc]
  clear hc
  by_cases hc : s.regs.ah = 0x48
  · rw [if_pos hc]
    exact disk_1348_records E { s with disk_interrupt_flag := 0 } driveid
  rw [if_neg hc]
  clear hc
  by_cases hc : s.regs.ah = 0x49
  · rw [if_pos hc]
    exact records_ret s _ _ rfl
  rw [if_neg hc]
  clear hc
  by_cases hc : s.regs.ah = 0x4e
  · rw [if_pos hc]
    exact disk_134e_records E.K { s with disk_interrupt_flag := 0 }
  rw [if_neg hc]
  clear hc
  exact records_ret s _ _ rfl

/-! ## The translation bitfield and the maximum CHS address -/

@[simp]
theorem disk_ret_ch (s : State) (c : Nat) : (disk_ret s c).regs.ch = s.regs.ch := by
  unfold disk_ret __disk_ret
  by_cases h : c % 256 = 0 <;> simp [h, set_code_success, __set_code_fail]

@[simp]
theorem disk_ret_cl (s : State) (c : Nat) : (disk_ret s c).regs.cl = s.regs.cl := by
  unfold disk_ret __disk_ret
  by_cases h : c % 256 = 0 <;> simp [h, set_code_success, __set_code_fail]

@[simp]
theorem disk_ret_dh (s : State) (c : Nat) : (disk_ret s c).regs.dh = s.regs.dh := by
  unfold disk_ret __disk_ret
  by_cases h : c % 256 = 0 <;> simp [h, set_code_success, __set_code_fail]

@[simp]
theorem disk_ret_dl (s : State) (c : Nat) : (disk_ret s c).regs.dl = s.regs.dl := by
  unfold disk_ret __disk_ret
  by_cases h : c % 256 = 0 <;> simp [h, set_code_success, __set_code_fail]

/-- The bitfield in the device path table is the one `disk_1348` computed. -/
theorem storedOptions_eq (E : Env) (s : State) (driveid : Nat)
    (hata : (E.drives driveid).type = E.K.DTYPE_ATA
      ∨ (E.drives driveid).type = E.K.DTYPE_ATAPI)
    (h30 : 30 ≤ s.dpt.size) :
    storedOptions E s driveid = disk_1348_options E driveid := by
  unfold storedOptions
  by_cases h66 : s.dpt.size < 66
  · rw [disk_1348_tier1 E s driveid h30 h66 hata, disk_ret_dpte]
    rfl
  · rw [disk_1348_tier2 E s driveid (by omega) hata, disk_ret_dpte]
    rfl

/-- The bitfield of a drive that is not an ATA disk. -/
theorem options_atapi (E : Env) (driveid : Nat)
    (h : (E.drives driveid).type ≠ E.K.DTYPE_ATA) :
    disk_1348_options E driveid = if E.K.CONFIG_ATA_PIO32 = true then 0xf0 else 0x70 := by
  unfold disk_1348_options
  simp only [if_neg h]
  rfl

/-- The bitfield of an ATA disk without CHS translation. -/
theorem options_ata_none (E : Env) (driveid : Nat)
    (h : (E.drives driveid).type = E.K.DTYPE_ATA)
    (ht : (E.drives driveid).translation = E.K.TRANSLATION_NONE) :
    disk_1348_options E driveid = if E.K.CONFIG_ATA_PIO32 = true then 0x90 else 0x10 := by
  unfold disk_1348_options
  simp only [if_pos h, ne_eq, ht, not_true_eq_false, if_false]
  rfl

/-- The bitfield of an ATA disk with LBA translation. -/
theorem options_ata_lba (E : Env) (driveid : Nat)
    (h : (E.drives driveid).type = E.K.DTYPE_ATA)
    (ht : (E.drives driveid).translation ≠ E.K.TRANSLATION_NONE)
    (hl : (E.drives driveid).translation = E.K.TRANSLATION_LBA)
    (hr : (E.drives driveid).translation ≠ E.K.TRANSLATION_RECHS) :
    disk_1348_options E driveid = if E.K.CONFIG_ATA_PIO32 = true then 0x298 else 0x218 := by
  unfold disk_1348_options
  simp only [if_pos h, if_pos ht, if_pos hl, if_neg hr]
  rfl

/-- The bitfield of an ATA disk with reversed-CHS translation. -/
theorem options_ata_rechs (E : Env) (driveid : Nat)
    (h : (E.drives driveid).type = E.K.DTYPE_ATA)
    (ht : (E.drives driveid).translation ≠ E.K.TRANSLATION_NONE)
    (hl : (E.drives driveid).translation ≠ E.K.TRANSLATION_LBA)
    (hr : (E.drives driveid).translation = E.K.TRANSLATION_RECHS) :
    disk_1348_options E driveid = if E.K.CONFIG_ATA_PIO32 = true then 0x698 else 0x618 := by
  unfold disk_1348_options
  simp only [if_pos h, if_pos ht, if_neg hl, if_pos hr]
  rfl

/-- The bitfield of an ATA disk with any other translation. -/
theorem options_ata_other (E : Env) (driveid : Nat)
    (h : (E.drives driveid).type = E.K.DTYPE_ATA)
    (ht : (E.drives driveid).translation ≠ E.K.TRANSLATION_NONE)
    (hl : (E.drives driveid).translation ≠ E.K.TRANSLATION_LBA)
    (hr : (E.drives driveid).translation ≠ E.K.TRANSLATION_RECHS) :
    disk_1348_options E driveid = if E.K.CONFIG_ATA_PIO32 = true then 0x98 else 0x18 := by
  unfold disk_1348_options
  simp only [if_pos h, if_pos ht, if_neg hl, if_neg hr]
  rfl

set_option maxRecDepth 1000000 in
theorem max_cyl_hi : ∀ n < 1024, (n >>> 2) &&& 0xc0 = n / 256 * 64 := by decide

set_option maxRecDepth 100000 in
theorem max_cl : ∀ hi < 4, ∀ sec < 64, (hi * 64 ||| (sec &&& 0x3f)) % 256 = hi * 64 + sec := by
  decide

/-- The registers CH, CL, DH that `disk_1308` returns for a geometry whose
maximum address fits the register encoding. -/
theorem disk_1308_regs (E : Env) (s : State) (driveid : Nat)
    (hc : 2 ≤ (E.drives driveid).lchs.cylinders ∧ (E.drives driveid).lchs.cylinders ≤ 1025)
    (hh : 1 ≤ (E.drives driveid).lchs.heads ∧ (E.drives driveid).lchs.heads ≤ 256)
    (hs : (E.drives driveid).lchs.spt ≤ 63) :
    (disk_1308 E s driveid).regs.ch = ((E.drives driveid).lchs.cylinders - 2) % 256
      ∧ (disk_1308 E s driveid).regs.cl
          = ((E.drives driveid).lchs.cylinders - 2) / 256 * 64 + (E.drives driveid).lchs.spt
      ∧ (disk_1308 E s driveid).regs.dh = (E.drives driveid).lchs.heads - 1 := by
  have hn : ((E.drives driveid).lchs.cylinders + 65536 - 2) % 65536
      = (E.drives driveid).lchs.cylinders - 2 := by omega
  have hlt : (E.drives driveid).lchs.cylinders - 2 < 1024 := by omega
  have hhi : ((E.drives driveid).lchs.cylinders - 2) / 256 < 4 := by omega
  have hspt : (E.drives driveid).lchs.spt < 64 := by omega
  unfold disk_1308
  simp only [disk_ret_ch, disk_ret_cl, disk_ret_dh, hn]
  refine ⟨?_, ?_, ?_⟩
  · exact Nat.and_pow_two_sub_one_eq_mod _ 8
  · rw [max_cyl_hi _ hlt]
    exact max_cl _ hhi _ hspt
  · omega

/-- The triple that the registers returned by `disk_1308` decode to: cylinder
`cylinders - 2`, head `heads - 1`, sector `spt`. -/
theorem disk_1308_decoded (E : Env) (s : State) (driveid : Nat) (r : Bregs)
    (hc : 2 ≤ (E.drives driveid).lchs.cylinders ∧ (E.drives driveid).lchs.cylinders ≤ 1025)
    (hh : 1 ≤ (E.drives driveid).lchs.heads ∧ (E.drives driveid).lchs.heads ≤ 256)
    (hs : (E.drives driveid).lchs.spt ≤ 63)
    (hch : r.ch = (disk_1308 E s driveid).regs.ch)
    (hcl : r.cl = (disk_1308 E s driveid).regs.cl)
    (hdh : r.dh = (disk_1308 E s driveid).regs.dh) :
    reqCylinder r = (E.drives driveid).lchs.cylinders - 2
      ∧ reqHead r = (E.drives driveid).lchs.heads - 1
      ∧ reqSector r = (E.drives driveid).lchs.spt := by
  obtain ⟨r1, r2, r3⟩ := disk_1308_regs E s driveid hc hh hs
  have hhi : ((E.drives driveid).lchs.cylinders - 2) / 256 < 4 := by omega
  have hlo : ((E.drives driveid).lchs.cylinders - 2) % 256 < 256 := Nat.mod_lt _ (by norm_num)
  have hspt : (E.drives driveid).lchs.spt < 64 := by omega
  unfold reqCylinder reqHead reqSector
  rw [hch, hcl, hdh, r1, r2, r3]
  refine ⟨?_, rfl, ?_⟩
  · rw [enc_cyl_hi _ hhi _ hspt, enc_cyl_lo _ hhi _ hlo]
    omega
  · exact enc_sector _ hhi _ hspt

/-- The block number of the maximum address of `disk_1308`. -/
theorem chsBlock_max (g : Chs) (hc : 2 ≤ g.cylinders) (hh : 1 ≤ g.heads) (hs : 1 ≤ g.spt) :
    chsBlock g (g.cylinders - 2) (g.heads - 1) g.spt + 1 = (g.cylinders - 1) * g.heads * g.spt := by
  obtain ⟨c, hc2⟩ := Nat.exists_eq_add_of_le hc
  obtain ⟨h, hh2⟩ := Nat.exists_eq_add_of_le hh
  unfold chsBlock
  rw [hc2, hh2]
  have e1 : 2 + c - 2 = c := by omega
  have e2 : 1 + h - 1 = h := by omega
  have e3 : 2 + c - 1 = c + 1 := by omega
  rw [e1, e2, e3]
  have e4 : (c + 1) * (1 + h) * g.spt = (c * (1 + h) + h) * g.spt + g.spt := by ring
  omega

/-- The sector count that `disk_1315` returns in CX:DX. -/
theorem disk_1315_count (E : Env) (s : State) (driveid : Nat)
    (hc : 1 ≤ (E.drives driveid).lchs.cylinders)
    (hh : 1 ≤ (E.drives driveid).lchs.heads) (hs : 1 ≤ (E.drives driveid).lchs.spt)
    (hfit : ((E.drives driveid).lchs.cylinders - 1) * (E.drives driveid).lchs.heads
      * (E.drives driveid).lchs.spt < 2 ^ 32) :
    regCxDx (disk_1315 E s driveid).regs
      = ((E.drives driveid).lchs.cylinders - 1) * (E.drives driveid).lchs.heads
          * (E.drives driveid).lchs.spt := by
  obtain ⟨L, hL⟩ : ∃ L, L = ((E.drives driveid).lchs.cylinders - 1)
      * (E.drives driveid).lchs.heads * (E.drives driveid).lchs.spt := ⟨_, rfl⟩
  have h1 : ((E.drives driveid).lchs.cylinders - 1) * (E.drives driveid).lchs.heads
      ≤ L := by
    rw [hL]
    exact Nat.le_mul_of_pos_right _ hs
  have h2 : (E.drives driveid).lchs.cylinders - 1
      ≤ ((E.drives driveid).lchs.cylinders - 1) * (E.drives driveid).lchs.heads :=
    Nat.le_mul_of_pos_right _ hh
  have hlt : L < 2 ^ 32 := by rw [hL]; exact hfit
  have e1 : (E.drives driveid).lchs.cylinders + 2 ^ 32 - 1
      = (E.drives driveid).lchs.cylinders - 1 + 2 ^ 32 := by omega
  have e2 : u32 ((E.drives driveid).lchs.cylinders + 2 ^ 32 - 1)
      = (E.drives driveid).lchs.cylinders - 1 := by
    rw [e1]
    unfold u32
    rw [Nat.add_mod_right]
    exact Nat.mod_eq_of_lt (by omega)
  have e3 : u32 (u32 (u32 ((E.drives driveid).lchs.cylinders + 2 ^ 32 - 1)
      * (E.drives driveid).lchs.heads) * (E.drives driveid).lchs.spt) = L := by
    have hm : ((E.drives driveid).lchs.cylinders - 1) * (E.drives driveid).lchs.heads
        < 2 ^ 32 := by omega
    rw [e2, u32_of_lt hm, ← hL]
    exact u32_of_lt hlt
  have e4 : L &&& 0xffff = L % 65536 := Nat.and_pow_two_sub_one_eq_mod L 16
  have e5 : L >>> 16 = L / 65536 := Nat.shiftRight_eq_div_pow L 16
  rw [← hL]
  unfold regCxDx disk_1315 setAh setDx setCx
  simp only [disk_ret_ch, disk_ret_cl, disk_ret_dh, disk_ret_dl, e3, e4, e5]
  omega

/-! ## Requests that `legacy_lba` accepts or rejects on the emulated volume -/

/-- A valid request whose block number fits in 31 bits is accepted by
`legacy_lba`, with that block number. -/
theorem legacy_lba_accepts (K : Config) (s : State) (g : Chs)
    (hcount : validCount s.regs) (hchs : validChs g s.regs)
    (hfit : chsBlock g (reqCylinder s.regs) (reqHead s.regs) (reqSector s.regs) < 2 ^ 31) :
    0 ≤ (legacy_lba K s g).1
      ∧ (legacy_lba K s g).1.toNat
          = chsBlock g (reqCylinder s.regs) (reqHead s.regs) (reqSector s.regs) := by
  rw [legacy_lba_block K s g hcount hchs hfit]
  exact ⟨Int.ofNat_nonneg _, Int.toNat_ofNat _⟩

/-- A request that `legacy_lba` rejects makes `cdemu_access` invoke the bridge
not at all. -/
theorem cdemu_rejected_calls (E : Env) (s : State) (driveid command : Nat)
    (hv : ¬ 0 ≤ (legacy_lba E.K s s.cdemu.lchs).1) :
    (cdemu_access E s driveid command).calls = s.calls := by
  have hneg : (legacy_lba E.K s s.cdemu.lchs).1 < 0 := by omega
  have heq : cdemu_access E s driveid command = (legacy_lba E.K s s.cdemu.lchs).2 := by
    unfold cdemu_access
    simp only [if_pos hneg]
  rw [heq]
  unfold legacy_lba
  by_cases h1 : s.regs.al > 128 ∨ s.regs.al = 0 ∨ s.regs.cl &&& 0x3f = 0
  · simp [h1]
  · by_cases h2 : s.regs.ch ||| ((s.regs.cl <<< 2) &&& 0x300) ≥ s.cdemu.lchs.cylinders
        ∨ s.regs.dh ≥ s.cdemu.lchs.heads ∨ s.regs.cl &&& 0x3f > s.cdemu.lchs.spt
    · simp [h1, h2]
    · simp [h1, h2]

/-- Without 32-bit wrap the first byte read is byte `vlba * 512` of the image
that starts at medium sector `ilba`. -/
theorem image_base_no_wrap (ilba vlba : Nat) (h : ilba + vlba / 4 < 2 ^ 32) :
    u32 (ilba + vlba / 4) * 2048 + vlba % 4 * 512 = ilba * 2048 + vlba * 512 := by
  rw [u32_of_lt h]
  omega

/-! ## Claims -/

/-- C1 (as stated, refuted): with heads = spt = 65535 the request cylinder 1,
head 0, sector 1, count 1 satisfies every condition of the claim, yet
`legacy_lba` returns -131071 and not the block number 4294836225: the `u32`
result has bit 31 set and turns negative as an `int`. -/
theorem C1_overflow_counterexample :
    let s := sampleState (sampleRegs 1 1 1 0 0 0)
    let g : Chs := { heads := 65535, cylinders := 1024, spt := 65535 }
    let cylinder := s.regs.ch ||| ((s.regs.cl <<< 2) &&& 0x300)
    let sector := s.regs.cl &&& 0x3f
    let head := s.regs.dh
    (1 ≤ s.regs.al ∧ s.regs.al ≤ 128 ∧ sector ≠ 0 ∧ cylinder < g.cylinders ∧ head < g.heads
        ∧ sector ≤ g.spt)
      ∧ (legacy_lba sampleConfig s g).1 = -131071
      ∧ (legacy_lba sampleConfig s g).1
          ≠ (((cylinder * g.heads + head) * g.spt + sector - 1 : Nat) : Int) := by
  decide

/-- C1 (amended): for count AL in [1,128] and a decoded CHS triple with sector
nonzero, cylinder < cylinders, head < heads and sector <= spt, whenever the
block number ((cylinder * heads + head) * spt) + sector - 1 is below 2^31,
`legacy_lba` returns exactly that number and leaves the state (registers,
last status, status log) untouched. -/
theorem C1_legacy_lba_value (K : Config) (s : State) (g : Chs)
    (hlo : 1 ≤ s.regs.al) (hhi : s.regs.al ≤ 128)
    (hsec : s.regs.cl &&& 0x3f ≠ 0)
    (hcyl : s.regs.ch ||| ((s.regs.cl <<< 2) &&& 0x300) < g.cylinders)
    (hhead : s.regs.dh < g.heads)
    (hspt : s.regs.cl &&& 0x3f ≤ g.spt)
    (hfit : ((s.regs.ch ||| ((s.regs.cl <<< 2) &&& 0x300)) * g.heads + s.regs.dh) * g.spt
              + (s.regs.cl &&& 0x3f) - 1 < 2 ^ 31) :
    legacy_lba K s g
      = (((((s.regs.ch ||| ((s.regs.cl <<< 2) &&& 0x300)) * g.heads + s.regs.dh) * g.spt
              + (s.regs.cl &&& 0x3f) - 1 : Nat) : Int), s) :=
  legacy_lba_valid K s g hlo hhi hsec hcyl hhead hspt hfit

/-- Witness of C1: cylinder 2, head 1, sector 3 on a 80/2/18 geometry is block
(2*2+1)*18+3-1 = 92. -/
theorem C1_legacy_lba_value_witness :
    legacy_lba sampleConfig (sampleState (sampleRegs 1 2 3 1 0 0))
        { heads := 2, cylinders := 80, spt := 18 }
      = (92, sampleState (sampleRegs 1 2 3 1 0 0)) :=
  C1_legacy_lba_value sampleConfig (sampleState (sampleRegs 1 2 3 1 0 0))
    { heads := 2, cylinders := 80, spt := 18 }
    (by decide) (by decide) (by decide) (by decide) (by decide) (by decide) (by decide)

/-- C2 (as stated, refuted): on the geometry of 1 cylinder, 1 head and 64
sectors per track, block 63 lies in [0, cylinders*heads*spt) but no request is
translated to it: the sector field `CL & 0x3f` cannot hold 64. -/
theorem C2_not_onto_counterexample :
    let g : Chs := { heads := 1, cylinders := 1, spt := 64 }
    (63 : Nat) < g.cylinders * g.heads * g.spt
      ∧ ¬ ∃ s : State, validCount s.regs ∧ validChs g s.regs
          ∧ (legacy_lba sampleConfig s g).1 = 63 := by
  refine ⟨by decide, ?_⟩
  rintro ⟨s, hcount, hv, hlba⟩
  obtain ⟨h1, h2, h3, h4⟩ := hv
  have hle := reqSector_le s.regs
  have hval := legacy_lba_valid sampleConfig s { heads := 1, cylinders := 1, spt := 64 }
    hcount.1 hcount.2 (by unfold reqSector at h3; omega) h1 h2 h4
    (by
      unfold reqCylinder reqHead reqSector at *
      simp only [Nat.lt_one_iff] at h1 h2
      rw [h1, h2]
      omega)
  rw [hval] at hlba
  unfold reqCylinder reqHead reqSector at *
  simp only [Nat.lt_one_iff] at h1 h2
  rw [h1, h2] at hlba
  simp only at hlba
  omega

/-- C2 (amended): for every geometry whose valid triples all fit the register
encoding (cylinders <= 1024, heads <= 256, spt <= 63), `legacy_lba` on requests
with a valid count and a valid CHS triple (i) is strictly increasing in the
lexicographic order (cylinder, head, sector), (ii) takes its values in
[0, cylinders*heads*spt), (iii) takes equal values only on equal triples and
(iv) reaches every value of [0, cylinders*heads*spt). -/
theorem C2_legacy_lba_bijection (K : Config) (g : Chs)
    (hc : g.cylinders ≤ 1024) (hh : g.heads ≤ 256) (hs : g.spt ≤ 63) :
    (∀ s1 s2 : State, validCount s1.regs → validChs g s1.regs →
        validCount s2.regs → validChs g s2.regs → chsLt s1.regs s2.regs →
        (legacy_lba K s1 g).1 < (legacy_lba K s2 g).1)
      ∧ (∀ s : State, validCount s.regs → validChs g s.regs →
          0 ≤ (legacy_lba K s g).1
            ∧ (legacy_lba K s g).1 < ((g.cylinders * g.heads * g.spt : Nat) : Int))
      ∧ (∀ s1 s2 : State, validCount s1.regs → validChs g s1.regs →
          validCount s2.regs → validChs g s2.regs →
          (legacy_lba K s1 g).1 = (legacy_lba K s2 g).1 →
          reqCylinder s1.regs = reqCylinder s2.regs ∧ reqHead s1.regs = reqHead s2.regs
            ∧ reqSector s1.regs = reqSector s2.regs)
      ∧ (∀ n : Nat, n < g.cylinders * g.heads * g.spt →
          ∃ s : State, validCount s.regs ∧ validChs g s.regs
            ∧ (legacy_lba K s g).1 = (n : Int)) := by
  have mono : ∀ s1 s2 : State, validCount s1.regs → validChs g s1.regs →
      validCount s2.regs → validChs g s2.regs → chsLt s1.regs s2.regs →
      (legacy_lba K s1 g).1 < (legacy_lba K s2 g).1 := by
    intro s1 s2 hc1 hv1 hc2 hv2 hlt
    rw [legacy_lba_chsBlock K s1 g hc hh hs hc1 hv1, legacy_lba_chsBlock K s2 g hc hh hs hc2 hv2]
    exact Int.ofNat_lt.mpr (chsBlock_strict g hv1.2.1 hv1.2.2.1 hv1.2.2.2 hv2.2.2.1 hlt)
  refine ⟨mono, ?_, ?_, ?_⟩
  · intro s hc1 hv1
    rw [legacy_lba_chsBlock K s g hc hh hs hc1 hv1]
    exact ⟨Int.ofNat_nonneg _, Int.ofNat_lt.mpr (chsBlock_lt g hv1.1 hv1.2.1 hv1.2.2.2 hv1.2.2.1)⟩
  · intro s1 s2 hc1 hv1 hc2 hv2 heq
    have l12 : ¬ chsLt s1.regs s2.regs := fun h => by
      have := mono s1 s2 hc1 hv1 hc2 hv2 h
      omega
    have l21 : ¬ chsLt s2.regs s1.regs := fun h => by
      have := mono s2 s1 hc2 hv2 hc1 hv1 h
      omega
    unfold chsLt at l12 l21
    omega
  · intro n hn
    have hspt : 0 < g.spt := by
      rcases Nat.eq_zero_or_pos g.spt with h0 | h0
      · rw [h0] at hn; simp at hn
      · exact h0
    have hheads : 0 < g.heads := by
      rcases Nat.eq_zero_or_pos g.heads with h0 | h0
      · rw [h0] at hn; simp at hn
      · exact h0
    have hq : n / g.spt < g.cylinders * g.heads := Nat.div_lt_of_lt_mul (by rw [Nat.mul_comm]; exact hn)
    have hcq : n / g.spt / g.heads < g.cylinders :=
      Nat.div_lt_of_lt_mul (by rw [Nat.mul_comm]; exact hq)
    have hhq : n / g.spt % g.heads < g.heads := Nat.mod_lt _ hheads
    have hsq : n % g.spt < g.spt := Nat.mod_lt _ hspt
    obtain ⟨d1, d2, d3⟩ := decode_encode 1 (n / g.spt / g.heads) (n / g.spt % g.heads)
      (n % g.spt + 1) 0 0 (by omega) (by omega)
    have hvc : validCount (sampleState (sampleRegs 1 (n / g.spt / g.heads % 256)
        (n / g.spt / g.heads / 256 * 64 + (n % g.spt + 1)) (n / g.spt % g.heads) 0 0)).regs :=
      ⟨le_refl 1, (by norm_num : (1 : Nat) ≤ 128)⟩
    have hvv : validChs g (sampleState (sampleRegs 1 (n / g.spt / g.heads % 256)
        (n / g.spt / g.heads / 256 * 64 + (n % g.spt + 1)) (n / g.spt % g.heads) 0 0)).regs := by
      change reqCylinder (sampleRegs _ _ _ _ _ _) < _ ∧ reqHead (sampleRegs _ _ _ _ _ _) < _
        ∧ 1 ≤ reqSector (sampleRegs _ _ _ _ _ _) ∧ reqSector (sampleRegs _ _ _ _ _ _) ≤ _
      rw [d1, d2, d3]
      exact ⟨hcq, hhq, by omega, by omega⟩
    refine ⟨_, hvc, hvv, ?_⟩
    rw [legacy_lba_chsBlock K _ g hc hh hs hvc hvv]
    change ((chsBlock g (reqCylinder (sampleRegs _ _ _ _ _ _)) (reqHead (sampleRegs _ _ _ _ _ _))
      (reqSector (sampleRegs _ _ _ _ _ _)) : Nat) : Int) = (n : Int)
    rw [d1, d2, d3]
    congr 1
    unfold chsBlock
    have e1 := Nat.div_add_mod (n / g.spt) g.heads
    have e2 := Nat.div_add_mod n g.spt
    have e3 : n / g.spt / g.heads * g.heads = g.heads * (n / g.spt / g.heads) := Nat.mul_comm _ _
    rw [e3, e1, Nat.mul_comm]
    omega

/-- Witness of C2 on the 80/2/18 floppy geometry: the request for cylinder 0,
head 1, sector 18 is translated below the request for cylinder 1, head 0,
sector 1, and block 92 is reached. -/
theorem C2_legacy_lba_bijection_witness :
    (legacy_lba sampleConfig (sampleState (sampleRegs 1 0 18 1 0 0))
          { heads := 2, cylinders := 80, spt := 18 }).1
        < (legacy_lba sampleConfig (sampleState (sampleRegs 1 1 1 0 0 0))
          { heads := 2, cylinders := 80, spt := 18 }).1
      ∧ ∃ s : State, validCount s.regs
          ∧ validChs { heads := 2, cylinders := 80, spt := 18 } s.regs
          ∧ (legacy_lba sampleConfig s { heads := 2, cylinders := 80, spt := 18 }).1
              = ((92 : Nat) : Int) :=
  ⟨(C2_legacy_lba_bijection sampleConfig { heads := 2, cylinders := 80, spt := 18 }
      (by decide) (by decide) (by decide)).1
      (sampleState (sampleRegs 1 0 18 1 0 0)) (sampleState (sampleRegs 1 1 1 0 0 0))
      (by decide) (by decide) (by decide) (by decide) (by decide),
   (C2_legacy_lba_bijection sampleConfig { heads := 2, cylinders := 80, spt := 18 }
      (by decide) (by decide) (by decide)).2.2.2 92 (by decide)⟩

/-- C3: when the decoded cylinder/head/sector of a legacy request lies outside
the drive's logical geometry, `legacy_lba` returns the error value -1 and
`basic_access` reports `DISK_RET_EPARAM` (status byte, last status and status
log), invokes the bridge not at all and leaves AL unchanged. -/
theorem C3_out_of_geometry (E : Env) (s : State) (driveid command : Nat)
    (hout : reqCylinder s.regs ≥ (E.drives driveid).lchs.cylinders
      ∨ reqHead s.regs ≥ (E.drives driveid).lchs.heads
      ∨ reqSector s.regs > (E.drives driveid).lchs.spt) :
    (legacy_lba E.K s (E.drives driveid).lchs).1 = -1
      ∧ basic_access E s driveid command = disk_ret s E.K.DISK_RET_EPARAM
      ∧ (basic_access E s driveid command).rets = s.rets ++ [E.K.DISK_RET_EPARAM % 256]
      ∧ (basic_access E s driveid command).disk_last_status = E.K.DISK_RET_EPARAM % 256
      ∧ (basic_access E s driveid command).regs.ah = E.K.DISK_RET_EPARAM % 256
      ∧ (basic_access E s driveid command).calls = s.calls
      ∧ (basic_access E s driveid command).regs.al = s.regs.al := by
  have hl := legacy_lba_invalid E.K s (E.drives driveid).lchs (Or.inr hout)
  have hb : basic_access E s driveid command = disk_ret s E.K.DISK_RET_EPARAM := by
    unfold basic_access
    simp [hl]
  refine ⟨by rw [hl], hb, ?_, ?_, ?_, ?_, ?_⟩
  · rw [hb, disk_ret_rets]
  · rw [hb, disk_ret_last]
  · rw [hb, disk_ret_ah]
  · rw [hb, disk_ret_calls]
  · rw [hb, disk_ret_al]

/-- Witness of C3: head 5 on the two-headed 80/2/18 geometry. -/
theorem C3_out_of_geometry_witness :
    (basic_access (sampleEnv { heads := 2, cylinders := 80, spt := 18 } 2880 idleEngine)
        (sampleState (sampleRegs 1 0 1 5 0 0)) 0 2).calls = []
      ∧ (basic_access (sampleEnv { heads := 2, cylinders := 80, spt := 18 } 2880 idleEngine)
        (sampleState (sampleRegs 1 0 1 5 0 0)) 0 2).rets = [1] :=
  have h := C3_out_of_geometry (sampleEnv { heads := 2, cylinders := 80, spt := 18 } 2880 idleEngine)
    (sampleState (sampleRegs 1 0 1 5 0 0)) 0 2 (by decide)
  ⟨h.2.2.2.2.2.1, h.2.2.1⟩

/-- C4: when the count AL is outside [1,128] or the sector field `CL & 0x3f` is
zero, `legacy_lba` returns the error value -1 having reported
`DISK_RET_EPARAM`, and value and resulting state are the same whatever the
geometry. -/
theorem C4_bad_count_or_sector (K : Config) (s : State)
    (hbad : ¬ (1 ≤ s.regs.al ∧ s.regs.al ≤ 128) ∨ s.regs.cl &&& 0x3f = 0) :
    (∀ g : Chs, legacy_lba K s g = (-1, disk_ret s K.DISK_RET_EPARAM))
      ∧ (∀ g : Chs, (legacy_lba K s g).2.rets = s.rets ++ [K.DISK_RET_EPARAM % 256]
          ∧ (legacy_lba K s g).2.disk_last_status = K.DISK_RET_EPARAM % 256)
      ∧ (∀ g g2 : Chs, legacy_lba K s g = legacy_lba K s g2) := by
  have h : ∀ g : Chs, legacy_lba K s g = (-1, disk_ret s K.DISK_RET_EPARAM) := by
    intro g
    apply legacy_lba_invalid
    left
    unfold reqSector
    rcases hbad with hb | hb
    · by_cases h0 : s.regs.al = 0
      · exact Or.inr (Or.inl h0)
      · exact Or.inl (by omega)
    · exact Or.inr (Or.inr hb)
  refine ⟨h, ?_, ?_⟩
  · intro g
    rw [h g]
    exact ⟨disk_ret_rets _ _, disk_ret_last _ _⟩
  · intro g g2
    rw [h g, h g2]

/-- Witness of C4: count 129 fails alike on two different geometries. -/
theorem C4_bad_count_or_sector_witness :
    legacy_lba sampleConfig (sampleState (sampleRegs 129 0 1 0 0 0))
        { heads := 2, cylinders := 80, spt := 18 }
      = legacy_lba sampleConfig (sampleState (sampleRegs 129 0 1 0 0 0))
        { heads := 16, cylinders := 1024, spt := 63 } :=
  (C4_bad_count_or_sector sampleConfig (sampleState (sampleRegs 129 0 1 0 0 0))
    (by decide)).2.2 { heads := 2, cylinders := 80, spt := 18 }
    { heads := 16, cylinders := 1024, spt := 63 }

/-- C5 (as stated, refuted): on a drive with heads = spt = 65535 the request
cylinder 1, head 0, sector 1, count 1 passes every check of the translator,
yet `basic_access` invokes the bridge not at all and records no status: the
block number 4294836225 comes back from `legacy_lba` as the negative
-131071, which `basic_access` takes for an error. -/
theorem C5_overflow_counterexample :
    let E := sampleEnv { heads := 65535, cylinders := 1024, spt := 65535 } 0 idleEngine
    let s := sampleState (sampleRegs 1 1 1 0 0 0)
    (validCount s.regs ∧ validChs (E.drives 0).lchs s.regs)
      ∧ (basic_access E s 0 2).calls = []
      ∧ (basic_access E s 0 2).rets = [] := by
  decide

/-- C5 (amended): for a legacy request with count in [1,128] and a valid CHS
triple of the drive's logical geometry whose block number
((cylinder*heads + head)*spt) + sector - 1 is below 2^31, `basic_access`
invokes the bridge exactly once, with the operation {driveid, command, that
block number, count = AL, buffer = ES:BX}; afterwards AL holds the executed
count (as a byte) and the reported status is `DISK_RET_SUCCESS` if the bridge
returned 0 and `DISK_RET_EBADTRACK` otherwise. -/
theorem C5_basic_access_valid (E : Env) (s : State) (driveid command : Nat)
    (hcount : validCount s.regs) (hv : validChs (E.drives driveid).lchs s.regs)
    (hfit : chsBlock (E.drives driveid).lchs (reqCylinder s.regs) (reqHead s.regs)
        (reqSector s.regs) < 2 ^ 31) :
    let op : DiskOp :=
      { driveid := driveid, command := command,
        lba := chsBlock (E.drives driveid).lchs (reqCylinder s.regs) (reqHead s.regs)
          (reqSector s.regs),
        count := s.regs.al, buf_fl := MAKE_FLATPTR s.regs.es s.regs.bx }
    let status := (send_disk_op E s op).1
    let executed := (send_disk_op E s op).2.1.count
    let code := if status = 0 then E.K.DISK_RET_SUCCESS else E.K.DISK_RET_EBADTRACK
    let s2 := basic_access E s driveid command
    s2.calls = s.calls ++ [⟨op, status, executed⟩]
      ∧ s2.regs.al = executed % 256
      ∧ s2.rets = s.rets ++ [code % 256]
      ∧ s2.disk_last_status = code % 256
      ∧ s2.regs.ah = code % 256 := by
  intro op status executed code s2
  have hl := legacy_lba_block E.K s (E.drives driveid).lchs hcount hv hfit
  have hs2 : s2 = disk_ret (setAl (send_disk_op E s op).2.2 (executed % 256)) code := by
    show basic_access E s driveid command = _
    unfold basic_access
    simp only [hl, Int.toNat_ofNat]
    rw [if_neg (by simp)]
    by_cases hst : (send_disk_op E s op).1 = 0
    · simp only [code, status, op, hst, if_true, ne_eq, not_true_eq_false, if_false, executed]
    · simp only [code, status, op, hst, if_false, ne_eq, not_false_eq_true, if_true, executed]
  refine ⟨?_, ?_, ?_, ?_, ?_⟩
  · rw [hs2, disk_ret_calls, setAl_calls]
    exact send_disk_op_calls E s op
  · rw [hs2, disk_ret_al, setAl_al]
  · rw [hs2, disk_ret_rets, setAl_rets, send_disk_op_rets]
  · rw [hs2, disk_ret_last]
  · rw [hs2, disk_ret_ah]

/-- Witness of C5: reading 4 sectors at cylinder 2, head 1, sector 3 of a
80/2/18 drive into 0x1000:0x0200 is one operation on block 92. -/
theorem C5_basic_access_valid_witness :
    (basic_access (sampleEnv { heads := 2, cylinders := 80, spt := 18 } 2880 idleEngine)
        (sampleState (sampleRegs 4 2 3 1 0x1000 0x200)) 0 2).calls
      = [⟨{ driveid := 0, command := 2, lba := 92, count := 4, buf_fl := 0x10200 }, 0, 4⟩] :=
  (C5_basic_access_valid (sampleEnv { heads := 2, cylinders := 80, spt := 18 } 2880 idleEngine)
    (sampleState (sampleRegs 4 2 3 1 0x1000 0x200)) 0 2 (by decide) (by decide) (by decide)).1

/-- C6: (i) an extended request whose starting block is >= the drive's sector
count (one past the end included) reports `DISK_RET_EPARAM`, invokes the bridge
not at all and leaves the request block, memory and device untouched; (ii) a
request for the last block (start + 1 = sectors) with count 1 passes the
bounds check, is executed by one bridge invocation for that block, and reports
`DISK_RET_SUCCESS` when the bridge returns status 0. -/
theorem C6_extended_bounds (E : Env) (s : State) (driveid command : Nat) :
    (s.ext.lba ≥ (E.drives driveid).sectors →
        extended_access E s driveid command = disk_ret s E.K.DISK_RET_EPARAM
          ∧ (extended_access E s driveid command).rets = s.rets ++ [E.K.DISK_RET_EPARAM % 256]
          ∧ (extended_access E s driveid command).disk_last_status = E.K.DISK_RET_EPARAM % 256
          ∧ (extended_access E s driveid command).calls = s.calls
          ∧ (extended_access E s driveid command).ext = s.ext
          ∧ (extended_access E s driveid command).mem = s.mem
          ∧ (extended_access E s driveid command).dev = s.dev)
      ∧ (s.ext.lba + 1 = (E.drives driveid).sectors → s.ext.count = 1 →
          let op : DiskOp :=
            { lba := (E.drives driveid).sectors - 1, command := command, driveid := driveid,
              buf_fl := MAKE_FLATPTR s.ext.segment s.ext.offset, count := 1 }
          (extended_access E s driveid command).calls
              = s.calls ++ [⟨op, (send_disk_op E s op).1, (send_disk_op E s op).2.1.count⟩]
            ∧ ((send_disk_op E s op).1 = 0 →
                (extended_access E s driveid command).rets
                    = s.rets ++ [E.K.DISK_RET_SUCCESS % 256]
                  ∧ (extended_access E s driveid command).disk_last_status
                    = E.K.DISK_RET_SUCCESS % 256)) := by
  constructor
  · intro hge
    have hb : extended_access E s driveid command = disk_ret s E.K.DISK_RET_EPARAM := by
      unfold extended_access
      rw [if_pos hge]
    refine ⟨hb, ?_, ?_, ?_, ?_, ?_, ?_⟩
    · rw [hb, disk_ret_rets]
    · rw [hb, disk_ret_last]
    · rw [hb, disk_ret_calls]
    · rw [hb, disk_ret_ext]
    · rw [hb, disk_ret_mem]
    · rw [hb]
      unfold disk_ret __disk_ret
      by_cases h : E.K.DISK_RET_EPARAM % 256 = 0 <;> simp [h]
  · intro hlast hcount
    have hlt : s.ext.lba < (E.drives driveid).sectors := by omega
    have hlba : (E.drives driveid).sectors - 1 = s.ext.lba := by omega
    have hx := extended_access_in_range E s driveid command hlt
    rw [hlba, ← hcount]
    refine ⟨?_, ?_⟩
    · rw [hx, disk_ret_calls]
      exact send_disk_op_calls E s _
    · intro hst
      rw [hx, disk_ret_rets, disk_ret_last, if_pos hst]
      refine ⟨?_, rfl⟩
      show (send_disk_op E s _).2.2.rets ++ _ = _
      rw [send_disk_op_rets]

/-- Witness of C6 on a drive of 1000 blocks: a request starting at block 1000
is refused without a call, a one-block request at 999 is executed. -/
theorem C6_extended_bounds_witness :
    (extended_access (sampleEnv { heads := 16, cylinders := 1, spt := 63 } 1000 idleEngine)
        (sampleExtState 1 0x1000 0 1000) 0 2).calls = []
      ∧ (extended_access (sampleEnv { heads := 16, cylinders := 1, spt := 63 } 1000 idleEngine)
          (sampleExtState 1 0x1000 0 999) 0 2).calls
        = [⟨{ lba := 999, command := 2, driveid := 0, buf_fl := 0x10000, count := 1 }, 0, 1⟩] :=
  ⟨((C6_extended_bounds (sampleEnv { heads := 16, cylinders := 1, spt := 63 } 1000 idleEngine)
      (sampleExtState 1 0x1000 0 1000) 0 2).1 (by decide)).2.2.2.1,
   ((C6_extended_bounds (sampleEnv { heads := 16, cylinders := 1, spt := 63 } 1000 idleEngine)
      (sampleExtState 1 0x1000 0 999) 0 2).2 (by decide) (by decide)).1⟩

/-- C7: for an extended request whose starting block is below the drive's
sector count, `extended_access` invokes the bridge exactly once, with the
request's starting block, count and buffer segment:offset as they stand in
the request block; afterwards the count field of the request block holds the
executed count, the other fields are unchanged, and the reported status is
`DISK_RET_SUCCESS` if the bridge returned 0 and `DISK_RET_EBADTRACK`
otherwise. -/
theorem C7_extended_access_valid (E : Env) (s : State) (driveid command : Nat)
    (hlt : s.ext.lba < (E.drives driveid).sectors) :
    let op : DiskOp :=
      { lba := s.ext.lba, command := command, driveid := driveid,
        buf_fl := MAKE_FLATPTR s.ext.segment s.ext.offset, count := s.ext.count }
    let status := (send_disk_op E s op).1
    let executed := (send_disk_op E s op).2.1.count
    let code := if status = 0 then E.K.DISK_RET_SUCCESS else E.K.DISK_RET_EBADTRACK
    let s2 := extended_access E s driveid command
    s2.calls = s.calls ++ [⟨op, status, executed⟩]
      ∧ s2.ext = { s.ext with count := executed }
      ∧ s2.rets = s.rets ++ [code % 256]
      ∧ s2.disk_last_status = code % 256
      ∧ s2.regs.ah = code % 256 := by
  intro op status executed code s2
  have hx : s2 = _ := extended_access_in_range E s driveid command hlt
  refine ⟨?_, ?_, ?_, ?_, ?_⟩
  · rw [hx, disk_ret_calls]
    exact send_disk_op_calls E s op
  · rw [hx, disk_ret_ext]
    show { (send_disk_op E s op).2.2.ext with count := executed } = _
    rw [send_disk_op_ext]
  · rw [hx, disk_ret_rets]
    show (send_disk_op E s op).2.2.rets ++ _ = _
    rw [send_disk_op_rets]
  · rw [hx, disk_ret_last]
  · rw [hx, disk_ret_ah]

/-- Witness of C7: 8 blocks from block 5 of a 1000-block drive into
0x2000:0x0010. -/
theorem C7_extended_access_valid_witness :
    (extended_access (sampleEnv { heads := 16, cylinders := 1, spt := 63 } 1000 idleEngine)
        (sampleExtState 8 0x2000 0x10 5) 0 2).calls
      = [⟨{ lba := 5, command := 2, driveid := 0, buf_fl := 0x20010, count := 8 }, 0, 8⟩] :=
  (C7_extended_access_valid (sampleEnv { heads := 16, cylinders := 1, spt := 63 } 1000 idleEngine)
    (sampleExtState 8 0x2000 0x10 5) 0 2 (by decide)).1

/-- C8 (as stated, refuted): on an emulated volume of 2 cylinders x 65535
heads x 65535 sectors the request cylinder 1, head 0, sector 1, count 1 passes
validation, but its block number 4294836225 comes back from `legacy_lba` as
the negative -131071: `cdemu_access` invokes the bridge not at all (so no
invocation fails) and reports no status, in particular not SUCCESS. -/
theorem C8_overflow_counterexample :
    let E := sampleEnv { heads := 2, cylinders := 80, spt := 18 } 2880 idleEngine
    let s := sampleEmuGeomState (sampleRegs 1 1 1 0 0x1000 0) 10
      { heads := 65535, cylinders := 2, spt := 65535 }
    (validCount s.regs ∧ validChs s.cdemu.lchs s.regs)
      ∧ (legacy_lba E.K s s.cdemu.lchs).1 = -131071
      ∧ (cdemu_access E s 0 2).calls = []
      ∧ (cdemu_access E s 0 2).rets = [] := by
  decide

/-- C8 (amended): on an emulated-volume request with count in [1,128] and a
valid CHS triple of the emulated geometry whose block number is below 2^31, if
every bridge invocation that `cdemu_access` makes returns status 0 and reports
the count it was given, then `DISK_RET_SUCCESS` is reported and AL ends equal
to the requested count; the invocations are exactly those of the three phases,
whose sectors (leading, 4 per bulk sector, trailing) add up to the count. -/
theorem C8_cdemu_count_sum (E : Env) (s : State) (driveid command : Nat)
    (hcount : validCount s.regs) (hchs : validChs s.cdemu.lchs s.regs)
    (hfit : chsBlock s.cdemu.lchs (reqCylinder s.regs) (reqHead s.regs) (reqSector s.regs)
      < 2 ^ 31)
    (hall : ∀ c ∈ (cdemu_access E s driveid command).calls.drop s.calls.length,
      c.status = 0 ∧ c.count = c.op.count) :
    (cdemu_access E s driveid command).rets = s.rets ++ [E.K.DISK_RET_SUCCESS % 256]
      ∧ (cdemu_access E s driveid command).disk_last_status = E.K.DISK_RET_SUCCESS % 256
      ∧ (cdemu_access E s driveid command).regs.al = s.regs.al
      ∧ (cdemu_access E s driveid command).calls
          = s.calls
            ++ (leadCalls E s driveid command (legacy_lba E.K s s.cdemu.lchs).1.toNat 0 1
              ++ bulkCalls s driveid command (legacy_lba E.K s s.cdemu.lchs).1.toNat 0
                  (emuRest (legacy_lba E.K s s.cdemu.lchs).1.toNat s.regs.al / 4)
              ++ trailCalls E s driveid command (legacy_lba E.K s s.cdemu.lchs).1.toNat 0 1)
      ∧ emuLead (legacy_lba E.K s s.cdemu.lchs).1.toNat s.regs.al
          + 4 * (emuRest (legacy_lba E.K s s.cdemu.lchs).1.toNat s.regs.al / 4)
          + emuRest (legacy_lba E.K s s.cdemu.lchs).1.toNat s.regs.al % 4 = s.regs.al := by
  have hv := (legacy_lba_accepts E.K s s.cdemu.lchs hcount hchs hfit).1
  obtain ⟨_, _, hc2⟩ := legacy_lba_nonneg E.K s s.cdemu.lchs hv
  obtain ⟨stL, nL, stB, nB, stT, nT, hout⟩ := cdemu_outcome E s driveid command hv
  obtain ⟨vl, hvl⟩ : ∃ vl, vl = (legacy_lba E.K s s.cdemu.lchs).1.toNat := ⟨_, rfl⟩
  rw [← hvl] at hout ⊢
  obtain ⟨new, hnew⟩ : ∃ new, (cdemu_access E s driveid command).calls = s.calls ++ new := by
    rcases hout with ⟨_, _, r, _⟩ | ⟨_, _, _, r, _⟩ | ⟨_, _, _, _, r, _⟩ | ⟨_, _, _, r, _⟩
      <;> exact ⟨_, r⟩
  rw [hnew, List.drop_left] at hall
  obtain ⟨hn, r1, r2, r3, r4⟩ := cdemu_outcome_succeeded hout new hnew (fun c hc => (hall c hc).1)
  have hsum := emu_sum vl s.regs.al
  -- the reported counts are the counts given
  have hL : leadCalls E s driveid command vl stL nL = leadCalls E s driveid command vl 0 1 := by
    unfold leadCalls
    by_cases h0 : vl % 4 ≠ 0
    · have := hall ⟨scratchOp E driveid command s.ebda_seg (u32 (s.cdemu.ilba + vl / 4)), stL, nL⟩
        (by rw [hn]; simp [leadCalls, h0])
      simp only [scratchOp] at this
      rw [if_pos h0, if_pos h0, this.1, this.2]
    · rw [if_neg h0, if_neg h0]
  have hB : bulkCalls s driveid command vl stB nB
      = bulkCalls s driveid command vl 0 (emuRest vl s.regs.al / 4)
      ∧ (emuRest vl s.regs.al > 3 → nB = emuRest vl s.regs.al / 4) := by
    unfold bulkCalls
    by_cases h0 : emuRest vl s.regs.al > 3
    · have := hall ⟨directOp driveid command s.regs.es
          (s.regs.bx + emuLead vl s.regs.al * 512) (emuBulkLba s.cdemu.ilba vl)
          (emuRest vl s.regs.al / 4), stB, nB⟩
        (by rw [hn]; simp [bulkCalls, h0])
      simp only [directOp] at this
      rw [if_pos h0, if_pos h0, this.1, this.2]
      exact ⟨rfl, fun _ => rfl⟩
    · rw [if_neg h0, if_neg h0]
      exact ⟨rfl, fun h => absurd h h0⟩
  have hT : trailCalls E s driveid command vl stT nT
      = trailCalls E s driveid command vl 0 1 := by
    unfold trailCalls
    by_cases h0 : emuRest vl s.regs.al % 4 ≠ 0
    · have := hall ⟨scratchOp E driveid command s.ebda_seg
          (emuBulkLba s.cdemu.ilba vl + emuRest vl s.regs.al / 4), stT, nT⟩
        (by rw [hn]; simp [trailCalls, h0])
      simp only [scratchOp] at this
      rw [if_pos h0, if_pos h0, this.1, this.2]
    · rw [if_neg h0, if_neg h0]
  refine ⟨r2, r3, ?_, ?_, hsum⟩
  · rw [r4]
    by_cases h0 : emuRest vl s.regs.al > 3
    · rw [if_pos h0, hB.2 h0]
      omega
    · rw [if_neg h0]
      omega
  · rw [hnew, hn, hL, hB.1, hT]

/-- Witness of C8: 6 sectors from virtual block 1 of an emulated floppy. -/
theorem C8_cdemu_count_sum_witness :
    (cdemu_access (sampleEnv { heads := 2, cylinders := 80, spt := 18 } 2880 imageEngine)
        (sampleEmuState (sampleRegs 6 0 2 0 0x1000 0) 10) 0 2).regs.al = 6 :=
  (C8_cdemu_count_sum (sampleEnv { heads := 2, cylinders := 80, spt := 18 } 2880 imageEngine)
    (sampleEmuState (sampleRegs 6 0 2 0 0x1000 0) 10) 0 2 (by decide) (by decide) (by decide)
    (by decide)).2.2.1

/-- C9 (as stated, refuted): a request for 5 sectors at virtual block 0 whose
buffer ES:BX is the scratch buffer of the EBDA itself passes validation and
reports success over the image engine, yet the first byte of the buffer ends
as 1, a byte of medium sector 1, not as byte 0 of the image (which is 0): the
trailing scratch read overwrites what the bulk read had delivered. -/
theorem C9_overlap_counterexample :
    let E := sampleEnv { heads := 2, cylinders := 80, spt := 18 } 2880 imageEngine
    let s := sampleEmuState (sampleRegs 5 0 1 0 0x9fc0 0x200) 0
    (validCount s.regs ∧ validChs s.cdemu.lchs s.regs)
      ∧ 0 ≤ (legacy_lba E.K s s.cdemu.lchs).1
      ∧ (legacy_lba E.K s s.cdemu.lchs).1.toNat = 0
      ∧ (cdemu_access E s 0 2).rets = [0]
      ∧ (cdemu_access E s 0 2).mem (MAKE_FLATPTR s.regs.es s.regs.bx + 0) = 1
      ∧ s.dev (s.cdemu.ilba * 2048 + 0 * 512 + 0) = 0 := by
  decide

/-- C9 (amended): on an emulated-volume request with count in [1,128] and a
valid CHS triple of the emulated geometry whose block number is below 2^31,
served by the image engine, whose buffer of count*512 bytes at ES:BX does not
overlap the 2048-byte scratch buffer, `cdemu_access` reports success; with
`vlba` the block that `legacy_lba` returns (the block number of the triple),
byte i of the buffer, for every i < count*512, ends equal to the byte of the
medium at `((cdemu.ilba + vlba/4) mod 2^32)*2048 + (vlba mod 4)*512 + i`,
which, when `cdemu.ilba + vlba/4` is below 2^32, is byte `vlba*512 + i` of the
image that starts at medium sector `cdemu.ilba`; memory outside the buffer and
the scratch buffer, and the medium, are unchanged. -/
theorem C9_cdemu_image_bytes (E : Env) (s : State) (driveid command : Nat)
    (hcount : validCount s.regs) (hchs : validChs s.cdemu.lchs s.regs)
    (hfit : chsBlock s.cdemu.lchs (reqCylinder s.regs) (reqHead s.regs) (reqSector s.regs)
      < 2 ^ 31)
    (hsel : servedBy E driveid imageEngine)
    (hdisj : MAKE_FLATPTR s.regs.es s.regs.bx + s.regs.al * 512
        ≤ MAKE_FLATPTR s.ebda_seg E.K.cdemu_buf
      ∨ MAKE_FLATPTR s.ebda_seg E.K.cdemu_buf + 2048 ≤ MAKE_FLATPTR s.regs.es s.regs.bx) :
    (cdemu_access E s driveid command).rets = s.rets ++ [E.K.DISK_RET_SUCCESS % 256]
      ∧ (legacy_lba E.K s s.cdemu.lchs).1.toNat
          = chsBlock s.cdemu.lchs (reqCylinder s.regs) (reqHead s.regs) (reqSector s.regs)
      ∧ (∀ i, i < s.regs.al * 512 →
          (cdemu_access E s driveid command).mem (MAKE_FLATPTR s.regs.es s.regs.bx + i)
            = s.dev (u32 (s.cdemu.ilba + (legacy_lba E.K s s.cdemu.lchs).1.toNat / 4) * 2048
                + (legacy_lba E.K s s.cdemu.lchs).1.toNat % 4 * 512 + i))
      ∧ (s.cdemu.ilba + (legacy_lba E.K s s.cdemu.lchs).1.toNat / 4 < 2 ^ 32 →
          ∀ i, i < s.regs.al * 512 →
            (cdemu_access E s driveid command).mem (MAKE_FLATPTR s.regs.es s.regs.bx + i)
              = s.dev (s.cdemu.ilba * 2048
                  + (legacy_lba E.K s s.cdemu.lchs).1.toNat * 512 + i))
      ∧ (∀ a, ¬ (MAKE_FLATPTR s.regs.es s.regs.bx ≤ a
              ∧ a < MAKE_FLATPTR s.regs.es s.regs.bx + s.regs.al * 512) →
          ¬ (MAKE_FLATPTR s.ebda_seg E.K.cdemu_buf ≤ a
              ∧ a < MAKE_FLATPTR s.ebda_seg E.K.cdemu_buf + 2048) →
          (cdemu_access E s driveid command).mem a = s.mem a)
      ∧ (cdemu_access E s driveid command).dev = s.dev := by
  obtain ⟨hv, hblock⟩ := legacy_lba_accepts E.K s s.cdemu.lchs hcount hchs hfit
  obtain ⟨⟨i1, i2, i3⟩, hr⟩ := cdemu_image E s driveid command hv hsel hdisj
  refine ⟨hr, hblock, i1, ?_, i2, i3⟩
  intro hnw i hi
  rw [i1 i hi, image_base_no_wrap _ _ hnw]

/-- Witness of C9: 6 sectors from virtual block 1 of the image at medium sector
10, read to 0x1000:0; the byte at offset 1536 of the buffer is the byte at
offset 10*2048 + 1*512 + 1536 of the medium. -/
theorem C9_cdemu_image_bytes_witness :
    (cdemu_access (sampleEnv { heads := 2, cylinders := 80, spt := 18 } 2880 imageEngine)
        (sampleEmuState (sampleRegs 6 0 2 0 0x1000 0) 10) 0 2).mem
        (MAKE_FLATPTR 0x1000 0 + 1536)
      = sampleMedium (10 * 2048
          + (legacy_lba sampleConfig (sampleEmuState (sampleRegs 6 0 2 0 0x1000 0) 10)
              { heads := 2, cylinders := 80, spt := 18 }).1.toNat * 512 + 1536) :=
  (C9_cdemu_image_bytes (sampleEnv { heads := 2, cylinders := 80, spt := 18 } 2880 imageEngine)
    (sampleEmuState (sampleRegs 6 0 2 0 0x1000 0) 10) 0 2 (by decide) (by decide) (by decide)
    ⟨rfl, Or.inl ⟨rfl, rfl⟩⟩ (by decide)).2.2.2.1 (by decide) 1536 (by decide)

/-- C10: for every emulated-volume request, (i) if any bridge invocation of
`cdemu_access` fails, `DISK_RET_EBADTRACK` is reported and the failing
invocation is the last one made, all before it having succeeded; (ii) when
the codes of `SUCCESS` and `EBADTRACK` differ, `SUCCESS` is reported only if
every invocation succeeded; (iii) on a request that `legacy_lba` accepts the
run ends in one of the four outcomes of `CdemuOutcome`, which give AL: 0 when
the leading read fails, leading sectors + 4 x the count the bulk read reports
when the bulk read fails, leading + bulk sectors when the trailing read fails
(AL being a byte, mod 256), and SUCCESS when every invocation succeeds; that
byte is the sum itself whenever the bulk read reports no more than the count
it was given; (iv) a request that `legacy_lba` rejects invokes the bridge not
at all. -/
theorem C10_cdemu_failure (E : Env) (s : State) (driveid command : Nat) :
    (∀ new : List Call, (cdemu_access E s driveid command).calls = s.calls ++ new →
        (∃ c ∈ new, c.status ≠ 0) →
        (cdemu_access E s driveid command).rets = s.rets ++ [E.K.DISK_RET_EBADTRACK % 256]
          ∧ (cdemu_access E s driveid command).disk_last_status = E.K.DISK_RET_EBADTRACK % 256
          ∧ ∃ (pre : List Call) (c : Call), new = pre ++ [c] ∧ c.status ≠ 0
              ∧ ∀ d ∈ pre, d.status = 0)
      ∧ (E.K.DISK_RET_SUCCESS % 256 ≠ E.K.DISK_RET_EBADTRACK % 256 →
          ∀ new : List Call, (cdemu_access E s driveid command).calls = s.calls ++ new →
            (cdemu_access E s driveid command).rets = s.rets ++ [E.K.DISK_RET_SUCCESS % 256] →
            ∀ c ∈ new, c.status = 0)
      ∧ (0 ≤ (legacy_lba E.K s s.cdemu.lchs).1 →
          (∀ new : List Call, (cdemu_access E s driveid command).calls = s.calls ++ new →
              (∀ c ∈ new, c.status = 0) →
              (cdemu_access E s driveid command).rets
                  = s.rets ++ [E.K.DISK_RET_SUCCESS % 256]
                ∧ (cdemu_access E s driveid command).disk_last_status
                    = E.K.DISK_RET_SUCCESS % 256)
            ∧ (∃ (stL : Int) (nL : Nat) (stB : Int) (nB : Nat) (stT : Int) (nT : Nat),
                CdemuOutcome E s (cdemu_access E s driveid command) driveid command
                  (legacy_lba E.K s s.cdemu.lchs).1.toNat stL nL stB nB stT nT)
            ∧ (∀ nB : Nat,
                nB ≤ emuRest (legacy_lba E.K s s.cdemu.lchs).1.toNat s.regs.al / 4 →
                (emuLead (legacy_lba E.K s s.cdemu.lchs).1.toNat s.regs.al + 4 * nB) % 256
                  = emuLead (legacy_lba E.K s s.cdemu.lchs).1.toNat s.regs.al + 4 * nB))
      ∧ (¬ 0 ≤ (legacy_lba E.K s s.cdemu.lchs).1 →
          (cdemu_access E s driveid command).calls = s.calls) := by
  have hnone : ¬ 0 ≤ (legacy_lba E.K s s.cdemu.lchs).1 →
      ∀ new : List Call, (cdemu_access E s driveid command).calls = s.calls ++ new →
        new = [] := by
    intro hv new hnew
    rw [cdemu_rejected_calls E s driveid command hv] at hnew
    exact (List.self_eq_append_right.mp hnew)
  refine ⟨?_, ?_, ?_, cdemu_rejected_calls E s driveid command⟩
  · intro new hnew hf
    by_cases hv : 0 ≤ (legacy_lba E.K s s.cdemu.lchs).1
    · obtain ⟨stL, nL, stB, nB, stT, nT, hout⟩ := cdemu_outcome E s driveid command hv
      exact cdemu_outcome_failed hout new hnew hf
    · obtain ⟨c, hc, _⟩ := hf
      rw [hnone hv new hnew] at hc
      exact absurd hc (List.not_mem_nil _)
  · intro hne new hnew hr c hc
    by_cases hv : 0 ≤ (legacy_lba E.K s s.cdemu.lchs).1
    · obtain ⟨stL, nL, stB, nB, stT, nT, hout⟩ := cdemu_outcome E s driveid command hv
      by_contra hcs
      have h := (cdemu_outcome_failed hout new hnew ⟨c, hc, hcs⟩).1
      rw [hr] at h
      have h2 := List.append_cancel_left h
      simp only [List.cons.injEq, and_true] at h2
      exact hne h2
    · rw [hnone hv new hnew] at hc
      exact absurd hc (List.not_mem_nil _)
  · intro hv
    obtain ⟨stL, nL, stB, nB, stT, nT, hout⟩ := cdemu_outcome E s driveid command hv
    refine ⟨?_, ⟨stL, nL, stB, nB, stT, nT, hout⟩, ?_⟩
    · intro new hnew hok
      obtain ⟨_, _, r2, r3, _⟩ := cdemu_outcome_succeeded hout new hnew hok
      exact ⟨r2, r3⟩
    · intro n hn
      obtain ⟨_, _, hc2⟩ := legacy_lba_nonneg E.K s s.cdemu.lchs hv
      have h1 := emuLead_le (legacy_lba E.K s s.cdemu.lchs).1.toNat s.regs.al
      unfold emuRest at hn
      omega

/-- Witness of C10: with an engine that fails, the leading read of a request at
virtual block 1 is the only invocation and `EBADTRACK` (0x0c) is reported. -/
theorem C10_cdemu_failure_witness :
    (cdemu_access (sampleEnv { heads := 2, cylinders := 80, spt := 18 } 2880 failEngine)
        (sampleEmuState (sampleRegs 6 0 2 0 0x1000 0) 10) 0 2).rets = [] ++ [0x0c % 256] :=
  ((C10_cdemu_failure (sampleEnv { heads := 2, cylinders := 80, spt := 18 } 2880 failEngine)
    (sampleEmuState (sampleRegs 6 0 2 0 0x1000 0) 10) 0 2).1
    [⟨{ driveid := 0, command := 2, lba := 10, count := 1, buf_fl := 0x9fe00 }, -1, 0⟩]
    (by decide) (by decide)).1

/-- C11 (as stated, refuted): with the image at medium sector 0xffffffff, a
request for 4 sectors at virtual block 4 (cylinder 0, head 0, sector 5) passes
validation, at offset 0 with a count that is a multiple of 4; the one bridge
invocation reads at medium sector 0, the 32-bit sum, not at sector
`cdemu.ilba + vlba/4` = 4294967296. -/
theorem C11_wrap_counterexample :
    let E := sampleEnv { heads := 2, cylinders := 80, spt := 18 } 2880 idleEngine
    let s := sampleEmuState (sampleRegs 4 0 5 0 0x1000 0) 0xffffffff
    (validCount s.regs ∧ validChs s.cdemu.lchs s.regs)
      ∧ (legacy_lba E.K s s.cdemu.lchs).1 = 4
      ∧ s.regs.al % 4 = 0
      ∧ (cdemu_access E s 0 2).calls
          = [⟨{ driveid := 0, command := 2, lba := 0, count := 1, buf_fl := 0x10000 }, 0, 1⟩]
      ∧ s.cdemu.ilba + (legacy_lba E.K s s.cdemu.lchs).1.toNat / 4 = 4294967296 := by
  decide

/-- C11 (amended): on an emulated-volume request with count in [1,128] and a
valid CHS triple of the emulated geometry whose block number `vlba` is below
2^31 and a multiple of 4, with a count that is a multiple of 4, `cdemu_access`
makes exactly one bridge invocation, a read of count/4 sectors of 2048 bytes
at medium sector `(cdemu.ilba + vlba/4) mod 2^32` straight to ES:BX; memory
and medium end exactly as that invocation left them (nothing is read to the
scratch buffer, nothing is copied), and AL holds 4 x the reported count. -/
theorem C11_cdemu_bulk_only (E : Env) (s : State) (driveid command : Nat)
    (hcount : validCount s.regs) (hchs : validChs s.cdemu.lchs s.regs)
    (hfit : chsBlock s.cdemu.lchs (reqCylinder s.regs) (reqHead s.regs) (reqSector s.regs)
      < 2 ^ 31)
    (hoff : (legacy_lba E.K s s.cdemu.lchs).1.toNat % 4 = 0)
    (hmul : s.regs.al % 4 = 0) :
    (legacy_lba E.K s s.cdemu.lchs).1.toNat
        = chsBlock s.cdemu.lchs (reqCylinder s.regs) (reqHead s.regs) (reqSector s.regs)
      ∧ (cdemu_access E s driveid command).calls
        = s.calls
          ++ [⟨directOp driveid command s.regs.es s.regs.bx
                (u32 (s.cdemu.ilba + (legacy_lba E.K s s.cdemu.lchs).1.toNat / 4)) (s.regs.al / 4),
              (send_disk_op E (setAl s 0)
                (directOp driveid command s.regs.es s.regs.bx
                  (u32 (s.cdemu.ilba + (legacy_lba E.K s s.cdemu.lchs).1.toNat / 4))
                  (s.regs.al / 4))).1,
              (send_disk_op E (setAl s 0)
                (directOp driveid command s.regs.es s.regs.bx
                  (u32 (s.cdemu.ilba + (legacy_lba E.K s s.cdemu.lchs).1.toNat / 4))
                  (s.regs.al / 4))).2.1.count⟩]
      ∧ (directOp driveid command s.regs.es s.regs.bx
            (u32 (s.cdemu.ilba + (legacy_lba E.K s s.cdemu.lchs).1.toNat / 4))
            (s.regs.al / 4)).buf_fl = MAKE_FLATPTR s.regs.es s.regs.bx
      ∧ (cdemu_access E s driveid command).mem
          = (send_disk_op E (setAl s 0)
              (directOp driveid command s.regs.es s.regs.bx
                (u32 (s.cdemu.ilba + (legacy_lba E.K s s.cdemu.lchs).1.toNat / 4))
                (s.regs.al / 4))).2.2.mem
      ∧ (cdemu_access E s driveid command).dev
          = (send_disk_op E (setAl s 0)
              (directOp driveid command s.regs.es s.regs.bx
                (u32 (s.cdemu.ilba + (legacy_lba E.K s s.cdemu.lchs).1.toNat / 4))
                (s.regs.al / 4))).2.2.dev
      ∧ (cdemu_access E s driveid command).regs.al
          = (4 * (send_disk_op E (setAl s 0)
              (directOp driveid command s.regs.es s.regs.bx
                (u32 (s.cdemu.ilba + (legacy_lba E.K s s.cdemu.lchs).1.toNat / 4))
                (s.regs.al / 4))).2.1.count) % 256 := by
  obtain ⟨hv, hblock⟩ := legacy_lba_accepts E.K s s.cdemu.lchs hcount hchs hfit
  refine ⟨hblock, ?_⟩
  rw [cdemu_bulk_only E s driveid command hv hoff hmul]
  refine ⟨?_, rfl, ?_, ?_, ?_⟩
  · rw [disk_ret_calls, setAl_calls, send_disk_op_calls, setAl_calls]
  · rw [disk_ret_mem, setAl_mem]
  · rw [disk_ret_dev, setAl_dev]
  · rw [disk_ret_al, setAl_al, Nat.zero_add, Nat.mul_comm]

/-- Witness of C11: 8 sectors from virtual block 4 (cylinder 0, head 0, sector
5) of the image at medium sector 10 are one read of 2 sectors at sector 11. -/
theorem C11_cdemu_bulk_only_witness :
    (cdemu_access (sampleEnv { heads := 2, cylinders := 80, spt := 18 } 2880 imageEngine)
        (sampleEmuState (sampleRegs 8 0 5 0 0x1000 0) 10) 0 2).calls
      = [⟨{ driveid := 0, command := 2, lba := 11, count := 2, buf_fl := 0x10000 }, 0, 2⟩] :=
  (C11_cdemu_bulk_only (sampleEnv { heads := 2, cylinders := 80, spt := 18 } 2880 imageEngine)
    (sampleEmuState (sampleRegs 8 0 5 0 0x1000 0) 10) 0 2 (by decide) (by decide)
    (by decide) (by decide) (by decide)).2.1

/-- C12: for every drive and every parameter block whose declared size is
below 26, `disk_1348` reports `DISK_RET_EPARAM` and does nothing else: the
parameter block and the device path table of the EBDA (hence each of their
bytes) are as before. -/
theorem C12_dpt_too_small (E : Env) (s : State) (driveid : Nat)
    (hsize : s.dpt.size < 26) :
    disk_1348 E s driveid = disk_ret s E.K.DISK_RET_EPARAM
      ∧ (disk_1348 E s driveid).rets = s.rets ++ [E.K.DISK_RET_EPARAM % 256]
      ∧ (disk_1348 E s driveid).disk_last_status = E.K.DISK_RET_EPARAM % 256
      ∧ (disk_1348 E s driveid).dpt = s.dpt
      ∧ (disk_1348 E s driveid).dpte = s.dpte
      ∧ int13dpt_bytes (disk_1348 E s driveid).dpt = int13dpt_bytes s.dpt
      ∧ dpte_bytes (disk_1348 E s driveid).dpte = dpte_bytes s.dpte := by
  have h : disk_1348 E s driveid = disk_ret s E.K.DISK_RET_EPARAM := by
    unfold disk_1348
    simp only [if_pos hsize]
  rw [h]
  exact ⟨rfl, disk_ret_rets _ _, disk_ret_last _ _, disk_ret_dpt _ _, disk_ret_dpte _ _,
    by rw [disk_ret_dpt], by rw [disk_ret_dpte]⟩

/-- Witness of C12: declared size 25. -/
theorem C12_dpt_too_small_witness :
    (disk_1348 (sampleEnv { heads := 16, cylinders := 1024, spt := 63 } 1032192 idleEngine)
        (sampleDptState 25) 0).rets = [] ++ [0x01 % 256] :=
  (C12_dpt_too_small (sampleEnv { heads := 16, cylinders := 1024, spt := 63 } 1032192 idleEngine)
    (sampleDptState 25) 0 (by decide)).2.1

/-- C13: for every drive, (i) with a declared size in [26,29] `disk_1348`
reports `DISK_RET_SUCCESS`, the size field reads back as 26, the bytes of the
parameter block from offset 26 on are as before and the device path table of
the EBDA is unchanged; (ii) with a declared size in [30,65] it reports
`DISK_RET_SUCCESS` and the bytes of the parameter block from offset 30 on are
as before. -/
theorem C13_dpt_tier_frame (E : Env) (s : State) (driveid : Nat) :
    (26 ≤ s.dpt.size → s.dpt.size ≤ 29 →
        (disk_1348 E s driveid).rets = s.rets ++ [E.K.DISK_RET_SUCCESS % 256]
          ∧ (disk_1348 E s driveid).disk_last_status = E.K.DISK_RET_SUCCESS % 256
          ∧ (disk_1348 E s driveid).dpt.size = 26
          ∧ (int13dpt_bytes (disk_1348 E s driveid).dpt).drop 26
              = (int13dpt_bytes s.dpt).drop 26
          ∧ (disk_1348 E s driveid).dpte = s.dpte)
      ∧ (30 ≤ s.dpt.size → s.dpt.size ≤ 65 →
          (disk_1348 E s driveid).rets = s.rets ++ [E.K.DISK_RET_SUCCESS % 256]
            ∧ (disk_1348 E s driveid).disk_last_status = E.K.DISK_RET_SUCCESS % 256
            ∧ (int13dpt_bytes (disk_1348 E s driveid).dpt).drop 30
                = (int13dpt_bytes s.dpt).drop 30) := by
  constructor
  · intro h26 h29
    rw [disk_1348_tier0 E s driveid h26 (Or.inl (by omega))]
    refine ⟨disk_ret_rets _ _, disk_ret_last _ _, ?_, ?_, disk_ret_dpte _ _⟩
    · rw [disk_ret_dpt]
      exact edd1_size E s.dpt driveid
    · rw [disk_ret_dpt, bytes_drop_26, bytes_drop_26]
      show tier1Bytes (disk_1348_edd1 E s.dpt driveid)
        ++ tier2Bytes (disk_1348_edd1 E s.dpt driveid) = _
      rw [(edd1_frame E s.dpt driveid).1, (edd1_frame E s.dpt driveid).2]
  · intro h30 h65
    by_cases hata : (E.drives driveid).type = E.K.DTYPE_ATA
        ∨ (E.drives driveid).type = E.K.DTYPE_ATAPI
    · rw [disk_1348_tier1 E s driveid h30 (by omega) hata]
      refine ⟨disk_ret_rets _ _, disk_ret_last _ _, ?_⟩
      rw [disk_ret_dpt, bytes_drop_30, bytes_drop_30]
      show tier2Bytes (disk_1348_edd1 E s.dpt driveid) = _
      exact (edd1_frame E s.dpt driveid).2
    · rw [disk_1348_tier0 E s driveid (by omega)
        (Or.inr ⟨fun h => hata (Or.inl h), fun h => hata (Or.inr h)⟩)]
      refine ⟨disk_ret_rets _ _, disk_ret_last _ _, ?_⟩
      rw [disk_ret_dpt, bytes_drop_30, bytes_drop_30]
      show tier2Bytes (disk_1348_edd1 E s.dpt driveid) = _
      exact (edd1_frame E s.dpt driveid).2

/-- Witness of C13: declared sizes 26 and 30. -/
theorem C13_dpt_tier_frame_witness :
    (disk_1348 (sampleEnv { heads := 16, cylinders := 1024, spt := 63 } 1032192 idleEngine)
        (sampleDptState 26) 0).dpt.size = 26
      ∧ (int13dpt_bytes (disk_1348
            (sampleEnv { heads := 16, cylinders := 1024, spt := 63 } 1032192 idleEngine)
            (sampleDptState 30) 0).dpt).drop 30
          = (int13dpt_bytes (sampleDptState 30).dpt).drop 30 :=
  ⟨((C13_dpt_tier_frame
      (sampleEnv { heads := 16, cylinders := 1024, spt := 63 } 1032192 idleEngine)
      (sampleDptState 26) 0).1 (by decide) (by decide)).2.2.1,
   ((C13_dpt_tier_frame
      (sampleEnv { heads := 16, cylinders := 1024, spt := 63 } 1032192 idleEngine)
      (sampleDptState 30) 0).2 (by decide) (by decide)).2.2⟩

/-- C14: for every ATA or ATAPI drive and every declared size >= 30, the 16
bytes of the device path table that `disk_1348` leaves in the EBDA sum to 0
mod 256, the checksum byte being the two's complement of the byte sum of the
15 bytes before it, whatever the channel and the translation mode. -/
theorem C14_dpte_checksum (E : Env) (s : State) (driveid : Nat)
    (hata : (E.drives driveid).type = E.K.DTYPE_ATA
      ∨ (E.drives driveid).type = E.K.DTYPE_ATAPI)
    (h30 : 30 ≤ s.dpt.size) :
    (dpte_bytes (disk_1348 E s driveid).dpte).sum % 256 = 0
      ∧ (dpte_bytes (disk_1348 E s driveid).dpte).length = 16
      ∧ dpte_bytes (disk_1348 E s driveid).dpte
          = dpteBody (disk_1348 E s driveid).dpte
            ++ [(256 - (dpteBody (disk_1348 E s driveid).dpte).sum % 256) % 256] := by
  have hd : (disk_1348 E s driveid).dpte = disk_1348_dpte E s.dpte driveid := by
    by_cases h66 : s.dpt.size < 66
    · rw [disk_1348_tier1 E s driveid h30 h66 hata, disk_ret_dpte]
    · rw [disk_1348_tier2 E s driveid (by omega) hata, disk_ret_dpte]
  rw [hd]
  obtain ⟨c1, c2⟩ := dpte_closed E s.dpte driveid
  refine ⟨c1, ?_, ?_⟩
  · unfold dpte_bytes
    rw [List.length_append, dpteBody_length, le_length]
  · have hlt : (256 - (dpteBody (disk_1348_dpte E s.dpte driveid)).sum % 256) % 256 < 256 :=
      Nat.mod_lt _ (by norm_num)
    unfold dpte_bytes
    rw [le_one, c2, Nat.mod_eq_of_lt hlt]

/-- Witness of C14: an ATA drive, declared size 30. -/
theorem C14_dpte_checksum_witness :
    (dpte_bytes (disk_1348
        (sampleEnv { heads := 16, cylinders := 1024, spt := 63 } 1032192 idleEngine)
        (sampleDptState 30) 0).dpte).sum % 256 = 0 :=
  (C14_dpte_checksum (sampleEnv { heads := 16, cylinders := 1024, spt := 63 } 1032192 idleEngine)
    (sampleDptState 30) 0 (Or.inl rfl) (by decide)).1

/-- C15: for every ATA or ATAPI drive and every declared size >= 66, whatever
the parameter block held before, the 36 bytes at offsets 30..65 that
`disk_1348` leaves in it, from the key 0xBEDD to the checksum byte, sum to 0
mod 256. -/
theorem C15_tier2_checksum (E : Env) (s : State) (driveid : Nat)
    (hata : (E.drives driveid).type = E.K.DTYPE_ATA
      ∨ (E.drives driveid).type = E.K.DTYPE_ATAPI)
    (h66 : 66 ≤ s.dpt.size) :
    ((int13dpt_bytes (disk_1348 E s driveid).dpt).drop 30).sum % 256 = 0
      ∧ ((int13dpt_bytes (disk_1348 E s driveid).dpt).drop 30).length = 36
      ∧ (disk_1348 E s driveid).dpt.key = 0xbedd
      ∧ (disk_1348 E s driveid).rets = s.rets ++ [E.K.DISK_RET_SUCCESS % 256] := by
  rw [disk_1348_tier2 E s driveid h66 hata]
  refine ⟨?_, ?_, ?_, disk_ret_rets _ _⟩
  · rw [disk_ret_dpt, bytes_drop_30]
    exact edd3_closed E _ driveid
  · rw [disk_ret_dpt, bytes_drop_30]
    unfold tier2Bytes
    rw [List.length_append, tier2Body_length, le_length]
  · rw [disk_ret_dpt]
    exact (edd3_tier0 E _ driveid).2.2.2.2.2.2

/-- Witness of C15: an ATA drive, declared size 66. -/
theorem C15_tier2_checksum_witness :
    ((int13dpt_bytes (disk_1348
        (sampleEnv { heads := 16, cylinders := 1024, spt := 63 } 1032192 idleEngine)
        (sampleDptState 66) 0).dpt).drop 30).sum % 256 = 0 :=
  (C15_tier2_checksum (sampleEnv { heads := 16, cylinders := 1024, spt := 63 } 1032192 idleEngine)
    (sampleDptState 66) 0 (Or.inl rfl) (by decide)).1

/-- C16: (i) `get_driveid` returns -1 exactly when the ordinal is >= the row
width or the mapped id is >= the drive-table width, and the mapped id
otherwise; (ii) with drives built in, `handle_legacy_disk` resolves a selector
below 0x80 through the floppy row at ordinal = selector, a selector >= 0xE0
through the CD row at ordinal = selector - 0xE0 and any other selector through
the fixed-disk row at ordinal = selector - 0x80: an ordinal that does not
resolve yields `disk_ret(EPARAM)` on the unchanged state, one that resolves
hands the mapped id to `floppy_13`, `cdrom_13`, `disk_13` respectively; (iii)
without drives built in every selector yields `disk_ret(EPARAM)`. -/
theorem C16_drive_resolution (E : Env) (s : State) (extdrive : Nat) :
    (∀ row ord : Nat,
        (get_driveid E row ord = -1
            ↔ (ord ≥ E.K.idmap_width ∨ E.idmap row ord ≥ E.K.drives_width))
          ∧ (validOrdinal E row ord → get_driveid E row ord = (E.idmap row ord : Int)))
      ∧ (E.K.CONFIG_DRIVES = true → extdrive < 0x80 →
          (¬ validOrdinal E E.K.EXTTYPE_FLOPPY extdrive →
              handle_legacy_disk E s extdrive = disk_ret s E.K.DISK_RET_EPARAM)
            ∧ (validOrdinal E E.K.EXTTYPE_FLOPPY extdrive →
              handle_legacy_disk E s extdrive
                = E.floppy_13 s (E.idmap E.K.EXTTYPE_FLOPPY extdrive)))
      ∧ (E.K.CONFIG_DRIVES = true → 0xe0 ≤ extdrive → extdrive < 256 →
          (¬ validOrdinal E E.K.EXTTYPE_CD (extdrive - 0xe0) →
              handle_legacy_disk E s extdrive = disk_ret s E.K.DISK_RET_EPARAM)
            ∧ (validOrdinal E E.K.EXTTYPE_CD (extdrive - 0xe0) →
              handle_legacy_disk E s extdrive
                = E.cdrom_13 s (E.idmap E.K.EXTTYPE_CD (extdrive - 0xe0))))
      ∧ (E.K.CONFIG_DRIVES = true → 0x80 ≤ extdrive → extdrive < 0xe0 →
          (¬ validOrdinal E E.K.EXTTYPE_HD (extdrive - 0x80) →
              handle_legacy_disk E s extdrive = disk_ret s E.K.DISK_RET_EPARAM)
            ∧ (validOrdinal E E.K.EXTTYPE_HD (extdrive - 0x80) →
              handle_legacy_disk E s extdrive
                = disk_13 E s (E.idmap E.K.EXTTYPE_HD (extdrive - 0x80))))
      ∧ (E.K.CONFIG_DRIVES = false →
          handle_legacy_disk E s extdrive = disk_ret s E.K.DISK_RET_EPARAM) := by
  refine ⟨?_, ?_, ?_, ?_, ?_⟩
  · intro row ord
    constructor
    · rw [get_driveid_eq]
      unfold validOrdinal
      constructor
      · intro h
        by_contra hc
        rw [if_pos (by omega)] at h
        omega
      · intro h
        rw [if_neg (by omega)]
    · intro h
      rw [get_driveid_eq, if_pos h]
  · intro hcfg hlt
    have hc : ¬ E.K.CONFIG_DRIVES = false := by simp [hcfg]
    constructor
    · intro hv
      unfold handle_legacy_disk
      simp only [if_neg hc, if_pos hlt, if_pos (get_driveid_invalid E _ _ hv)]
    · intro hv
      obtain ⟨g1, g2⟩ := get_driveid_valid E _ _ hv
      unfold handle_legacy_disk
      simp only [if_neg hc, if_pos hlt, if_neg g1, g2]
  · intro hcfg hge hlt
    have hc : ¬ E.K.CONFIG_DRIVES = false := by simp [hcfg]
    have hm : (extdrive - 0xe0) % 256 = extdrive - 0xe0 := Nat.mod_eq_of_lt (by omega)
    have h80 : ¬ extdrive < 0x80 := by omega
    constructor
    · intro hv
      unfold handle_legacy_disk
      simp only [if_neg hc, if_neg h80, if_pos hge, hm, if_pos (get_driveid_invalid E _ _ hv)]
    · intro hv
      obtain ⟨g1, g2⟩ := get_driveid_valid E _ _ hv
      unfold handle_legacy_disk
      simp only [if_neg hc, if_neg h80, if_pos hge, hm, if_neg g1, g2]
  · intro hcfg hge hlt
    have hc : ¬ E.K.CONFIG_DRIVES = false := by simp [hcfg]
    have hm : (extdrive - 0x80) % 256 = extdrive - 0x80 := Nat.mod_eq_of_lt (by omega)
    have h80 : ¬ extdrive < 0x80 := by omega
    have he0 : ¬ extdrive ≥ 0xe0 := by omega
    constructor
    · intro hv
      unfold handle_legacy_disk
      simp only [if_neg hc, if_neg h80, if_neg he0, hm, if_pos (get_driveid_invalid E _ _ hv)]
    · intro hv
      obtain ⟨g1, g2⟩ := get_driveid_valid E _ _ hv
      unfold handle_legacy_disk
      simp only [if_neg hc, if_neg h80, if_neg he0, hm, if_neg g1, g2]
  · intro hcfg
    unfold handle_legacy_disk
    simp only [if_pos hcfg]

/-- Witness of C16: selector 0x89 has ordinal 9 in a fixed-disk row of width 8
and yields EPARAM (0x01). -/
theorem C16_drive_resolution_witness :
    handle_legacy_disk (sampleEnv { heads := 16, cylinders := 1024, spt := 63 } 1032192 idleEngine)
        (sampleFnState 0x02 1 0x89) 0x89
      = disk_ret (sampleFnState 0x02 1 0x89) 0x01 :=
  ((C16_drive_resolution (sampleEnv { heads := 16, cylinders := 1024, spt := 63 } 1032192 idleEngine)
    (sampleFnState 0x02 1 0x89) 0x89).2.2.2.1 rfl (by decide) (by decide)).1 (by decide)

/-- C17: for every drive and every register content, (i) a function code that
is not in the handler table of `disk_13`, and (ii) function 0x4E with a
sub-code AL other than 0x01, 0x03, 0x04, 0x06, end in `disk_ret(EPARAM)`:
status byte AH and last status hold EPARAM and the error indicator is set
(EPARAM being a nonzero byte); (iii) function 0x45 and 0x49 end in
`disk_ret(SUCCESS)` and function 0x46 in `disk_ret(ENOTREMOVABLE)` whatever
the other fields hold. -/
theorem C17_dispatch_fixed_status (E : Env) (s : State) (driveid : Nat) :
    ((s.regs.ah ∉ diskFunctionCodes
          ∨ (s.regs.ah = 0x4e ∧ s.regs.al ≠ 0x01 ∧ s.regs.al ≠ 0x03 ∧ s.regs.al ≠ 0x04
              ∧ s.regs.al ≠ 0x06)) →
        disk_13 E s driveid
            = disk_ret { s with disk_interrupt_flag := 0 } E.K.DISK_RET_EPARAM
          ∧ (disk_13 E s driveid).regs.ah = E.K.DISK_RET_EPARAM % 256
          ∧ (disk_13 E s driveid).disk_last_status = E.K.DISK_RET_EPARAM % 256
          ∧ (disk_13 E s driveid).rets = s.rets ++ [E.K.DISK_RET_EPARAM % 256]
          ∧ (E.K.DISK_RET_EPARAM % 256 ≠ 0 → (disk_13 E s driveid).regs.cf = true))
      ∧ ((s.regs.ah = 0x45 ∨ s.regs.ah = 0x49) →
          disk_13 E s driveid
              = disk_ret { s with disk_interrupt_flag := 0 } E.K.DISK_RET_SUCCESS
            ∧ (disk_13 E s driveid).regs.ah = E.K.DISK_RET_SUCCESS % 256
            ∧ (disk_13 E s driveid).disk_last_status = E.K.DISK_RET_SUCCESS % 256
            ∧ (disk_13 E s driveid).rets = s.rets ++ [E.K.DISK_RET_SUCCESS % 256])
      ∧ (s.regs.ah = 0x46 →
          disk_13 E s driveid
              = disk_ret { s with disk_interrupt_flag := 0 } E.K.DISK_RET_ENOTREMOVABLE
            ∧ (disk_13 E s driveid).regs.ah = E.K.DISK_RET_ENOTREMOVABLE % 256
            ∧ (disk_13 E s driveid).disk_last_status = E.K.DISK_RET_ENOTREMOVABLE % 256
            ∧ (disk_13 E s driveid).rets = s.rets ++ [E.K.DISK_RET_ENOTREMOVABLE % 256]) := by
  refine ⟨?_, ?_, ?_⟩
  · intro h
    have heq : disk_13 E s driveid
        = disk_ret { s with disk_interrupt_flag := 0 } E.K.DISK_RET_EPARAM := by
      rcases h with h | ⟨h1, h2, h3, h4, h5⟩
      · simp only [diskFunctionCodes, List.mem_cons, List.mem_singleton, not_or,
          List.mem_nil_iff, or_false] at h
        obtain ⟨a0, a1, a2, a3, a4, a5, a6, a7, a8, a9, a10, a11, a12, a13, a14, a15, a16,
          a17, a18, a19, a20, a21, a22, a23⟩ := h
        unfold disk_13
        simp only [if_neg a0, if_neg a1, if_neg a2, if_neg a3, if_neg a4, if_neg a5, if_neg a6,
          if_neg a7, if_neg a8, if_neg a9, if_neg a10, if_neg a11, if_neg a12, if_neg a13,
          if_neg a14, if_neg a15, if_neg a16, if_neg a17, if_neg a18, if_neg a19, if_neg a20,
          if_neg a21, if_neg a22, if_neg a23, disk_13XX]
      · unfold disk_13
        simp only [h1, disk_134e, if_neg h2, if_neg h3, if_neg h4, if_neg h5, disk_134eXX]
        simp
    rw [heq]
    refine ⟨rfl, disk_ret_ah _ _, disk_ret_last _ _, disk_ret_rets _ _, ?_⟩
    intro hne
    rw [disk_ret_cf]
    simp [hne]
  · intro h
    have heq : disk_13 E s driveid
        = disk_ret { s with disk_interrupt_flag := 0 } E.K.DISK_RET_SUCCESS := by
      rcases h with h | h
      · unfold disk_13
        simp only [h, disk_1345]
        simp
      · unfold disk_13
        simp only [h, disk_1349]
        simp
    rw [heq]
    exact ⟨rfl, disk_ret_ah _ _, disk_ret_last _ _, disk_ret_rets _ _⟩
  · intro h
    have heq : disk_13 E s driveid
        = disk_ret { s with disk_interrupt_flag := 0 } E.K.DISK_RET_ENOTREMOVABLE := by
      unfold disk_13
      simp only [h, disk_1346]
      simp
    rw [heq]
    exact ⟨rfl, disk_ret_ah _ _, disk_ret_last _ _, disk_ret_rets _ _⟩

/-- Witness of C17: function 0x06 is not in the table; function 0x4E with
sub-code 2 is refused; function 0x46 reports ENOTREMOVABLE (0xb2). -/
theorem C17_dispatch_fixed_status_witness :
    (disk_13 (sampleEnv { heads := 16, cylinders := 1024, spt := 63 } 1032192 idleEngine)
        (sampleFnState 0x06 1 0x80) 0).rets = [] ++ [0x01 % 256]
      ∧ (disk_13 (sampleEnv { heads := 16, cylinders := 1024, spt := 63 } 1032192 idleEngine)
        (sampleFnState 0x4e 2 0x80) 0).regs.cf = true
      ∧ (disk_13 (sampleEnv { heads := 16, cylinders := 1024, spt := 63 } 1032192 idleEngine)
        (sampleFnState 0x46 1 0x80) 0).rets = [] ++ [0xb2 % 256] :=
  ⟨((C17_dispatch_fixed_status
      (sampleEnv { heads := 16, cylinders := 1024, spt := 63 } 1032192 idleEngine)
      (sampleFnState 0x06 1 0x80) 0).1 (Or.inl (by decide))).2.2.2.1,
   ((C17_dispatch_fixed_status
      (sampleEnv { heads := 16, cylinders := 1024, spt := 63 } 1032192 idleEngine)
      (sampleFnState 0x4e 2 0x80) 0).1
      (Or.inr ⟨rfl, by decide, by decide, by decide, by decide⟩)).2.2.2.2 (by decide),
   ((C17_dispatch_fixed_status
      (sampleEnv { heads := 16, cylinders := 1024, spt := 63 } 1032192 idleEngine)
      (sampleFnState 0x46 1 0x80) 0).2.2 rfl).2.2.2⟩

/-- C18 (as stated, refuted): function 0x00 (reset) and function 0x01 (read
status) give no code to `disk_ret`; the reset does not even report the failure
of its operation: with an engine that fails, the one bridge invocation it
makes returns -1, yet the status log stays empty and AH, the error indicator
and the last status are as on entry. -/
theorem C18_no_status_counterexample :
    let E := sampleEnv { heads := 16, cylinders := 1024, spt := 63 } 1032192 failEngine
    (disk_13 E (sampleFnState 0x01 1 0x80) 0).rets = []
      ∧ (disk_13 E (sampleFnState 0x00 1 0x80) 0).rets = []
      ∧ (disk_13 E (sampleFnState 0x00 1 0x80) 0).calls.map (fun c => c.status) = [-1]
      ∧ (disk_13 E (sampleFnState 0x00 1 0x80) 0).regs = (sampleFnState 0x00 1 0x80).regs
      ∧ (disk_13 E (sampleFnState 0x00 1 0x80) 0).disk_last_status
          = (sampleFnState 0x00 1 0x80).disk_last_status := by
  decide

/-- C18 (amended): for every drive, (i) every function code other than 0x00
and 0x01 makes `disk_13` give exactly one code to `disk_ret`, which is then
the persisted last status, provided that for functions 0x02-0x04 the block
number of a valid CHS request is below 2^31; (ii) function 0x01 gives no code
to `disk_ret`: it returns the persisted last status in AH and leaves it as it
is. -/
theorem C18_status_recorded (E : Env) (s : State) (driveid : Nat) :
    (s.regs.ah ≠ 0x00 → s.regs.ah ≠ 0x01 →
        ((s.regs.ah = 0x02 ∨ s.regs.ah = 0x03 ∨ s.regs.ah = 0x04) →
          validCount s.regs → validChs (E.drives driveid).lchs s.regs →
          chsBlock (E.drives driveid).lchs (reqCylinder s.regs) (reqHead s.regs)
            (reqSector s.regs) < 2 ^ 31) →
        ∃ code : Nat, (disk_13 E s driveid).rets = s.rets ++ [code % 256]
          ∧ (disk_13 E s driveid).disk_last_status = code % 256)
      ∧ (s.regs.ah = 0x01 →
          (disk_13 E s driveid).rets = s.rets
            ∧ (disk_13 E s driveid).disk_last_status = s.disk_last_status
            ∧ (disk_13 E s driveid).regs.ah = s.disk_last_status
            ∧ (disk_13 E s driveid).regs.cf = decide (s.disk_last_status ≠ 0)) := by
  constructor
  · intro h0 h1 hfit
    exact disk_13_records E s driveid h0 h1 hfit
  · intro h
    have heq : disk_13 E s driveid = disk_1301 { s with disk_interrupt_flag := 0 } := by
      unfold disk_13
      simp only [h]
      simp
    rw [heq]
    exact ⟨rfl, rfl, rfl, rfl⟩

/-- Witness of C18: function 0x15 (read drive size) reports once; function
0x01 returns the last status. -/
theorem C18_status_recorded_witness :
    (∃ code : Nat,
        (disk_13 (sampleEnv { heads := 16, cylinders := 1024, spt := 63 } 1032192 idleEngine)
            (sampleFnState 0x15 1 0x80) 0).rets
          = (sampleFnState 0x15 1 0x80).rets ++ [code % 256]
        ∧ (disk_13 (sampleEnv { heads := 16, cylinders := 1024, spt := 63 } 1032192 idleEngine)
            (sampleFnState 0x15 1 0x80) 0).disk_last_status = code % 256)
      ∧ (disk_13 (sampleEnv { heads := 16, cylinders := 1024, spt := 63 } 1032192 idleEngine)
          (sampleFnState 0x01 1 0x80) 0).rets = (sampleFnState 0x01 1 0x80).rets :=
  ⟨(C18_status_recorded
      (sampleEnv { heads := 16, cylinders := 1024, spt := 63 } 1032192 idleEngine)
      (sampleFnState 0x15 1 0x80) 0).1 (by decide) (by decide)
      (fun h => absurd h (by decide)),
   ((C18_status_recorded
      (sampleEnv { heads := 16, cylinders := 1024, spt := 63 } 1032192 idleEngine)
      (sampleFnState 0x01 1 0x80) 0).2 rfl).1⟩

/-- C19 (as stated, refuted): an ATA drive of logical geometry 1024/16/63 and
physical geometry 2000/16/63 with 2016000 blocks, which do not exceed
63*16*0x3fff, is flagged valid, but the cylinder count emitted is 2000, the
physical one, not the 1024 of the logical geometry. -/
theorem C19_logical_counterexample :
    let E := sampleEnvPhys sampleConfig.DTYPE_ATA { heads := 16, cylinders := 1024, spt := 63 }
      { heads := 16, cylinders := 2000, spt := 63 } 2016000
    let s := sampleDptState 26
    (E.drives 0).type ≠ E.K.DTYPE_ATAPI
      ∧ ¬ (E.drives 0).sectors > (E.drives 0).lchs.spt * (E.drives 0).lchs.heads * 0x3fff
      ∧ (disk_1348 E s 0).dpt.infos = 0x02
      ∧ (disk_1348 E s 0).dpt.cylinders = 2000
      ∧ (E.drives 0).lchs.cylinders = 1024 := by
  decide

/-- C19 (amended): for every drive that is not an ATAPI device and every
declared size >= 26, `disk_1348` emits infos = 0x00 and 0x3fff cylinders
exactly when the drive's sector count exceeds spt*heads*0x3fff of its physical
geometry, and otherwise infos = 0x02 and the cylinder count of the physical
geometry; in both cases it emits the heads and sectors-per-track of the
physical geometry, the drive's sector count and its block size. -/
theorem C19_dpt_geometry (E : Env) (s : State) (driveid : Nat)
    (hna : (E.drives driveid).type ≠ E.K.DTYPE_ATAPI) (h26 : 26 ≤ s.dpt.size) :
    (disk_1348 E s driveid).dpt.infos
        = (if (E.drives driveid).sectors
              > (E.drives driveid).pchs.spt * (E.drives driveid).pchs.heads * 0x3fff
            then 0x00 else 0x02)
      ∧ (disk_1348 E s driveid).dpt.cylinders
        = (if (E.drives driveid).sectors
              > (E.drives driveid).pchs.spt * (E.drives driveid).pchs.heads * 0x3fff
            then 0x3fff else (E.drives driveid).pchs.cylinders)
      ∧ (disk_1348 E s driveid).dpt.heads = (E.drives driveid).pchs.heads
      ∧ (disk_1348 E s driveid).dpt.spt = (E.drives driveid).pchs.spt
      ∧ (disk_1348 E s driveid).dpt.sector_count = (E.drives driveid).sectors
      ∧ (disk_1348 E s driveid).dpt.blksize = (E.drives driveid).blksize := by
  have hf := edd1_fields E s.dpt driveid hna
  by_cases hstop : s.dpt.size < 30 ∨ ((E.drives driveid).type ≠ E.K.DTYPE_ATA
      ∧ (E.drives driveid).type ≠ E.K.DTYPE_ATAPI)
  · rw [disk_1348_tier0 E s driveid h26 hstop, disk_ret_dpt]
    exact hf
  · have h30 : 30 ≤ s.dpt.size := by
      by_contra h
      exact hstop (Or.inl (by omega))
    have hata : (E.drives driveid).type = E.K.DTYPE_ATA
        ∨ (E.drives driveid).type = E.K.DTYPE_ATAPI := by
      by_contra h
      exact hstop (Or.inr ⟨fun h1 => h (Or.inl h1), fun h1 => h (Or.inr h1)⟩)
    by_cases h66 : s.dpt.size < 66
    · rw [disk_1348_tier1 E s driveid h30 h66 hata, disk_ret_dpt]
      exact hf
    · rw [disk_1348_tier2 E s driveid (by omega) hata, disk_ret_dpt]
      obtain ⟨e1, e2, e3, e4, e5, e6, _⟩ := edd3_tier0 E
        { disk_1348_edd1 E s.dpt driveid with
          size := 30, dpte_segment := s.ebda_seg, dpte_offset := E.K.dpte } driveid
      rw [e1, e2, e3, e4, e5, e6]
      exact hf

/-- Witness of C19: an ATA drive of physical geometry 2000/16/63, declared
size 66. -/
theorem C19_dpt_geometry_witness :
    (disk_1348 (sampleEnvPhys sampleConfig.DTYPE_ATA { heads := 16, cylinders := 1024, spt := 63 }
        { heads := 16, cylinders := 2000, spt := 63 } 2016000) (sampleDptState 66) 0).dpt.heads
      = 16 :=
  (C19_dpt_geometry (sampleEnvPhys sampleConfig.DTYPE_ATA
      { heads := 16, cylinders := 1024, spt := 63 }
      { heads := 16, cylinders := 2000, spt := 63 } 2016000) (sampleDptState 66) 0
    (by decide) (by decide)).2.2.1

/-- C20: for every request with a function code other than 0x4B, (i) while a
CD-emulation session is active `handle_13` hands a request whose selector DL
equals the emulated selector to `cdemu_13`; any other selector goes to
`handle_legacy_disk`, decremented by one (as a byte) if it is below 0xE0 and
has the same bit 7 as the emulated selector, and unchanged if not; (ii) while
no session is active the selector goes to `handle_legacy_disk` unchanged;
(iii) the byte decrement of a selector in [1,255] is the selector minus 1. -/
theorem C20_emulation_routing (E : Env) (s : State) (hfn : s.regs.ah ≠ 0x4b) :
    (cdemuActive E s →
        (s.regs.dl = s.cdemu.emulated_extdrive → handle_13 E s = E.cdemu_13 s)
          ∧ (s.regs.dl ≠ s.cdemu.emulated_extdrive →
              (s.regs.dl < 0xe0
                  ∧ s.cdemu.emulated_extdrive &&& 0x80 = s.regs.dl &&& 0x80) →
              handle_13 E s = handle_legacy_disk E s ((s.regs.dl + 256 - 1) % 256))
          ∧ (s.regs.dl ≠ s.cdemu.emulated_extdrive →
              ¬ (s.regs.dl < 0xe0
                  ∧ s.cdemu.emulated_extdrive &&& 0x80 = s.regs.dl &&& 0x80) →
              handle_13 E s = handle_legacy_disk E s s.regs.dl))
      ∧ (¬ cdemuActive E s → handle_13 E s = handle_legacy_disk E s s.regs.dl)
      ∧ (1 ≤ s.regs.dl → s.regs.dl < 256 → (s.regs.dl + 256 - 1) % 256 = s.regs.dl - 1) := by
  refine ⟨?_, ?_, ?_⟩
  · rintro ⟨hcfg, hact⟩
    refine ⟨?_, ?_, ?_⟩
    · intro heq
      unfold handle_13
      simp only [hcfg, if_true, if_neg hfn, if_pos hact, if_pos heq]
    · intro hne hdec
      have hcond : s.regs.dl < 0xe0
          ∧ (s.cdemu.emulated_extdrive ^^^ s.regs.dl) &&& 0x80 = 0 :=
        ⟨hdec.1, (same_bit7 _ _).mpr hdec.2⟩
      unfold handle_13
      simp only [hcfg, if_true, if_neg hfn, if_pos hact, if_neg hne, if_pos hcond]
    · intro hne hdec
      have hcond : ¬ (s.regs.dl < 0xe0
          ∧ (s.cdemu.emulated_extdrive ^^^ s.regs.dl) &&& 0x80 = 0) :=
        fun h => hdec ⟨h.1, (same_bit7 _ _).mp h.2⟩
      unfold handle_13
      simp only [hcfg, if_true, if_neg hfn, if_pos hact, if_neg hne, if_neg hcond]
  · intro hna
    unfold cdemuActive at hna
    unfold handle_13
    by_cases hcfg : E.K.CONFIG_CDROM_EMU = true
    · have hact : ¬ s.cdemu.active ≠ 0 := fun h => hna ⟨hcfg, h⟩
      simp only [hcfg, if_true, if_neg hfn, if_neg hact]
    · simp only [if_neg hcfg]
  · intro h1 h2
    omega

/-- Witness of C20: with selector 0x00 emulated, a request for selector 0x01 is
handed on with selector 0x00, and a request for selector 0x00 goes to the
emulation handler. -/
theorem C20_emulation_routing_witness :
    handle_13 (sampleEnv { heads := 2, cylinders := 80, spt := 18 } 2880 idleEngine)
        (sampleEmuState { sampleRegs 1 0 1 0 0 0 with ah := 0x02, dl := 0x01 } 0)
      = handle_legacy_disk (sampleEnv { heads := 2, cylinders := 80, spt := 18 } 2880 idleEngine)
          (sampleEmuState { sampleRegs 1 0 1 0 0 0 with ah := 0x02, dl := 0x01 } 0)
          ((0x01 + 256 - 1) % 256) :=
  ((C20_emulation_routing (sampleEnv { heads := 2, cylinders := 80, spt := 18 } 2880 idleEngine)
    (sampleEmuState { sampleRegs 1 0 1 0 0 0 with ah := 0x02, dl := 0x01 } 0) (by decide)).1
    (by decide)).2.1 (by decide) (by decide)

/-- C21: for every ATA or ATAPI drive and declared size >= 30 (the class
codes and the translation codes being pairwise distinct), the translation-mode
bitfield that `disk_1348` stores in the device path table has bit 4 set and
bit 7 equal to the build option `CONFIG_ATA_PIO32`; for an ATAPI drive bits 5
and 6 are set, bits 3, 9 and 10 are clear, and nothing else but bits 4 and 7
is set; for an ATA drive bit 3 is set exactly when the translation is not
`TRANSLATION_NONE`, bits 10-9 are 01 for `TRANSLATION_LBA`, 11 for
`TRANSLATION_RECHS` and 00 otherwise, and bits 5 and 6 are clear. -/
theorem C21_translation_bits (E : Env) (s : State) (driveid : Nat)
    (hK : E.K.DTYPE_ATA ≠ E.K.DTYPE_ATAPI)
    (hT : E.K.TRANSLATION_NONE ≠ E.K.TRANSLATION_LBA
      ∧ E.K.TRANSLATION_NONE ≠ E.K.TRANSLATION_RECHS
      ∧ E.K.TRANSLATION_LBA ≠ E.K.TRANSLATION_RECHS)
    (hata : (E.drives driveid).type = E.K.DTYPE_ATA
      ∨ (E.drives driveid).type = E.K.DTYPE_ATAPI)
    (h30 : 30 ≤ s.dpt.size) :
    (storedOptions E s driveid).testBit 4 = true
      ∧ (storedOptions E s driveid).testBit 7 = E.K.CONFIG_ATA_PIO32
      ∧ ((E.drives driveid).type = E.K.DTYPE_ATAPI →
          (storedOptions E s driveid).testBit 5 = true
            ∧ (storedOptions E s driveid).testBit 6 = true
            ∧ (storedOptions E s driveid).testBit 3 = false
            ∧ (storedOptions E s driveid).testBit 9 = false
            ∧ (storedOptions E s driveid).testBit 10 = false
            ∧ storedOptions E s driveid
                = (if E.K.CONFIG_ATA_PIO32 = true then 0xf0 else 0x70))
      ∧ ((E.drives driveid).type = E.K.DTYPE_ATA →
          ((storedOptions E s driveid).testBit 3 = true
              ↔ (E.drives driveid).translation ≠ E.K.TRANSLATION_NONE)
            ∧ ((E.drives driveid).translation = E.K.TRANSLATION_LBA →
                (storedOptions E s driveid).testBit 9 = true
                  ∧ (storedOptions E s driveid).testBit 10 = false)
            ∧ ((E.drives driveid).translation = E.K.TRANSLATION_RECHS →
                (storedOptions E s driveid).testBit 9 = true
                  ∧ (storedOptions E s driveid).testBit 10 = true)
            ∧ ((E.drives driveid).translation ≠ E.K.TRANSLATION_LBA →
                (E.drives driveid).translation ≠ E.K.TRANSLATION_RECHS →
                (storedOptions E s driveid).testBit 9 = false
                  ∧ (storedOptions E s driveid).testBit 10 = false)
            ∧ (storedOptions E s driveid).testBit 5 = false
            ∧ (storedOptions E s driveid).testBit 6 = false) := by
  obtain ⟨hT1, hT2, hT3⟩ := hT
  rw [storedOptions_eq E s driveid hata h30]
  rcases hata with ha | ha
  · have hna : (E.drives driveid).type ≠ E.K.DTYPE_ATAPI := fun h => hK (ha.symm.trans h)
    by_cases ht : (E.drives driveid).translation = E.K.TRANSLATION_NONE
    · have hl : (E.drives driveid).translation ≠ E.K.TRANSLATION_LBA :=
        fun h => hT1 (ht.symm.trans h)
      have hr : (E.drives driveid).translation ≠ E.K.TRANSLATION_RECHS :=
        fun h => hT2 (ht.symm.trans h)
      rw [options_ata_none E driveid ha ht]
      cases hp : E.K.CONFIG_ATA_PIO32
      · simp only [Bool.false_eq_true, if_false]
        refine ⟨by decide, by decide, fun h => absurd h hna, fun _ => ?_⟩
        exact ⟨⟨fun h => absurd h (by decide), fun h => absurd ht h⟩,
          fun h => absurd h hl, fun h => absurd h hr, fun _ _ => ⟨by decide, by decide⟩,
          by decide, by decide⟩
      · simp only [if_true]
        refine ⟨by decide, by decide, fun h => absurd h hna, fun _ => ?_⟩
        exact ⟨⟨fun h => absurd h (by decide), fun h => absurd ht h⟩,
          fun h => absurd h hl, fun h => absurd h hr, fun _ _ => ⟨by decide, by decide⟩,
          by decide, by decide⟩
    · by_cases hl : (E.drives driveid).translation = E.K.TRANSLATION_LBA
      · have hr : (E.drives driveid).translation ≠ E.K.TRANSLATION_RECHS :=
          fun h => hT3 (hl.symm.trans h)
        rw [options_ata_lba E driveid ha ht hl hr]
        cases hp : E.K.CONFIG_ATA_PIO32
        · simp only [Bool.false_eq_true, if_false]
          refine ⟨by decide, by decide, fun h => absurd h hna, fun _ => ?_⟩
          exact ⟨⟨fun _ => ht, fun _ => by decide⟩,
            fun _ => ⟨by decide, by decide⟩, fun h => absurd h hr, fun h _ => absurd hl h,
            by decide, by decide⟩
        · simp only [if_true]
          refine ⟨by decide, by decide, fun h => absurd h hna, fun _ => ?_⟩
          exact ⟨⟨fun _ => ht, fun _ => by decide⟩,
            fun _ => ⟨by decide, by decide⟩, fun h => absurd h hr, fun h _ => absurd hl h,
            by decide, by decide⟩
      · by_cases hr : (E.drives driveid).translation = E.K.TRANSLATION_RECHS
        · rw [options_ata_rechs E driveid ha ht hl hr]
          cases hp : E.K.CONFIG_ATA_PIO32
          · simp only [Bool.false_eq_true, if_false]
            refine ⟨by decide, by decide, fun h => absurd h hna, fun _ => ?_⟩
            exact ⟨⟨fun _ => ht, fun _ => by decide⟩,
              fun h => absurd h hl, fun _ => ⟨by decide, by decide⟩, fun _ h => absurd hr h,
              by decide, by decide⟩
          · simp only [if_true]
            refine ⟨by decide, by decide, fun h => absurd h hna, fun _ => ?_⟩
            exact ⟨⟨fun _ => ht, fun _ => by decide⟩,
              fun h => absurd h hl, fun _ => ⟨by decide, by decide⟩, fun _ h => absurd hr h,
              by decide, by decide⟩
        · rw [options_ata_other E driveid ha ht hl hr]
          cases hp : E.K.CONFIG_ATA_PIO32
          · simp only [Bool.false_eq_true, if_false]
            refine ⟨by decide, by decide, fun h => absurd h hna, fun _ => ?_⟩
            exact ⟨⟨fun _ => ht, fun _ => by decide⟩,
              fun h => absurd h hl, fun h => absurd h hr, fun _ _ => ⟨by decide, by decide⟩,
              by decide, by decide⟩
          · simp only [if_true]
            refine ⟨by decide, by decide, fun h => absurd h hna, fun _ => ?_⟩
            exact ⟨⟨fun _ => ht, fun _ => by decide⟩,
              fun h => absurd h hl, fun h => absurd h hr, fun _ _ => ⟨by decide, by decide⟩,
              by decide, by decide⟩
  · have hna : (E.drives driveid).type ≠ E.K.DTYPE_ATA := fun h => hK (h.symm.trans ha)
    rw [options_atapi E driveid hna]
    cases hp : E.K.CONFIG_ATA_PIO32
    · simp only [Bool.false_eq_true, if_false]
      exact ⟨by decide, by decide,
        fun _ => ⟨by decide, by decide, by decide, by decide, by decide, trivial⟩,
        fun h => absurd h hna⟩
    · simp only [if_true]
      exact ⟨by decide, by decide,
        fun _ => ⟨by decide, by decide, by decide, by decide, by decide, trivial⟩,
        fun h => absurd h hna⟩

/-- Witness of C21: an ATA disk with LBA translation, declared size 30, has
bits 10-9 equal to 01; an ATAPI drive, declared size 66, stores 0x70. -/
theorem C21_translation_bits_witness :
    ((storedOptions (sampleEnvPhys sampleConfig.DTYPE_ATA
          { heads := 16, cylinders := 1024, spt := 63 }
          { heads := 16, cylinders := 2000, spt := 63 } 2016000) (sampleDptState 30) 0).testBit 9
        = true
      ∧ (storedOptions (sampleEnvPhys sampleConfig.DTYPE_ATA
          { heads := 16, cylinders := 1024, spt := 63 }
          { heads := 16, cylinders := 2000, spt := 63 } 2016000) (sampleDptState 30) 0).testBit 10
        = false)
      ∧ storedOptions (sampleEnvPhys sampleConfig.DTYPE_ATAPI
          { heads := 16, cylinders := 1024, spt := 63 }
          { heads := 16, cylinders := 2000, spt := 63 } 2016000) (sampleDptState 66) 0
        = (if sampleConfig.CONFIG_ATA_PIO32 = true then 0xf0 else 0x70) :=
  ⟨((C21_translation_bits (sampleEnvPhys sampleConfig.DTYPE_ATA
        { heads := 16, cylinders := 1024, spt := 63 }
        { heads := 16, cylinders := 2000, spt := 63 } 2016000) (sampleDptState 30) 0
      (by decide) (by decide) (Or.inl rfl) (by decide)).2.2.2 rfl).2.1 rfl,
   ((C21_translation_bits (sampleEnvPhys sampleConfig.DTYPE_ATAPI
        { heads := 16, cylinders := 1024, spt := 63 }
        { heads := 16, cylinders := 2000, spt := 63 } 2016000) (sampleDptState 66) 0
      (by decide) (by decide) (Or.inr rfl) (by decide)).2.2.1 rfl).2.2.2.2.2⟩

/-- C22: for every drive whose logical geometry has 2 <= cylinders <= 1025,
1 <= heads <= 256 and 1 <= spt <= 63, the registers CH/CL/DH that `disk_1308`
returns decode to cylinder `cylinders - 2`, head `heads - 1`, sector `spt`;
every request that carries them with a count AL in [1,128] is accepted by
`legacy_lba` for that geometry, unchanged state, block number
`(cylinders-1)*heads*spt - 1`; `disk_1315` returns `(cylinders-1)*heads*spt`
in CX:DX, which is that block number plus one. -/
theorem C22_max_chs_roundtrip (E : Env) (s t : State) (driveid : Nat)
    (hc : 2 ≤ (E.drives driveid).lchs.cylinders ∧ (E.drives driveid).lchs.cylinders ≤ 1025)
    (hh : 1 ≤ (E.drives driveid).lchs.heads ∧ (E.drives driveid).lchs.heads ≤ 256)
    (hs : 1 ≤ (E.drives driveid).lchs.spt ∧ (E.drives driveid).lchs.spt ≤ 63) :
    (reqCylinder (disk_1308 E s driveid).regs = (E.drives driveid).lchs.cylinders - 2
        ∧ reqHead (disk_1308 E s driveid).regs = (E.drives driveid).lchs.heads - 1
        ∧ reqSector (disk_1308 E s driveid).regs = (E.drives driveid).lchs.spt)
      ∧ regCxDx (disk_1315 E t driveid).regs
          = ((E.drives driveid).lchs.cylinders - 1) * (E.drives driveid).lchs.heads
              * (E.drives driveid).lchs.spt
      ∧ (∀ u : State,
          u.regs.ch = (disk_1308 E s driveid).regs.ch →
          u.regs.cl = (disk_1308 E s driveid).regs.cl →
          u.regs.dh = (disk_1308 E s driveid).regs.dh →
          1 ≤ u.regs.al → u.regs.al ≤ 128 →
          legacy_lba E.K u (E.drives driveid).lchs
              = (((((E.drives driveid).lchs.cylinders - 1) * (E.drives driveid).lchs.heads
                    * (E.drives driveid).lchs.spt - 1 : Nat) : Int), u)
            ∧ (legacy_lba E.K u (E.drives driveid).lchs).1 + 1
                = ((regCxDx (disk_1315 E t driveid).regs : Nat) : Int)) := by
  have hmax := chsBlock_max (E.drives driveid).lchs hc.1 hh.1 hs.1
  have hL : ((E.drives driveid).lchs.cylinders - 1) * (E.drives driveid).lchs.heads
      * (E.drives driveid).lchs.spt ≤ 1024 * 256 * 63 :=
    Nat.mul_le_mul (Nat.mul_le_mul (by omega) hh.2) hs.2
  have hcount := disk_1315_count E t driveid (by omega) hh.1 hs.1 (by omega)
  refine ⟨disk_1308_decoded E s driveid _ hc hh hs.2 rfl rfl rfl, hcount, ?_⟩
  intro u hch hcl hdh hlo hhi
  obtain ⟨d1, d2, d3⟩ := disk_1308_decoded E s driveid u.regs hc hh hs.2 hch hcl hdh
  have hv : validChs (E.drives driveid).lchs u.regs := by
    unfold validChs
    rw [d1, d2, d3]
    omega
  have hfit : chsBlock (E.drives driveid).lchs (reqCylinder u.regs) (reqHead u.regs)
      (reqSector u.regs) < 2 ^ 31 := by
    rw [d1, d2, d3]
    omega
  have hblock := legacy_lba_block E.K u (E.drives driveid).lchs ⟨hlo, hhi⟩ hv hfit
  rw [d1, d2, d3] at hblock
  have hval : chsBlock (E.drives driveid).lchs ((E.drives driveid).lchs.cylinders - 2)
      ((E.drives driveid).lchs.heads - 1) (E.drives driveid).lchs.spt
      = ((E.drives driveid).lchs.cylinders - 1) * (E.drives driveid).lchs.heads
          * (E.drives driveid).lchs.spt - 1 := by omega
  rw [hval] at hblock
  refine ⟨hblock, ?_⟩
  rw [hblock, hcount]
  show ((_ : Nat) : Int) + 1 = _
  omega

/-- Witness of C22: on a 1024/16/63 geometry function 08h returns cylinder
1022, head 15, sector 63; a one-sector request there is block 1031183 and
function 15h returns 1031184. -/
theorem C22_max_chs_roundtrip_witness :
    legacy_lba sampleConfig
        (setAl (disk_1308 (sampleEnv { heads := 16, cylinders := 1024, spt := 63 } 1032192
          idleEngine) (sampleFnState 0x08 0 0x80) 0) 1)
        { heads := 16, cylinders := 1024, spt := 63 }
      = ((((1024 - 1) * 16 * 63 - 1 : Nat) : Int),
          setAl (disk_1308 (sampleEnv { heads := 16, cylinders := 1024, spt := 63 } 1032192
            idleEngine) (sampleFnState 0x08 0 0x80) 0) 1) :=
  ((C22_max_chs_roundtrip
      (sampleEnv { heads := 16, cylinders := 1024, spt := 63 } 1032192 idleEngine)
      (sampleFnState 0x08 0 0x80) (sampleFnState 0x15 0 0x80) 0
      (by decide) (by decide) (by decide)).2.2
    (setAl (disk_1308 (sampleEnv { heads := 16, cylinders := 1024, spt := 63 } 1032192
      idleEngine) (sampleFnState 0x08 0 0x80) 0) 1)
    rfl rfl rfl (by decide) (by decide)).1

end Disk
